import Mathlib

/-! Karuviyan web site: filter, form and theme controllers.

A shallow embedding of the page scripts, with the properties of the written
specification stated and proved (or refuted) over it. Embedded: the filter
controller, the search and the modals of `filaments.js`; the contact forms of
`printer-parts.js` and `3d-printing.js` and the stats counter of the latter;
of `script.js` the `ThemeManager`, the navigation (`MobileMenu`,
`DropdownManager`), the home-page `FormHandler`, the customers carousel and
the blog filter.

Strings. A JavaScript string is a finite sequence of UTF-16 code units; `length`,
`trim`, `split`, `===` and a regular expression without the `u` flag all work
on code units. A string is therefore modelled as a list of code units
(natural numbers), so that `length` is `List.length`.
-/

set_option autoImplicit false

/-- A JavaScript string: its sequence of UTF-16 code units. -/
abbrev JSString := List Nat

/-- The UTF-16 code units of one Unicode scalar value. -/
def utf16Char (c : Char) : List Nat :=
  if c.toNat < 0x10000 then [c.toNat]
  else [0xD800 + (c.toNat - 0x10000) / 0x400, 0xDC00 + (c.toNat - 0x10000) % 0x400]

/-- A string literal of the source, as a JavaScript string. -/
def js (s : String) : JSString := s.data.flatMap utf16Char

/-- Code unit of the space character, the separator of `split(' ')`. -/
def spaceUnit : Nat := 32

/-- Replace the element at position `i` of a list of elements by its image
under `f`: a write to one element of a `querySelectorAll` result. A position
past the end changes nothing. -/
def modifyAt {α : Type} (f : α → α) : Nat → List α → List α
  | _, [] => []
  | 0, a :: l => f a :: l
  | n + 1, a :: l => a :: modifyAt f n l

/-- `String.prototype.split(sep)` for a one-code-unit separator: the maximal
runs between separators, empty runs included; the empty string gives `['']`. -/
def split (sep : Nat) : JSString → List JSString
  | [] => [[]]
  | c :: cs =>
    if c = sep then [] :: split sep cs
    else match split sep cs with
      | [] => [[c]]
      | w :: ws => (c :: w) :: ws

/-! ## filaments.js: filter state and cards -/

/-- A `.filament-card` element: the attributes and inline style the filter
code reads and writes. An absent `data-*` attribute reads as `undefined`,
modelled by `none`. For the search, the text of its `.card-title` and of its
`.card-description` (`none` when the card has no such element) and the texts
of its `.feature-tag` elements. -/
structure Card where
  category : Option JSString
  properties : Option JSString
  display : JSString := []
  fadeIn : Bool := false
  fadeOut : Bool := false
  transform : JSString := []
  opacity : JSString := []
  title : Option JSString := some []
  description : Option JSString := some []
  featureTags : List JSString := []
  deriving DecidableEq

/-- The instance state of `FilamentsManager` (constructor, lines 3-7). -/
structure FilamentsManager where
  currentFilter : JSString
  currentProperties : List JSString
  deriving DecidableEq

namespace FilamentsManager

/-- The `constructor`: `currentFilter = 'all'`, `currentProperties = []`. -/
def constructor : FilamentsManager :=
  { currentFilter := js "all", currentProperties := [] }

/-- The expression `card.dataset.properties ? card.dataset.properties.split(' ') : []`:
an absent or empty attribute is falsy. -/
def cardProperties (card : Card) : List JSString :=
  match card.properties with
  | none => []
  | some [] => []
  | some s => split spaceUnit s

/-- `shouldShowCard(card)`, lines 91-103. -/
def shouldShowCard (m : FilamentsManager) (card : Card) : Bool :=
  let cardCategory := card.category
  let cardProperties := cardProperties card
  let categoryMatch := m.currentFilter == js "all" || cardCategory == some m.currentFilter
  let propertyMatch := m.currentProperties.length == 0 ||
    m.currentProperties.all (fun prop => cardProperties.contains prop)
  categoryMatch && propertyMatch

end FilamentsManager

/-- The values of `card.style` written by the filter code. -/
def displayBlock : JSString := js "block"

/-- The value `'none'` of `card.style.display`. -/
def displayNone : JSString := js "none"

/-- A `.filter-btn` element: its `data-filter` and `data-property` attributes
(`none` when absent) and whether its class list holds `'active'`. -/
structure FilterButton where
  filter : Option JSString
  property : Option JSString
  active : Bool := false
  deriving DecidableEq

/-- Truthiness of a `dataset` read: an absent attribute (`undefined`) and the
empty string are falsy, every other string is truthy. -/
def truthy : Option JSString → Bool
  | some (_ :: _) => true
  | _ => false

/-- The part of the document the filter code touches: the `.filter-btn`
elements and the `.filament-card` elements in document order, the text of the
`.results-count` element when there is one, and whether a `.filaments-grid`
element exists (`updateResultsCount` dereferences it when it has to create the
label). -/
structure Page where
  buttons : List FilterButton
  cards : List Card
  resultsCount : Option JSString := none
  hasGrid : Bool := true
  deriving DecidableEq

/-- The callback of a pending `setTimeout`: the closure of `showCard`
(set transform and opacity of a card) or of `hideCard` (set `display` to
`'none'`), with the card it captured, given by its position in the page. -/
inductive TimerAction where
  | reveal (card : Nat)
  | hide (card : Nat)
  deriving DecidableEq

/-- A pending timer: the time in milliseconds at which it is due and its
callback. -/
structure Timer where
  due : Nat
  action : TimerAction
  deriving DecidableEq

/-- The filaments page at run time: the manager, the document, the clock in
milliseconds and the pending timers in the order of their creation. -/
structure World where
  manager : FilamentsManager
  page : Page
  now : Nat := 0
  timers : List Timer := []
  deriving DecidableEq

namespace FilamentsManager

/-- `showCard(card, index)`, lines 106-116, for the card at position `i`:
the synchronous style changes, and the timer due after `index * 100` ms. -/
def showCard (now : Nat) (card : Card) (i index : Nat) : Card × Timer :=
  ({ card with display := displayBlock, fadeOut := false, fadeIn := true },
   { due := now + index * 100, action := TimerAction.reveal i })

/-- `hideCard(card)`, lines 119-126, for the card at position `i`: the class
changes, and the timer due after 300 ms that sets `display` to `'none'`. -/
def hideCard (now : Nat) (card : Card) (i : Nat) : Card × Timer :=
  ({ card with fadeIn := false, fadeOut := true },
   { due := now + 300, action := TimerAction.hide i })

/-- The `cards.forEach` loop of `applyFilters`, lines 75-84, from the card at
position `i` on with `visibleCount` cards shown so far: the cards after the
loop, the timers it created, and the final `visibleCount`. -/
def applyFiltersLoop (m : FilamentsManager) (now : Nat) :
    List Card → Nat → Nat → List Card × List Timer × Nat
  | [], _, visibleCount => ([], [], visibleCount)
  | card :: rest, i, visibleCount =>
    if m.shouldShowCard card then
      let shown := showCard now card i visibleCount
      let r := applyFiltersLoop m now rest (i + 1) (visibleCount + 1)
      (shown.1 :: r.1, shown.2 :: r.2.1, r.2.2)
    else
      let hidden := hideCard now card i
      let r := applyFiltersLoop m now rest (i + 1) visibleCount
      (hidden.1 :: r.1, hidden.2 :: r.2.1, r.2.2)

/-- Decimal text of a count, as a template literal prints it. -/
def numberToString (n : Nat) : JSString := js (toString n)

/-- The text assigned by `updateResultsCount`, line 147. -/
def resultsText (count : Nat) : JSString :=
  js "Showing " ++ numberToString count ++ js " filament" ++
    (if count ≠ 1 then js "s" else js "")

/-- `updateResultsCount(count)`, lines 129-148. When the label does not exist
it is created and inserted before the grid; without a grid
`grid.parentNode` throws and no text is written (the call is the last
statement of its callers, so nothing else is skipped). -/
def updateResultsCount (p : Page) (count : Nat) : Page :=
  match p.resultsCount with
  | some _ => { p with resultsCount := some (resultsText count) }
  | none =>
    if p.hasGrid then { p with resultsCount := some (resultsText count) }
    else p

/-- `applyFilters()`, lines 71-88. -/
def applyFilters (w : World) : World :=
  let r := applyFiltersLoop w.manager w.now w.page.cards 0 0
  { w with
    page := updateResultsCount { w.page with cards := r.1 } r.2.2
    timers := w.timers ++ r.2.1 }

/-- `handleCategoryFilter(button, filterType)`, lines 42-52, for the button at
position `i`: `'active'` is removed from every `.filter-btn[data-filter]`
and added to the clicked button. -/
def handleCategoryFilter (w : World) (i : Nat) (filterType : JSString) : World :=
  let cleared := w.page.buttons.map
    (fun btn => if btn.filter.isSome then { btn with active := false } else btn)
  let buttons := modifyAt (fun button => { button with active := true }) i cleared
  applyFilters { w with
    page := { w.page with buttons := buttons }
    manager := { w.manager with currentFilter := filterType } }

/-- `handlePropertyFilter(button, propertyType)`, lines 55-68, for the button
at position `i`. -/
def handlePropertyFilter (w : World) (i : Nat) (propertyType : JSString) : World :=
  if w.manager.currentProperties.contains propertyType then
    applyFilters { w with
      manager := { w.manager with
        currentProperties := w.manager.currentProperties.filter (fun prop => prop != propertyType) }
      page := { w.page with
        buttons := modifyAt (fun button => { button with active := false }) i w.page.buttons } }
  else
    applyFilters { w with
      manager := { w.manager with
        currentProperties := w.manager.currentProperties ++ [propertyType] }
      page := { w.page with
        buttons := modifyAt (fun button => { button with active := true }) i w.page.buttons } }

/-- `handleFilterClick(button)`, lines 28-39, for a click whose target is the
`.filter-btn` at position `i`; a target that is no filter button has neither
attribute and nothing happens. -/
def handleFilterClick (w : World) (i : Nat) : World :=
  match w.page.buttons[i]? with
  | none => w
  | some button =>
    if truthy button.filter then
      handleCategoryFilter w i (button.filter.getD [])
    else if truthy button.property then
      handlePropertyFilter w i (button.property.getD [])
    else w

/-- The page right after `new FilamentsManager()`: constructor state, no timer
pending. -/
def start (p : Page) : World :=
  { manager := constructor, page := p, now := 0, timers := [] }

/-- The effect of a timer callback on the document. -/
def fire (p : Page) : TimerAction → Page
  | TimerAction.reveal i =>
    { p with cards := modifyAt (fun card =>
        { card with transform := js "translateY(0) scale(1)", opacity := js "1" }) i p.cards }
  | TimerAction.hide i =>
    { p with cards := modifyAt (fun card => { card with display := displayNone }) i p.cards }

/-- Timers fire in the order of their due times, and in the order of their
creation when due together. -/
def fireOrder (ts : List Timer) : List Timer :=
  ts.insertionSort (fun a b => a.due ≤ b.due)

/-- Let the clock reach `t`: every timer due by then fires, the others stay
pending. -/
def advance (w : World) (t : Nat) : World :=
  let ready := fireOrder (w.timers.filter (fun timer => timer.due ≤ t))
  { w with
    page := ready.foldl (fun p timer => fire p timer.action) w.page
    now := max w.now t
    timers := w.timers.filter (fun timer => ¬ timer.due ≤ t) }

/-- A click on the filter button at position `i`, `delay` ms after the
previous event. -/
def click (w : World) (delay i : Nat) : World :=
  handleFilterClick (advance w (w.now + delay)) i

/-- A sequence of clicks, each given by its delay and its button. -/
def clicks (w : World) (events : List (Nat × Nat)) : World :=
  events.foldl (fun w e => click w e.1 e.2) w

/-- All scheduled timers have fired. -/
def settle (w : World) : World :=
  let ready := fireOrder w.timers
  { w with
    page := ready.foldl (fun p timer => fire p timer.action) w.page
    now := ready.foldl (fun t timer => max t timer.due) w.now
    timers := [] }

/-- A card is displayed when its `display` is not `'none'`. -/
def displayed (card : Card) : Bool := card.display != displayNone

end FilamentsManager

/-! ## printer-parts.js: the contact form -/

/-- The code units that `String.prototype.trim` strips and that `\s` matches
in a regular expression: the WhiteSpace and LineTerminator code points of
ECMAScript (tab, LF, VT, FF, CR, space, no-break space, U+1680,
U+2000..U+200A, U+2028, U+2029, U+202F, U+205F, U+3000, U+FEFF). -/
def isWhiteSpace (c : Nat) : Bool :=
  (0x09 ≤ c && c ≤ 0x0D) || c == 0x20 || c == 0xA0 || c == 0x1680 ||
  (0x2000 ≤ c && c ≤ 0x200A) || c == 0x2028 || c == 0x2029 || c == 0x202F ||
  c == 0x205F || c == 0x3000 || c == 0xFEFF

/-- `String.prototype.trim`: white space removed from both ends. -/
def trim (s : JSString) : JSString :=
  ((s.dropWhile isWhiteSpace).reverse.dropWhile isWhiteSpace).reverse

/-- The regular expressions needed for the patterns of the source: a class of
code units, concatenation, alternation and iteration. -/
inductive RegExp where
  | never
  | empty
  | unit (cls : Nat → Bool)
  | seq (r s : RegExp)
  | alt (r s : RegExp)
  | star (r : RegExp)

namespace RegExp

/-- The quantifier `+`: one or more. -/
def plus (r : RegExp) : RegExp := seq r (star r)

/-- A pattern character that stands for itself. -/
def char (c : Char) : RegExp := unit (fun u => u == c.toNat)

/-- Whether the expression matches the empty string. -/
def nullable : RegExp → Bool
  | never => false
  | empty => true
  | unit _ => false
  | seq r s => r.nullable && s.nullable
  | alt r s => r.nullable || s.nullable
  | star _ => true

/-- The expression matching what is left of a match after the code unit `c`. -/
def deriv : RegExp → Nat → RegExp
  | never, _ => never
  | empty, _ => never
  | unit cls, c => if cls c then empty else never
  | seq r s, c =>
    if r.nullable then alt (seq (r.deriv c) s) (s.deriv c) else seq (r.deriv c) s
  | alt r s, c => alt (r.deriv c) (s.deriv c)
  | star r, c => seq (r.deriv c) (star r)

/-- `/^r$/.test(s)`: the whole of `s` matches `r`. -/
def test (r : RegExp) : JSString → Bool
  | [] => r.nullable
  | c :: cs => (r.deriv c).test cs

/-- The strings an expression matches, as the language of the expression. -/
inductive Matches : RegExp → JSString → Prop where
  | empty : Matches RegExp.empty []
  | unit (cls : Nat → Bool) (c : Nat) : cls c = true → Matches (RegExp.unit cls) [c]
  | seq (r s : RegExp) (x y : JSString) :
      Matches r x → Matches s y → Matches (RegExp.seq r s) (x ++ y)
  | altLeft (r s : RegExp) (x : JSString) : Matches r x → Matches (RegExp.alt r s) x
  | altRight (r s : RegExp) (x : JSString) : Matches s x → Matches (RegExp.alt r s) x
  | starNil (r : RegExp) : Matches (RegExp.star r) []
  | starCons (r : RegExp) (x y : JSString) :
      Matches r x → Matches (RegExp.star r) y → Matches (RegExp.star r) (x ++ y)

end RegExp

/-- The class `[^\s@]`. -/
def notSpaceOrAt (c : Nat) : Bool := !(isWhiteSpace c || c == '@'.toNat)

/-- The body of `emailRegex`, `[^\s@]+@[^\s@]+\.[^\s@]+`, between `^` and `$`. -/
def emailRegex : RegExp :=
  RegExp.seq (RegExp.plus (RegExp.unit notSpaceOrAt))
    (RegExp.seq (RegExp.char '@')
      (RegExp.seq (RegExp.plus (RegExp.unit notSpaceOrAt))
        (RegExp.seq (RegExp.char '.')
          (RegExp.plus (RegExp.unit notSpaceOrAt)))))

/-- `isValidEmail(email)`, lines 125-128. -/
def isValidEmail (email : JSString) : Bool := emailRegex.test email

/-- A form control with its `.form-group`: the control's value, whether the
group carries the class `'error'`, and the texts of the `.error-message`
elements of the group in document order. The control is a child of its own
group, so a message appended to the control's parent is the group's last. -/
structure FormGroup where
  value : JSString
  error : Bool := false
  messages : List JSString := []
  deriving DecidableEq

/-- The controls of the contact form by their `name` attribute. -/
inductive FieldName where
  | name
  | email
  | message
  deriving DecidableEq

/-- The contact form `#contactForm`: its three controls, each with the `blur`
listener `validateField` (lines 25-29), and the control that has the focus, if
one of them has.

`blurClearsFocus` tells what the document's focused element is while `blur`
is dispatched during a change of focus. By the focus update steps of the HTML
Standard it is still the control that loses the focus (`false`). An engine may
instead have no focused element during the dispatch, and give up the pending
change when a listener has focused an element in the meantime (`true`). -/
structure ContactForm where
  name : FormGroup
  email : FormGroup
  message : FormGroup
  focused : Option FieldName := none
  blurClearsFocus : Bool := false
  deriving DecidableEq

namespace ContactForm

/-- The group of a control. -/
def group (form : ContactForm) : FieldName → FormGroup
  | FieldName.name => form.name
  | FieldName.email => form.email
  | FieldName.message => form.message

/-- The form with the group of one control replaced. -/
def setGroup (form : ContactForm) (field : FieldName) (g : FormGroup) : ContactForm :=
  match field with
  | FieldName.name => { form with name := g }
  | FieldName.email => { form with email := g }
  | FieldName.message => { form with message := g }

end ContactForm

/-- `showFieldError(field, message)`, lines 215-237: the group gets the class
`'error'`, its first `.error-message` (if any) is removed, a new one with the
text is appended, and the control is focused. The last step, `field.focus()`,
depends on where the call is made; `focus` is what it does there. -/
def showFieldError (focus : ContactForm → FieldName → ContactForm) (form : ContactForm)
    (field : FieldName) (message : JSString) : ContactForm :=
  let formGroup := form.group field
  focus
    (form.setGroup field
      { formGroup with error := true, messages := formGroup.messages.drop 1 ++ [message] })
    field

/-- `clearFieldError(field)`, lines 239-247. -/
def clearFieldError (form : ContactForm) (field : FieldName) : ContactForm :=
  let formGroup := form.group field
  form.setGroup field { formGroup with error := false, messages := formGroup.messages.drop 1 }

/-- `clearAllErrors(form)`, lines 256-262: every `.error-message` of the form
is removed and every group loses the class `'error'`. -/
def clearAllErrors (form : ContactForm) : ContactForm :=
  { form with
    name := { form.name with error := false, messages := [] }
    email := { form.email with error := false, messages := [] }
    message := { form.message with error := false, messages := [] } }

/-- `field.focus()` called by a `blur` listener of `field` itself: the
document's focused element is `field` still, or none, so that no `blur` is
dispatched, and `field` is the focused element afterwards. -/
def focusInBlur (form : ContactForm) (field : FieldName) : ContactForm :=
  { form with focused := some field }

/-- `validateField(event)`, lines 100-123: the `blur` listener of the control
`field`, run while `blur` is dispatched on it. -/
def validateField (form : ContactForm) (field : FieldName) : ContactForm :=
  let value := trim (form.group field).value
  let form := clearFieldError form field
  match field with
  | FieldName.name =>
    if !value.isEmpty && value.length < 2 then
      showFieldError focusInBlur form field (js "Name must be at least 2 characters")
    else form
  | FieldName.email =>
    if !value.isEmpty && !isValidEmail value then
      showFieldError focusInBlur form field (js "Please enter a valid email address")
    else form
  | FieldName.message =>
    if !value.isEmpty && value.length < 10 then
      showFieldError focusInBlur form field (js "Message must be at least 10 characters")
    else form

/-- `field.focus()`, line 236, called while no listener runs. A control that
has the focus already keeps it and no event is fired. Otherwise, when another
control of the form has the focus, `blur` is dispatched on that control and its
listener `validateField` runs before the focus moves; the move is given up when
the document had no focused element during the dispatch and the listener has
set one. -/
def focus (form : ContactForm) (field : FieldName) : ContactForm :=
  match form.focused with
  | none => { form with focused := some field }
  | some old =>
    if old = field then form
    else
      let blurred :=
        validateField (if form.blurClearsFocus then { form with focused := none } else form) old
      if form.blurClearsFocus && blurred.focused.isSome then blurred
      else { blurred with focused := some field }

/-- `validateForm(form)`, lines 63-98: the form after the calls of
`showFieldError`, and the returned `isValid`. -/
def validateForm (form : ContactForm) : ContactForm × Bool :=
  let name := trim form.name.value
  let email := trim form.email.value
  let message := trim form.message.value
  let isValid := true
  -- Validate name
  let (form, isValid) :=
    if name.isEmpty then (showFieldError focus form FieldName.name (js "Name is required"), false)
    else if name.length < 2 then
      (showFieldError focus form FieldName.name (js "Name must be at least 2 characters"), false)
    else (form, isValid)
  -- Validate email
  let (form, isValid) :=
    if email.isEmpty then (showFieldError focus form FieldName.email (js "Email is required"), false)
    else if !isValidEmail email then
      (showFieldError focus form FieldName.email (js "Please enter a valid email address"), false)
    else (form, isValid)
  -- Validate message
  let (form, isValid) :=
    if message.isEmpty then
      (showFieldError focus form FieldName.message (js "Message is required"), false)
    else if message.length < 10 then
      (showFieldError focus form FieldName.message (js "Message must be at least 10 characters"), false)
    else (form, isValid)
  (form, isValid)

/-- A form with the given raw values, no error shown and nothing focused. -/
def formWith (name email message : JSString) : ContactForm :=
  { name := { value := name }, email := { value := email }, message := { value := message } }

/-! ### Scenarios on the filaments page -/

/-- A page with the category buttons `all` (active in the markup) and `abs`
and one PLA card. -/
def staleHidePage : Page :=
  { buttons := [{ filter := some (js "all"), property := none, active := true },
                { filter := some (js "abs"), property := none }],
    cards := [{ category := some (js "pla"), properties := none }] }

/-- The click sequence `abs` at 0 ms, `all` at 100 ms, then every timer fired. -/
def staleHideRun : World :=
  FilamentsManager.settle (FilamentsManager.clicks (FilamentsManager.start staleHidePage)
    [(0, 1), (100, 0)])

/-- A freshly constructed manager on a page whose markup gives the one
property button the class `'active'`. -/
def presetActiveWorld : World :=
  FilamentsManager.start
    { buttons := [{ filter := none, property := some (js "flexible"), active := true }],
      cards := [] }

/-- A page with two property buttons of the same `data-property`, neither
active in the markup, after a click on the first and a click on the second:
the first click selects `flexible`, the second unselects it. -/
def sharedPropertyWorld : World :=
  FilamentsManager.clicks
    (FilamentsManager.start
      { buttons := [{ filter := none, property := some (js "flexible") },
                    { filter := none, property := some (js "flexible") }],
        cards := [] })
    [(0, 0), (0, 1)]

/-- A page with one category button, one property button and two cards. -/
def samplePage : Page :=
  { buttons := [{ filter := some (js "pla"), property := none },
                { filter := none, property := some (js "flexible") }],
    cards := [{ category := some (js "pla"), properties := some (js "strong flexible") },
              { category := some (js "abs"), properties := some (js "strong") }] }

/-! ## Timers

`setTimeout(callback, delay)` is modelled by a list of pending timers, each
with the time still to wait and the callback as a value. Letting time pass
fires the callbacks in the order of their due times (creation order among
equals); a callback may schedule further timers. -/

/-- A pending timer: the milliseconds left until it is due, and its callback. -/
structure Pending (α : Type) where
  remaining : Nat
  action : α
  deriving DecidableEq

/-- A page with its pending timers, in the order of their creation. -/
structure Timeline (σ α : Type) where
  state : σ
  pending : List (Pending α) := []

namespace Timeline

/-- The timer that fires next (the first created among those due earliest)
and the timers that stay pending. -/
def pickNext {α : Type} : List (Pending α) → Option (Pending α × List (Pending α))
  | [] => none
  | t :: ts =>
    match pickNext ts with
    | none => some (t, [])
    | some (u, rest) => if t.remaining ≤ u.remaining then some (t, ts) else some (u, t :: rest)

/-- A timer after `k` more milliseconds. -/
def wait {α : Type} (k : Nat) (t : Pending α) : Pending α :=
  { t with remaining := t.remaining - k }

/-- The timers created by a callback, given as (delay, callback) pairs. -/
def schedule {α : Type} (created : List (Nat × α)) : List (Pending α) :=
  created.map (fun c => { remaining := c.1, action := c.2 })

/-- Let `d` milliseconds pass, firing at most `fuel` callbacks. `fire` runs a
callback on the page and returns the page and the timers the callback set. -/
def elapse {σ α : Type} (fire : σ → α → σ × List (Nat × α)) :
    Nat → Nat → Timeline σ α → Timeline σ α
  | 0, _, w => w
  | fuel + 1, d, w =>
    match pickNext w.pending with
    | none => w
    | some (task, rest) =>
      if task.remaining ≤ d then
        elapse fire fuel (d - task.remaining)
          { state := (fire w.state task.action).1
            pending := rest.map (wait task.remaining) ++
              schedule (fire w.state task.action).2 }
      else { w with pending := w.pending.map (wait d) }

/-- An upper bound on the callbacks that can still fire: the sum of the ranks
of the pending timers, the rank of a callback counting itself and everything
it can schedule. -/
def weight {α : Type} (rank : α → Nat) (ts : List (Pending α)) : Nat :=
  (ts.map (fun t => rank t.action)).sum

end Timeline

/-! ## printer-parts.js: submission -/

/-- The `.submit-btn` of the form: its `disabled` flag, whether its class list
holds `'loading'`, the class name of its `<i>` child when it has one, and the
text of its last child when that is a text node. -/
structure SubmitButton where
  disabled : Bool := false
  loading : Bool := false
  icon : Option JSString := none
  text : Option JSString := none
  deriving DecidableEq

/-- The inline style properties the submission code writes on the form and on
`#successMessage`. -/
structure BoxStyle where
  display : JSString := []
  opacity : JSString := []
  transform : JSString := []
  transition : JSString := []
  deriving DecidableEq

/-- The default values of the three controls, which `form.reset()` restores. -/
structure FormDefaults where
  name : JSString := []
  email : JSString := []
  message : JSString := []
  deriving DecidableEq

/-- The contact section of the printer-parts page: `#contactForm` with its
controls, their default values and its `.submit-btn`, the inline styles of the
form and of `#successMessage`, whether `preventDefault` was called on the
submit event, and the number of `fetch` calls made. All of these elements
exist on the page. -/
structure ContactPage where
  form : ContactForm
  defaults : FormDefaults := {}
  submitBtn : SubmitButton := {}
  formStyle : BoxStyle := {}
  successStyle : BoxStyle := {}
  defaultPrevented : Bool := false
  fetchCalls : Nat := 0
  deriving DecidableEq

/-- The timer callbacks of the submission code, in the order of the source:
the simulated submission (line 52), the fade-in of the success message
(line 175), `resetContactSection` (line 182), the swap back to the form
(line 192) and the fade-in of the form (line 198). -/
inductive ContactAction where
  | submitted
  | successFadeIn
  | resetSection
  | swapBack
  | formFadeIn
  deriving DecidableEq

/-- `showLoadingState(button)`, lines 134-148. -/
def showLoadingState (button : SubmitButton) : SubmitButton :=
  { disabled := true
    loading := true
    icon := button.icon.map (fun _ => js "fas fa-spinner fa-spin")
    text := button.text.map (fun _ => js "Sending...") }

/-- `hideLoadingState(button)`, lines 150-164. -/
def hideLoadingState (button : SubmitButton) : SubmitButton :=
  { disabled := false
    loading := false
    icon := button.icon.map (fun _ => js "fas fa-paper-plane")
    text := button.text.map (fun _ => js "Send Message") }

/-- `resetForm(form)`, lines 206-209: `form.reset()` and `clearAllErrors`. -/
def resetForm (form : ContactForm) (defaults : FormDefaults) : ContactForm :=
  clearAllErrors
    { form with
      name := { form.name with value := defaults.name }
      email := { form.email with value := defaults.email }
      message := { form.message with value := defaults.message } }

/-- `showSuccessMessage(form, successMessage)`, lines 166-185: the synchronous
style changes and the two timers it sets. -/
def showSuccessMessage (p : ContactPage) : ContactPage × List (Nat × ContactAction) :=
  ({ p with
      formStyle := { p.formStyle with display := js "none" }
      successStyle := { p.successStyle with
        display := js "flex", opacity := js "0", transform := js "translateY(20px)" } },
   [(100, ContactAction.successFadeIn), (5000, ContactAction.resetSection)])

/-- `resetContactSection(form, successMessage)`, lines 187-204: the
synchronous style changes and the timer it sets. -/
def resetContactSection (p : ContactPage) : ContactPage × List (Nat × ContactAction) :=
  ({ p with
      successStyle := { p.successStyle with
        transition := js "all 0.4s ease", opacity := js "0",
        transform := js "translateY(-20px)" } },
   [(400, ContactAction.swapBack)])

/-- `submitToServer(formData)`, lines 423-437: one `fetch` call. No handler of
the page calls it. -/
def submitToServer (p : ContactPage) : ContactPage :=
  { p with fetchCalls := p.fetchCalls + 1 }

namespace ContactPage

/-- A timer callback of the submission code run on the page, with the timers
it sets. -/
def fire (p : ContactPage) : ContactAction → ContactPage × List (Nat × ContactAction)
  | ContactAction.submitted =>
    let p := { p with submitBtn := hideLoadingState p.submitBtn }
    let shown := showSuccessMessage p
    ({ shown.1 with form := resetForm shown.1.form shown.1.defaults }, shown.2)
  | ContactAction.successFadeIn =>
    ({ p with
        successStyle := { p.successStyle with
          transition := js "all 0.4s ease", opacity := js "1",
          transform := js "translateY(0)" } }, [])
  | ContactAction.resetSection => resetContactSection p
  | ContactAction.swapBack =>
    ({ p with
        successStyle := { p.successStyle with display := js "none" }
        formStyle := { p.formStyle with
          display := js "flex", opacity := js "0", transform := js "translateY(20px)" } },
     [(100, ContactAction.formFadeIn)])
  | ContactAction.formFadeIn =>
    ({ p with
        formStyle := { p.formStyle with
          transition := js "all 0.4s ease", opacity := js "1",
          transform := js "translateY(0)" } }, [])

/-- The number of callbacks a callback stands for: itself and the timers it
sets, transitively. -/
def rank : ContactAction → Nat
  | ContactAction.submitted => 5
  | ContactAction.successFadeIn => 1
  | ContactAction.resetSection => 3
  | ContactAction.swapBack => 2
  | ContactAction.formFadeIn => 1

/-- Let `d` milliseconds pass on the page. -/
def advance (w : Timeline ContactPage ContactAction) (d : Nat) :
    Timeline ContactPage ContactAction :=
  Timeline.elapse fire (Timeline.weight rank w.pending) d w

end ContactPage

/-- `handleFormSubmission(event)`, lines 33-57, for a submit event on the
form. -/
def handleFormSubmission (w : Timeline ContactPage ContactAction) :
    Timeline ContactPage ContactAction :=
  let p := { w.state with defaultPrevented := true }
  -- Clear any previous errors
  let p := { p with form := clearAllErrors p.form }
  -- Validate form
  let validated := validateForm p.form
  let p := { p with form := validated.1 }
  if !validated.2 then
    { w with state := p }
  else
    -- Show loading state
    let p := { p with submitBtn := showLoadingState p.submitBtn }
    { state := p
      pending := w.pending ++ Timeline.schedule [(1500, ContactAction.submitted)] }

/-- The page at rest: the given form with its `Send Message` button idle and
no timer pending. -/
def contactPageWith (form : ContactForm) : Timeline ContactPage ContactAction :=
  { state :=
      { form := form
        submitBtn := { icon := some (js "fas fa-paper-plane"), text := some (js "Send Message") } }
    pending := [] }

/-- A form whose three values pass the rules. -/
def validForm : ContactForm :=
  formWith (js "Al") (js "a@b.co") (js "ten chars!")

/-- A form with three empty values on which an earlier message is still shown. -/
def staleErrorForm : ContactForm :=
  { name := { value := js "", error := true, messages := [js "Name must be at least 2 characters"] }
    email := { value := js "" }
    message := { value := js "" } }

/-! ## 3d-printing.js: the contact form -/

/-- The part of the 3d-printing page the submit listener touches: the
`.submit-button` of `#contactForm` (its `innerHTML`, its `disabled` flag and
its inline `background`) and the controls of the form, each with its current
and its default value. -/
structure PrintingForm where
  innerHTML : JSString
  disabled : Bool := false
  background : JSString := []
  fields : List (JSString × JSString) := []
  defaultPrevented : Bool := false
  deriving DecidableEq

/-- The two timer callbacks of the submit listener, lines 601-611; each closes
over `originalText`. -/
inductive PrintingAction where
  | sent (originalText : JSString)
  | restore (originalText : JSString)
  deriving DecidableEq

namespace PrintingForm

/-- `form.reset()`: every control back to its default value. -/
def reset (fields : List (JSString × JSString)) : List (JSString × JSString) :=
  fields.map (fun field => (field.2, field.2))

/-- The callbacks of lines 601-611 run on the page, with the timer the first
one sets. -/
def fire (p : PrintingForm) : PrintingAction → PrintingForm × List (Nat × PrintingAction)
  | PrintingAction.sent originalText =>
    ({ p with
        innerHTML := js "<i class=\"fas fa-check\"></i> Message Sent!"
        background := js "linear-gradient(135deg, #10B981, #059669)" },
     [(2000, PrintingAction.restore originalText)])
  | PrintingAction.restore originalText =>
    ({ p with
        innerHTML := originalText
        disabled := false
        background := js ""
        fields := reset p.fields }, [])

/-- The number of callbacks a callback stands for. -/
def rank : PrintingAction → Nat
  | PrintingAction.sent _ => 2
  | PrintingAction.restore _ => 1

/-- Let `d` milliseconds pass on the page. -/
def advance (w : Timeline PrintingForm PrintingAction) (d : Nat) :
    Timeline PrintingForm PrintingAction :=
  Timeline.elapse fire (Timeline.weight rank w.pending) d w

/-- The submit listener of `initializeFormHandling`, lines 590-612. -/
def submit (w : Timeline PrintingForm PrintingAction) : Timeline PrintingForm PrintingAction :=
  let originalText := w.state.innerHTML
  { state := { w.state with
      defaultPrevented := true
      innerHTML := js "<i class=\"fas fa-spinner fa-spin\"></i> Sending..."
      disabled := true }
    pending := w.pending ++ Timeline.schedule [(1500, PrintingAction.sent originalText)] }

end PrintingForm

/-- The 3d-printing form at rest, with two controls filled in. -/
def printingFormIdle : PrintingForm :=
  { innerHTML := js "<i class=\"fas fa-paper-plane\"></i> Send Message"
    fields := [(js "Al", js ""), (js "a@b.co", js "")] }

/-! ## script.js: ThemeManager -/

/-- What `ThemeManager` reads and writes outside itself: the `data-theme`
attribute of `body` (`none` when absent), the value under the local-storage
key `'theme'` (`none` when absent), the class name of the `<i>` in
`#theme-toggle`, the `content` of `meta[name="theme-color"]` when that element
exists, and the details of the `themeChanged` events dispatched so far. The
rotation of the toggle button and the body transition, which touch style only,
are left out. -/
structure ThemeDocument where
  dataTheme : Option JSString := none
  storedTheme : Option JSString := none
  iconClass : JSString := []
  metaThemeColor : Option JSString := none
  themeChanged : List JSString := []
  deriving DecidableEq

/-- A `ThemeManager` instance with the document it works on. -/
structure ThemeManager where
  currentTheme : JSString
  document : ThemeDocument
  deriving DecidableEq

/-- A call made on a `ThemeManager` after its construction. -/
inductive ThemeCall where
  | toggleTheme
  | setTheme (theme : JSString)
  deriving DecidableEq

namespace ThemeManager

/-- `setTheme(theme)`, lines 22-45. -/
def setTheme (m : ThemeManager) (theme : JSString) : ThemeManager :=
  { currentTheme := theme
    document :=
      { dataTheme := if theme = js "dark" then some (js "dark") else none
        storedTheme := some theme
        iconClass := if theme = js "dark" then js "fas fa-sun" else js "fas fa-moon"
        metaThemeColor := m.document.metaThemeColor.map
          (fun _ => if theme = js "dark" then js "#0a0a0a" else js "#ffffff")
        themeChanged := m.document.themeChanged ++ [theme] } }

/-- The `constructor` with `init`, lines 3-20:
`localStorage.getItem('theme') || 'dark'`, then `setTheme`. -/
def constructor (document : ThemeDocument) : ThemeManager :=
  let currentTheme :=
    match document.storedTheme with
    | some (c :: cs) => c :: cs
    | _ => js "dark"
  setTheme { currentTheme := currentTheme, document := document } currentTheme

/-- `toggleTheme()`, lines 47-56. -/
def toggleTheme (m : ThemeManager) : ThemeManager :=
  let newTheme := if m.currentTheme = js "dark" then js "light" else js "dark"
  setTheme m newTheme

/-- One call on the manager. -/
def call (m : ThemeManager) : ThemeCall → ThemeManager
  | ThemeCall.toggleTheme => toggleTheme m
  | ThemeCall.setTheme theme => setTheme m theme

/-- A manager constructed on a document and the calls made on it since. -/
def run (document : ThemeDocument) (calls : List ThemeCall) : ThemeManager :=
  calls.foldl call (constructor document)

/-- A number of clicks on the toggle button after construction. -/
def toggles (document : ThemeDocument) (n : Nat) : ThemeManager :=
  run document (List.replicate n ThemeCall.toggleTheme)

/-- What `setTheme` establishes: the stored value and the `data-theme`
attribute follow `currentTheme`. -/
def Synced (m : ThemeManager) : Prop :=
  m.document.storedTheme = some m.currentTheme ∧
  m.document.dataTheme = if m.currentTheme = js "dark" then some (js "dark") else none

end ThemeManager

/-- A document whose local storage holds `'blue'` under the key `'theme'`. -/
def blueStoredDocument : ThemeDocument :=
  { storedTheme := some (js "blue") }

/-! ## filaments.js: modals -/

/-- The inline style of a modal element that `showModal` and `closeModal`
write; `createModal` starts it at opacity `0`, visibility `hidden`. -/
structure ModalStyle where
  opacity : JSString
  visibility : JSString
  deriving DecidableEq

/-- A `keydown` listener of `document`: the `escapeHandler` closure made by
`showModal` for a modal, or a listener of some other script. -/
inductive KeyListener where
  | escapeHandler (modal : Nat)
  | other (k : Nat)
  deriving DecidableEq

/-- The part of the document the modal code touches. Elements are named by
numbers: `children` are the child nodes of `body` in order, `overflow` is
`body.style.overflow`, `keydown` the `keydown` listeners of `document` in the
order of their registration, `styles` the inline style of each modal element,
and `uncaught` counts the exceptions thrown out of callbacks. -/
structure ModalDocument where
  children : List Nat := []
  overflow : JSString := []
  keydown : List KeyListener := []
  styles : Nat → ModalStyle := fun _ => { opacity := js "0", visibility := js "hidden" }
  uncaught : Nat := 0

/-- The timer callbacks of the modal code: the reveal of `showModal`
(line 327) and the removal of `closeModal` (line 360), each with the modal it
closes over. -/
inductive ModalAction where
  | reveal (modal : Nat)
  | remove (modal : Nat)
  deriving DecidableEq

/-- The ways of dismissing a modal that `showModal` installs: a click on a
`.modal-close` button, a click on the backdrop (the modal element itself),
and the Escape key. -/
inductive Dismissal where
  | closeButton
  | backdrop
  | escapeKey
  deriving DecidableEq

namespace ModalDocument

/-- Write the inline style of one modal element. -/
def setStyle (p : ModalDocument) (modal : Nat) (style : ModalStyle) : ModalDocument :=
  { p with styles := fun k => if k = modal then style else p.styles k }

/-- The timer callbacks run on the document. `document.body.removeChild(modal)`
throws when the modal is not a child of `body`, and the assignment to
`overflow` after it is then not reached. -/
def fire (p : ModalDocument) : ModalAction → ModalDocument × List (Nat × ModalAction)
  | ModalAction.reveal modal =>
    (p.setStyle modal { opacity := js "1", visibility := js "visible" }, [])
  | ModalAction.remove modal =>
    if modal ∈ p.children then
      ({ p with children := p.children.erase modal, overflow := js "" }, [])
    else
      ({ p with uncaught := p.uncaught + 1 }, [])

/-- The number of callbacks a callback stands for: neither sets a timer. -/
def rank : ModalAction → Nat
  | ModalAction.reveal _ => 1
  | ModalAction.remove _ => 1

/-- Let `d` milliseconds pass on the page. -/
def advance (w : Timeline ModalDocument ModalAction) (d : Nat) :
    Timeline ModalDocument ModalAction :=
  Timeline.elapse fire (Timeline.weight rank w.pending) d w

/-- `showModal(modal)`, lines 322-353: the modal becomes the last child of
`body`, scrolling is blocked, the reveal is scheduled, and `escapeHandler` is
registered on `document`. The click listeners it puts on the modal and its
close buttons are the events `dismiss` below. -/
def showModal (w : Timeline ModalDocument ModalAction) (modal : Nat) :
    Timeline ModalDocument ModalAction :=
  { state := { w.state with
      children := w.state.children.erase modal ++ [modal]
      overflow := js "hidden"
      keydown := w.state.keydown ++ [KeyListener.escapeHandler modal] }
    pending := w.pending ++ Timeline.schedule [(10, ModalAction.reveal modal)] }

/-- `closeModal(modal)`, lines 356-364. -/
def closeModal (w : Timeline ModalDocument ModalAction) (modal : Nat) :
    Timeline ModalDocument ModalAction :=
  { state := w.state.setStyle modal { opacity := js "0", visibility := js "hidden" }
    pending := w.pending ++ Timeline.schedule [(300, ModalAction.remove modal)] }

/-- One `keydown` listener called with the key of the event: `escapeHandler`,
lines 346-351, closes its modal and unregisters itself when the key is
`'Escape'`. -/
def callListener (key : JSString) (w : Timeline ModalDocument ModalAction) :
    KeyListener → Timeline ModalDocument ModalAction
  | KeyListener.escapeHandler modal =>
    if key = js "Escape" then
      let closed := closeModal w modal
      { closed with state := { closed.state with
          keydown := closed.state.keydown.erase (KeyListener.escapeHandler modal) } }
    else w
  | KeyListener.other _ => w

/-- A `keydown` event on `document`: the listeners registered when it is
dispatched are called in order. -/
def keydownEvent (w : Timeline ModalDocument ModalAction) (key : JSString) :
    Timeline ModalDocument ModalAction :=
  w.state.keydown.foldl (callListener key) w

/-- The user dismisses the modal in one of the three ways. -/
def dismiss (w : Timeline ModalDocument ModalAction) (modal : Nat) :
    Dismissal → Timeline ModalDocument ModalAction
  | Dismissal.closeButton => closeModal w modal
  | Dismissal.backdrop => closeModal w modal
  | Dismissal.escapeKey => keydownEvent w (js "Escape")

end ModalDocument

/-- A page with two children of `body`, one `keydown` listener of another
script, and no modal. -/
def modalFreePage : Timeline ModalDocument ModalAction :=
  { state := { children := [0, 1], keydown := [KeyListener.other 0] }, pending := [] }

/-- The modal `7` is shown on `modalFreePage`, dismissed 50 ms later in the
given way, and the 300 ms removal timer has fired. -/
def shownAndDismissed (how : Dismissal) : Timeline ModalDocument ModalAction :=
  ModalDocument.advance
    (ModalDocument.dismiss
      (ModalDocument.advance (ModalDocument.showModal modalFreePage 7) 50) 7 how) 300

/-! ## filaments.js: search -/

/-- `String.prototype.includes(term)`: `term` occurs in `s` as a run of
consecutive code units. -/
def includes : JSString → JSString → Bool
  | [], term => term.isEmpty
  | c :: cs, term => term.isPrefixOf (c :: cs) || includes cs term

/-- `Array.prototype.join(sep)`. -/
def join (sep : JSString) (parts : List JSString) : JSString :=
  sep.intercalate parts

/-- Lower-casing of the ASCII letters, an instance of `toLowerCase` for
strings of ASCII text. -/
def asciiLower (s : JSString) : JSString :=
  s.map (fun c => if 65 ≤ c ∧ c ≤ 90 then c + 32 else c)

namespace FilamentsManager

/-- The condition `matches || searchTerm === ''` of `handleSearch`,
lines 484-488, for a card with the given title and description texts.
`toLowerCase` is the parameter `lower`. -/
def searchMatches (lower : JSString → JSString) (searchTerm : JSString) (card : Card)
    (titleText descriptionText : JSString) : Bool :=
  let title := lower titleText
  let description := lower descriptionText
  let features := join (js " ") (card.featureTags.map lower)
  let matchesTerm := includes title searchTerm || includes description searchTerm ||
    includes features searchTerm
  matchesTerm || searchTerm == js ""

/-- The `cards.forEach` loop of `handleSearch`, lines 478-495. On a card
without `.card-title` or `.card-description` the read of `textContent`
throws, which ends the loop: that card and those after it stay as they are. -/
def handleSearchLoop (lower : JSString → JSString) (searchTerm : JSString) :
    List Card → List Card
  | [] => []
  | card :: rest =>
    match card.title, card.description with
    | some titleText, some descriptionText =>
      (if searchMatches lower searchTerm card titleText descriptionText then
        { card with display := displayBlock, opacity := js "1" }
      else
        { card with opacity := js "0.3" }) :: handleSearchLoop lower searchTerm rest
    | _, _ => card :: rest

/-- `handleSearch(query)`, lines 474-496. -/
def handleSearch (lower : JSString → JSString) (p : Page) (query : JSString) : Page :=
  let searchTerm := trim (lower query)
  { p with cards := handleSearchLoop lower searchTerm p.cards }

end FilamentsManager

/-- A page with two cards for the search. -/
def searchPage : Page :=
  { buttons := []
    cards := [{ category := some (js "pla"), properties := none, display := displayNone,
                title := some (js "PLA Basic"), description := some (js "Easy to print"),
                featureTags := [js "Biodegradable", js "Low Warp"] },
              { category := some (js "abs"), properties := none, display := displayNone,
                title := some (js "ABS Pro"), description := some (js "Tough"),
                featureTags := [js "Heat Resistant"] }] }

/-! ## script.js: MobileMenu and DropdownManager -/

/-- A `.dropdown` element of `MobileMenu`: whether its class list holds
`'active'`, and whether it contains a `.dropdown-toggle` (only then a click
listener is installed for it). -/
structure MenuDropdown where
  active : Bool := false
  hasToggle : Bool := true
  deriving DecidableEq

/-- A `.has-dropdown` element of `DropdownManager`: whether its class list
holds `'open'`, whether it contains a `.nav-link` (its trigger), and the
`aria-expanded` attribute of that trigger (`none` when absent). Different
parents have different triggers. -/
structure DropdownParent where
  isOpen : Bool := false
  hasTrigger : Bool := true
  ariaExpanded : Option JSString := none
  deriving DecidableEq

/-- The navigation: whether `#nav-menu` and `#mobile-menu-toggle` carry
`'active'` (`none` when the element does not exist), the `.dropdown` and the
`.has-dropdown` elements in document order, and the number of exceptions
thrown out of listeners. -/
structure NavState where
  navMenu : Option Bool := some false
  mobileToggle : Option Bool := some false
  dropdowns : List MenuDropdown := []
  dropdownParents : List DropdownParent := []
  uncaught : Nat := 0
  deriving DecidableEq

/-- The listeners a click reaches on its way from its target to `document`:
whether it passes a `.nav-link`, whether that link has the class
`dropdown-toggle`, the `.dropdown` whose toggle it passes, the `.has-dropdown`
whose trigger it passes, whether it passes `#mobile-menu-toggle`, and whether
its target is inside `.navbar`. -/
structure ClickTarget where
  navLink : Bool := false
  dropdownToggleClass : Bool := false
  toggleOf : Option Nat := none
  triggerOf : Option Nat := none
  inMobileToggle : Bool := false
  inNavbar : Bool := true
  deriving DecidableEq

/-- Apply `f` to every element of a list but the one at position `i`: a
`forEach` over all elements that skips the element it was called for. -/
def mapOthers {α : Type} (f : α → α) : Nat → List α → List α
  | _, [] => []
  | 0, a :: l => a :: l.map f
  | i + 1, a :: l => f a :: mapOthers f i l

/-- The text `String(b)` of a boolean. -/
def boolToString (b : Bool) : JSString := if b then js "true" else js "false"

namespace MobileMenu

/-- `toggleMenu()`, lines 121-126. -/
def toggleMenu (s : NavState) : NavState :=
  match s.navMenu, s.mobileToggle with
  | some menu, some toggle => { s with navMenu := some (!menu), mobileToggle := some (!toggle) }
  | _, _ => s

/-- `closeMenu()`, lines 128-133. -/
def closeMenu (s : NavState) : NavState :=
  match s.navMenu, s.mobileToggle with
  | some _, some _ => { s with navMenu := some false, mobileToggle := some false }
  | _, _ => s

/-- `closeAllDropdowns()`, lines 135-139. -/
def closeAllDropdowns (s : NavState) : NavState :=
  { s with dropdowns := s.dropdowns.map (fun dropdown => { dropdown with active := false }) }

/-- The click listener of a nav link, lines 76-80. -/
def navLinkClick (s : NavState) (innerWidth : Nat) (dropdownToggleClass : Bool) : NavState :=
  if !dropdownToggleClass || innerWidth > 768 then closeMenu s else s

/-- The click listener of the toggle of the dropdown at position `i`,
lines 88-100; a dropdown without toggle has no listener. -/
def dropdownToggleClick (s : NavState) (innerWidth i : Nat) : NavState :=
  match s.dropdowns[i]? with
  | none => s
  | some dropdown =>
    if dropdown.hasToggle && innerWidth ≤ 768 then
      let toggled := modifyAt (fun d => { d with active := !d.active }) i s.dropdowns
      -- Close other dropdowns
      { s with dropdowns :=
          mapOthers (fun otherDropdown => { otherDropdown with active := false }) i toggled }
    else s

/-- The click listener of `document`, lines 105-110. -/
def documentClick (s : NavState) (inNavbar : Bool) : NavState :=
  if !inNavbar then closeAllDropdowns (closeMenu s) else s

/-- The resize listener, lines 113-118. -/
def resize (s : NavState) (innerWidth : Nat) : NavState :=
  if innerWidth > 768 then closeAllDropdowns (closeMenu s) else s

end MobileMenu

namespace DropdownManager

/-- One parent closed: `'open'` removed, and `aria-expanded` set to `'false'`
on its trigger when it has one. -/
def closeParent (parent : DropdownParent) : DropdownParent :=
  { parent with
    isOpen := false
    ariaExpanded := if parent.hasTrigger then some (js "false") else parent.ariaExpanded }

/-- `closeAll`, lines 588-594. -/
def closeAll (s : NavState) : NavState :=
  { s with dropdownParents := s.dropdownParents.map closeParent }

/-- The click listener of the trigger of the parent at position `i`,
lines 564-585; `isMobile` is the media query `(max-width: 768px)`. A parent
without trigger has no listener. -/
def triggerClick (s : NavState) (width i : Nat) : NavState :=
  match s.dropdownParents[i]? with
  | none => s
  | some parent =>
    if parent.hasTrigger && width ≤ 768 then
      let isOpen := !parent.isOpen
      let toggled := modifyAt
        (fun p => { p with isOpen := isOpen, ariaExpanded := some (boolToString isOpen) })
        i s.dropdownParents
      -- Close siblings
      if isOpen then
        { s with dropdownParents := mapOthers closeParent i toggled }
      else { s with dropdownParents := toggled }
    else s

/-- The click listener on `#mobile-menu-toggle`, lines 597-604, which runs
after `toggleMenu`. It reads `this.navMenu.classList` unguarded. -/
def menuToggleClick (s : NavState) : NavState :=
  match s.mobileToggle with
  | none => s
  | some _ =>
    match s.navMenu with
    | none => { s with uncaught := s.uncaught + 1 }
    | some active => if !active then closeAll s else s

/-- The resize listener, lines 607-611. -/
def resize (s : NavState) (width : Nat) : NavState :=
  if ¬ width ≤ 768 then closeAll s else s

end DropdownManager

/-- An event on the navigation: a click, or a resize of the window, at the
given viewport width. -/
inductive NavEvent where
  | click (width : Nat) (target : ClickTarget)
  | resize (width : Nat)
  deriving DecidableEq

namespace NavState

/-- A click dispatched to the listeners it reaches: those of the link
(`MobileMenu` nav link, `MobileMenu` dropdown toggle, `DropdownManager`
trigger, in the order of their registration), those of `#mobile-menu-toggle`
(`toggleMenu`, then the `DropdownManager` listener), then the one of
`document`. -/
def click (s : NavState) (width : Nat) (target : ClickTarget) : NavState :=
  let s := if target.navLink then MobileMenu.navLinkClick s width target.dropdownToggleClass else s
  let s := match target.toggleOf with
    | some i => MobileMenu.dropdownToggleClick s width i
    | none => s
  let s := match target.triggerOf with
    | some i => DropdownManager.triggerClick s width i
    | none => s
  let s := if target.inMobileToggle then
      DropdownManager.menuToggleClick (MobileMenu.toggleMenu s)
    else s
  MobileMenu.documentClick s target.inNavbar

/-- One event handled by both managers. -/
def handle (s : NavState) : NavEvent → NavState
  | NavEvent.click width target => click s width target
  | NavEvent.resize width => DropdownManager.resize (MobileMenu.resize s width) width

/-- A sequence of events. -/
def run (s : NavState) (events : List NavEvent) : NavState :=
  events.foldl handle s

end NavState

/-- A navigation with three dropdowns that are also dropdown parents, menu
open, nothing expanded. -/
def sampleNav : NavState :=
  { navMenu := some true
    mobileToggle := some true
    dropdowns := [{}, {}, {}]
    dropdownParents := [{ ariaExpanded := some (js "false") }, { ariaExpanded := some (js "false") },
      { ariaExpanded := some (js "false") }] }

/-- A click on the nav link that is the toggle and trigger of the dropdown at
position `i`. -/
def dropdownLink (i : Nat) : ClickTarget :=
  { navLink := true, dropdownToggleClass := true, toggleOf := some i, triggerOf := some i }

/-- The number of `.dropdown` elements that carry `'active'`. -/
def MobileMenu.activeCount (s : NavState) : Nat :=
  (s.dropdowns.filter (fun dropdown => dropdown.active)).length

/-- The number of `.has-dropdown` elements that carry `'open'`. -/
def DropdownManager.openCount (s : NavState) : Nat :=
  (s.dropdownParents.filter (fun parent => parent.isOpen)).length

/-- A page with the category buttons `all` and `abs` and one PLA card. -/
def searchOverFilterPage : Page :=
  { buttons := [{ filter := some (js "all"), property := none, active := true },
                { filter := some (js "abs"), property := none }],
    cards := [{ category := some (js "pla"), properties := none,
                title := some (js "PLA Basic"), description := some (js "Easy to print") }] }

/-- The `abs` filter is clicked and every timer has fired: the PLA card is
hidden by the filter. -/
def filteredWorld : World :=
  FilamentsManager.settle
    (FilamentsManager.clicks (FilamentsManager.start searchOverFilterPage) [(0, 1)])

/-- A modal is shown on `modalFreePage`, its close button is clicked 50 ms
later, the Escape key is pressed another 50 ms later, and 300 ms pass. -/
def closedTwice : Timeline ModalDocument ModalAction :=
  ModalDocument.advance
    (ModalDocument.dismiss
      (ModalDocument.advance
        (ModalDocument.dismiss
          (ModalDocument.advance (ModalDocument.showModal modalFreePage 7) 50)
          7 Dismissal.closeButton) 50)
      7 Dismissal.escapeKey) 300

/-- A modal is shown on `modalFreePage`, closed by its close button and
removed; a second later the Escape key is pressed, and 300 ms pass. -/
def escapeAfterRemoval : Timeline ModalDocument ModalAction :=
  ModalDocument.advance
    (ModalDocument.dismiss
      (ModalDocument.advance
        (ModalDocument.dismiss
          (ModalDocument.advance (ModalDocument.showModal modalFreePage 7) 50)
          7 Dismissal.closeButton) 1000)
      7 Dismissal.escapeKey) 300

/-! ## script.js: the customers carousel -/

/-- A call of `go` issued by a control of the carousel: the previous and next
buttons, the dot of a slide, a tick of the autoplay interval, and a swipe to
the left or to the right. -/
inductive CarouselEvent where
  | prev
  | next
  | dot (i : Nat)
  | autoplay
  | swipeLeft
  | swipeRight
  deriving DecidableEq

namespace Carousel

/-- `go(i)`, lines 783-793, for `n` slides: the new `index`,
`(i + slides.length) % slides.length`, where `%` is the remainder of
JavaScript, which has the sign of the dividend. -/
def go (n : Nat) (i : Int) : Int :=
  (i + n).tmod n

/-- The `index` after an event, lines 796-830. There is one dot per slide, so
an event of a dot that does not exist changes nothing. -/
def handle (n : Nat) (index : Int) : CarouselEvent → Int
  | CarouselEvent.prev => go n (index - 1)
  | CarouselEvent.next => go n (index + 1)
  | CarouselEvent.dot i => if i < n then go n i else index
  | CarouselEvent.autoplay => go n (index + 1)
  | CarouselEvent.swipeLeft => go n (index + 1)
  | CarouselEvent.swipeRight => go n (index - 1)

/-- The `index` after a sequence of events, from the initial `index = 0`. -/
def run (n : Nat) (events : List CarouselEvent) : Int :=
  events.foldl (handle n) 0

end Carousel

/-! ## script.js: the blog page -/

/-- A `.cat-btn` of `#blog-categories`: whether it carries `'active'`, and
its `data-filter` attribute (`none` when absent, which `getAttribute` reads as
`null`). -/
structure CatButton where
  active : Bool := false
  filter : Option JSString := none
  deriving DecidableEq

/-- A `.blog-card-page` element: its `data-category` and `data-title`
attributes, its `innerText`, and its inline `display`. -/
structure BlogCard where
  category : Option JSString := none
  title : Option JSString := none
  innerText : JSString := []
  display : JSString := []
  deriving DecidableEq

/-- The blog page: the buttons of `#blog-categories` (`none` when there is no
such element), the value of `#blog-search` (`none` when there is no such
element), and the cards of `#blog-grid`. -/
structure BlogPage where
  categories : Option (List CatButton) := none
  searchValue : Option JSString := none
  cards : List BlogCard := []
  deriving DecidableEq

/-- The expression `s || ''` for a string that may be `null` or `undefined`. -/
def orEmpty : Option JSString → JSString
  | some s => s
  | none => []

namespace BlogPage

/-- The `cat` of `applyFilters`, lines 856-857: the `data-filter` of the first
active button, `'all'` when no button is active. -/
def cat (p : BlogPage) : Option JSString :=
  let activeBtn := p.categories.bind (fun buttons => buttons.find? (fun b => b.active))
  match activeBtn with
  | some b => b.filter
  | none => some (js "all")

/-- The `query` of `applyFilters`, line 858; `toLowerCase` is the parameter
`lower`. -/
def query (lower : JSString → JSString) (p : BlogPage) : JSString :=
  trim (lower (orEmpty p.searchValue))

/-- `applyFilters()`, lines 855-866. -/
def applyFilters (lower : JSString → JSString) (p : BlogPage) : BlogPage :=
  let cat := p.cat
  let query := p.query lower
  { p with cards := p.cards.map (fun card =>
      let inCat := cat == some (js "all") || card.category == cat
      let title := lower (orEmpty card.title)
      let text := lower card.innerText
      let matchesQuery := query.isEmpty || includes title query || includes text query
      { card with display := if inCat && matchesQuery then js "" else js "none" }) }

/-- The click listener of `#blog-categories`, lines 868-874, for a click
inside the button at position `i`; a click outside every button (`none`) does
nothing. -/
def categoryClick (lower : JSString → JSString) (p : BlogPage) (target : Option Nat) :
    BlogPage :=
  match p.categories, target with
  | some buttons, some i =>
    if i < buttons.length then
      let cleared := buttons.map (fun b => { b with active := false })
      let marked := modifyAt (fun btn => { btn with active := true }) i cleared
      applyFilters lower { p with categories := some marked }
    else p
  | _, _ => p

end BlogPage

/-- A blog page with the category `news` active and the search `  Lean `. -/
def sampleBlog : BlogPage :=
  { categories := some [{ filter := some (js "all") }, { active := true, filter := some (js "news") }]
    searchValue := some (js "  Lean ")
    cards := [{ category := some (js "news"), title := some (js "Learning LEAN"), innerText := js "x" },
              { category := some (js "news"), title := some (js "Other"), innerText := js "nothing" },
              { category := some (js "tips"), title := some (js "Lean tips"), innerText := js "" }] }

/-! ## script.js: FormHandler -/

/-- A notification element made by `showNotification`: its text, its class
name, its inline background and animation, and whether it is still in the
document. -/
structure Notification where
  message : JSString
  className : JSString
  background : JSString
  animation : JSString
  attached : Bool := true
  deriving DecidableEq

/-- The home-page contact form as `FormHandler` reads it: the values of its
first text input, its email input and its textarea (all three exist), their
default values, the notifications made so far, and whether `preventDefault`
was called. -/
structure HomeForm where
  name : JSString := []
  email : JSString := []
  message : JSString := []
  defaults : FormDefaults := {}
  notifications : List Notification := []
  defaultPrevented : Bool := false
  deriving DecidableEq

/-- The timer callbacks of `showNotification`, lines 541-544, each for the
notification at the given position. -/
inductive NotificationAction where
  | slideOut (k : Nat)
  | remove (k : Nat)
  deriving DecidableEq

namespace FormHandler

/-- The timer callbacks run on the page, with the timer the first one sets. -/
def fire (p : HomeForm) : NotificationAction → HomeForm × List (Nat × NotificationAction)
  | NotificationAction.slideOut k =>
    ({ p with notifications :=
        modifyAt (fun n => { n with animation := js "slideOut 0.3s ease" }) k p.notifications },
     [(300, NotificationAction.remove k)])
  | NotificationAction.remove k =>
    ({ p with notifications :=
        modifyAt (fun n => { n with attached := false }) k p.notifications }, [])

/-- The number of callbacks a callback stands for. -/
def rank : NotificationAction → Nat
  | NotificationAction.slideOut _ => 2
  | NotificationAction.remove _ => 1

/-- Let `d` milliseconds pass on the page. -/
def advance (w : Timeline HomeForm NotificationAction) (d : Nat) :
    Timeline HomeForm NotificationAction :=
  Timeline.elapse fire (Timeline.weight rank w.pending) d w

/-- `showNotification(message, type)`, lines 524-545. -/
def showNotification (w : Timeline HomeForm NotificationAction) (message type : JSString) :
    Timeline HomeForm NotificationAction :=
  let notification : Notification :=
    { message := message
      className := js "notification " ++ type
      background := if type = js "success" then js "#4CAF50" else js "#f44336"
      animation := js "slideIn 0.3s ease" }
  { state := { w.state with notifications := w.state.notifications ++ [notification] }
    pending := w.pending ++
      Timeline.schedule [(3000, NotificationAction.slideOut w.state.notifications.length)] }

/-- `handleSubmit(e)`, lines 504-522. -/
def handleSubmit (w : Timeline HomeForm NotificationAction) :
    Timeline HomeForm NotificationAction :=
  let w := { w with state := { w.state with defaultPrevented := true } }
  let name := w.state.name
  let email := w.state.email
  let message := w.state.message
  -- Simple validation
  if name.isEmpty || email.isEmpty || message.isEmpty then
    showNotification w (js "Please fill in all fields") (js "error")
  else
    -- Simulate form submission
    let w := showNotification w (js "Message sent successfully!") (js "success")
    { w with state := { w.state with
        name := w.state.defaults.name
        email := w.state.defaults.email
        message := w.state.defaults.message } }

end FormHandler

/-! ## 3d-printing.js: the stats counter -/

/-- The class `\d`: the ten ASCII digits. -/
def isDigit (c : Nat) : Bool := 48 ≤ c && c ≤ 57

/-- `s.replace(/[...]/g, '')`: every code unit of the class is removed. -/
def removeAll (cls : Nat → Bool) (s : JSString) : JSString :=
  s.filter (fun c => !cls c)

/-- The numbers the counter code can meet: `NaN`, a non-negative integer that
a double represents, and `Infinity`. -/
inductive JSNumber where
  | nan
  | finite (n : Nat)
  | infinity
  deriving DecidableEq

/-- The double nearest to a non-negative integer, ties to the even
significand: exact up to `2^53`, above it the integer is cut to 53 significant
bits. -/
def roundToDouble (m : Nat) : Nat :=
  if m ≤ 2 ^ 53 then m
  else
    let e := Nat.log2 m - 52
    let q := m / 2 ^ e
    let r := m % 2 ^ e
    let half := 2 ^ (e - 1)
    (if r > half ∨ (r = half ∧ q % 2 = 1) then q + 1 else q) * 2 ^ e

/-- The Number value of a non-negative integer: its nearest double, or
`Infinity` when that would be `2^1024` or more. -/
def toNumber (m : Nat) : JSNumber :=
  if roundToDouble m < 2 ^ 1024 then JSNumber.finite (roundToDouble m) else JSNumber.infinity

/-- The integer written by a string of decimal digits. -/
def digitValue (digits : JSString) : Nat :=
  digits.foldl (fun value c => 10 * value + (c - 48)) 0

/-- `parseInt(s)` on a string without leading white space, sign or prefix, as
`replace(/\D/g, '')` returns it: the digits at its start are read as a decimal
integer, and `NaN` is returned when there is none. -/
def parseInt (s : JSString) : JSNumber :=
  match s.takeWhile isDigit with
  | [] => JSNumber.nan
  | digits => toNumber (digitValue digits)

/-- `Math.round` on the numbers of `JSNumber`, which are integers already. -/
def mathRound (x : JSNumber) : JSNumber := x

/-- The string of a number, as `number + suffix` converts it. Integers from
`10^21` on are written with an exponent, which is not modelled (`none`). -/
def JSNumber.toText : JSNumber → Option JSString
  | JSNumber.nan => some (js "NaN")
  | JSNumber.infinity => some (js "Infinity")
  | JSNumber.finite n => if n < 10 ^ 21 then some (FilamentsManager.numberToString n) else none

/-- What the stats loop of `initializeScrollAnimations`, lines 369-382, takes
from the text of a `.stat-number`. -/
structure StatCounter where
  numericValue : JSNumber
  suffix : JSString
  deriving DecidableEq

namespace StatCounter

/-- Lines 371-373: `parseInt(finalValue.replace(/\D/g, ''))` and
`finalValue.replace(/[\d\s]/g, '')`. -/
def extract (finalValue : JSString) : StatCounter :=
  { numericValue := parseInt (removeAll (fun c => !isDigit c) finalValue)
    suffix := removeAll (fun c => isDigit c || isWhiteSpace c) finalValue }

/-- The text `animateCounter` writes when the tween has reached `target`,
line 539: `Math.round(obj.value) + suffix`. -/
def finalText (counter : StatCounter) : Option JSString :=
  (mathRound counter.numericValue).toText.map (fun text => text ++ counter.suffix)

end StatCounter

/-! ## Theorems -/

/-! ### `split`: the tokens of a string -/

theorem split_ne_nil (sep : Nat) (s : JSString) : split sep s ≠ [] := by
  cases s with
  | nil => simp [split]
  | cons c cs =>
    unfold split
    split_ifs
    · simp
    · split <;> simp

theorem split_no_sep (sep : Nat) (s : JSString) : ∀ t ∈ split sep s, sep ∉ t := by
  induction s with
  | nil => simp [split]
  | cons c cs ih =>
    unfold split
    split_ifs with hc
    · intro t ht
      rcases List.mem_cons.mp ht with h | h
      · simp [h]
      · exact ih t h
    · split
      · intro t ht
        simp only [List.mem_singleton] at ht
        subst ht
        simpa using Ne.symm hc
      · rename_i w ws hsplit
        intro t ht
        rw [hsplit] at ih
        rcases List.mem_cons.mp ht with h | h
        · subst h
          have hw := ih w (List.mem_cons_self _ _)
          simp only [List.mem_cons, not_or]
          exact ⟨Ne.symm hc, hw⟩
        · exact ih t (List.mem_cons_of_mem _ h)

theorem intercalate_cons_cons (sep : Nat) (t u : JSString) (l : List JSString) :
    [sep].intercalate (t :: u :: l) = t ++ sep :: [sep].intercalate (u :: l) := by
  simp [List.intercalate, List.intersperse]

theorem intercalate_split (sep : Nat) (s : JSString) : [sep].intercalate (split sep s) = s := by
  induction s with
  | nil => simp [split, List.intercalate]
  | cons c cs ih =>
    unfold split
    split_ifs with hc
    · cases hsplit : split sep cs with
      | nil => exact absurd hsplit (split_ne_nil sep cs)
      | cons w ws =>
        rw [hsplit] at ih
        rw [intercalate_cons_cons, ih, hc]
        rfl
    · split
      · rename_i hsplit
        exact absurd hsplit (split_ne_nil sep cs)
      · rename_i w ws hsplit
        rw [hsplit] at ih
        cases ws with
        | nil =>
          simp only [List.intercalate, List.intersperse, List.flatten, List.append_nil] at ih ⊢
          rw [ih]
        | cons u us =>
          rw [intercalate_cons_cons] at ih ⊢
          rw [List.cons_append, ih]

theorem split_of_not_mem (sep : Nat) (t : JSString) (h : sep ∉ t) : split sep t = [t] := by
  induction t with
  | nil => rfl
  | cons c cs ih =>
    simp only [List.mem_cons, not_or] at h
    unfold split
    rw [if_neg (Ne.symm h.1), ih h.2]

theorem split_append_sep (sep : Nat) (t r : JSString) (h : sep ∉ t) :
    split sep (t ++ sep :: r) = t :: split sep r := by
  induction t with
  | nil =>
    show split sep (sep :: r) = [] :: split sep r
    simp only [split, if_true]
  | cons c cs ih =>
    simp only [List.mem_cons, not_or] at h
    show split sep (c :: (cs ++ sep :: r)) = (c :: cs) :: split sep r
    simp only [split, if_neg (Ne.symm h.1), ih h.2]

theorem split_intercalate (sep : Nat) (l : List JSString) (hne : l ≠ [])
    (h : ∀ t ∈ l, sep ∉ t) : split sep ([sep].intercalate l) = l := by
  induction l with
  | nil => exact absurd rfl hne
  | cons t rest ih =>
    cases rest with
    | nil =>
      have ht := h t (List.mem_cons_self _ _)
      simp only [List.intercalate, List.intersperse, List.flatten, List.append_nil]
      exact split_of_not_mem sep t ht
    | cons u us =>
      rw [intercalate_cons_cons, split_append_sep sep t _ (h t (List.mem_cons_self _ _)),
        ih (by simp) (fun x hx => h x (List.mem_cons_of_mem _ hx))]

/-- The tokens of `s.split(sep)`: `p` is one of them exactly when `s` is a
list of strings free of `sep`, joined by `sep`, among which is `p`. -/
theorem mem_split_iff (sep : Nat) (s p : JSString) :
    p ∈ split sep s ↔
      ∃ before after : List JSString,
        (∀ t ∈ before ++ p :: after, sep ∉ t) ∧ [sep].intercalate (before ++ p :: after) = s := by
  constructor
  · intro hp
    obtain ⟨before, after, hsplit⟩ := List.append_of_mem hp
    refine ⟨before, after, ?_, ?_⟩
    · rw [← hsplit]; exact split_no_sep sep s
    · rw [← hsplit]; exact intercalate_split sep s
  · rintro ⟨before, after, hfree, hjoin⟩
    rw [← hjoin, split_intercalate sep _ (by simp) hfree]
    simp

/-- C1: `shouldShowCard` is true exactly when the category matches (the filter
is `'all'` or equals the card's category) and the property selection is empty
or each selected property is one of the card's property tokens: the card has a
non-empty `data-properties` that is a list of strings without a space, joined
by single spaces, among which is the property. With an empty selection the
property part never excludes a card. On `data-properties="strong flexible"`
the selections `flexible` and `strong`, `flexible` admit the card, `flex` and
`flexible`, `rigid` do not; a card without the attribute is excluded by every
non-empty selection. -/
theorem FilamentsManager.shouldShowCard_iff :
    (∀ (m : FilamentsManager) (card : Card),
      m.shouldShowCard card = true ↔
        (m.currentFilter = js "all" ∨ card.category = some m.currentFilter) ∧
        (m.currentProperties = [] ∨
          ∀ p ∈ m.currentProperties, ∃ (properties : JSString) (before after : List JSString),
            card.properties = some properties ∧ properties ≠ [] ∧
            (∀ token ∈ before ++ p :: after, spaceUnit ∉ token) ∧
            join (js " ") (before ++ p :: after) = properties)) ∧
    (∀ (filter : JSString) (card : Card),
      FilamentsManager.shouldShowCard
          { currentFilter := filter, currentProperties := [] } card = true ↔
        (filter = js "all" ∨ card.category = some filter)) ∧
    FilamentsManager.shouldShowCard
        { currentFilter := js "all", currentProperties := [js "flexible"] }
        { category := some (js "pla"), properties := some (js "strong flexible") } = true ∧
    FilamentsManager.shouldShowCard
        { currentFilter := js "pla", currentProperties := [js "strong", js "flexible"] }
        { category := some (js "pla"), properties := some (js "strong flexible") } = true ∧
    FilamentsManager.shouldShowCard
        { currentFilter := js "all", currentProperties := [js "flex"] }
        { category := some (js "pla"), properties := some (js "strong flexible") } = false ∧
    FilamentsManager.shouldShowCard
        { currentFilter := js "all", currentProperties := [js "flexible", js "rigid"] }
        { category := some (js "pla"), properties := some (js "strong flexible") } = false ∧
    FilamentsManager.shouldShowCard
        { currentFilter := js "abs", currentProperties := [js "flexible"] }
        { category := some (js "pla"), properties := some (js "strong flexible") } = false ∧
    FilamentsManager.shouldShowCard
        { currentFilter := js "all", currentProperties := [js "flexible"] }
        { category := some (js "pla"), properties := none } = false := by
  have hspace : js " " = [spaceUnit] := by decide
  have htoken : ∀ (card : Card) (p : JSString),
      p ∈ FilamentsManager.cardProperties card ↔
        ∃ (properties : JSString) (before after : List JSString),
          card.properties = some properties ∧ properties ≠ [] ∧
          (∀ token ∈ before ++ p :: after, spaceUnit ∉ token) ∧
          join (js " ") (before ++ p :: after) = properties := by
    intro card p
    unfold FilamentsManager.cardProperties join
    rw [hspace]
    cases hprop : card.properties with
    | none => simp
    | some s =>
      cases s with
      | nil => simp
      | cons c cs =>
        simp only [mem_split_iff, Option.some.injEq]
        constructor
        · rintro ⟨before, after, hfree, hjoin⟩
          exact ⟨c :: cs, before, after, rfl, by simp, hfree, hjoin⟩
        · rintro ⟨properties, before, after, hsome, _, hfree, hjoin⟩
          exact ⟨before, after, hfree, hjoin.trans hsome.symm⟩
  refine ⟨?_, ?_, by decide, by decide, by decide, by decide, by decide, by decide⟩
  · intro m card
    simp only [← htoken]
    simp [FilamentsManager.shouldShowCard, List.length_eq_zero]
  · intro filter card
    simp [FilamentsManager.shouldShowCard]

/-! ### Regular expressions: the matcher decides the language -/

namespace RegExp

theorem not_matches_never (z : JSString) : ¬ Matches never z := by
  intro h; cases h

theorem matches_empty_iff (z : JSString) : Matches empty z ↔ z = [] := by
  constructor
  · intro h; cases h; rfl
  · intro h; subst h; exact Matches.empty

theorem matches_unit_iff (cls : Nat → Bool) (z : JSString) :
    Matches (unit cls) z ↔ ∃ c, z = [c] ∧ cls c = true := by
  constructor
  · intro h; cases h with
    | unit _ c hc => exact ⟨c, rfl, hc⟩
  · rintro ⟨c, rfl, hc⟩; exact Matches.unit cls c hc

theorem matches_seq_iff (r s : RegExp) (z : JSString) :
    Matches (seq r s) z ↔ ∃ x y, z = x ++ y ∧ Matches r x ∧ Matches s y := by
  constructor
  · intro h; cases h with
    | seq _ _ x y hx hy => exact ⟨x, y, rfl, hx, hy⟩
  · rintro ⟨x, y, rfl, hx, hy⟩; exact Matches.seq r s x y hx hy

theorem matches_alt_iff (r s : RegExp) (z : JSString) :
    Matches (alt r s) z ↔ Matches r z ∨ Matches s z := by
  constructor
  · intro h; cases h with
    | altLeft _ _ _ hx => exact Or.inl hx
    | altRight _ _ _ hx => exact Or.inr hx
  · rintro (h | h)
    · exact Matches.altLeft r s z h
    · exact Matches.altRight r s z h

/-- A non-empty match of an iteration starts with a non-empty match of its
body. -/
theorem matches_star_cons (e : RegExp) (z : JSString) (h : Matches e z) :
    ∀ (r : RegExp) (c : Nat) (x : JSString), e = star r → z = c :: x →
      ∃ u v, x = u ++ v ∧ Matches r (c :: u) ∧ Matches (star r) v := by
  induction h with
  | empty => intro r c x he; cases he
  | unit cls c hc => intro r c x he; cases he
  | seq r s x y _ _ _ _ => intro r c x he; cases he
  | altLeft r s x _ _ => intro r c x he; cases he
  | altRight r s x _ _ => intro r c x he; cases he
  | starNil r => intro r c x _ hz; cases hz
  | starCons r x y hx hy _ ihy =>
    intro r' c w he hz
    cases he
    cases x with
    | nil => exact ihy r c w rfl hz
    | cons a u =>
      simp only [List.cons_append, List.cons.injEq] at hz
      obtain ⟨rfl, rfl⟩ := hz
      exact ⟨u, y, rfl, hx, hy⟩

theorem nullable_iff (r : RegExp) : r.nullable = true ↔ Matches r [] := by
  induction r with
  | never => simp [nullable, not_matches_never]
  | empty => simp [nullable, matches_empty_iff]
  | unit cls => simp [nullable, matches_unit_iff]
  | seq r s ihr ihs =>
    simp only [nullable, Bool.and_eq_true, ihr, ihs, matches_seq_iff]
    constructor
    · rintro ⟨hr, hs⟩; exact ⟨[], [], rfl, hr, hs⟩
    · rintro ⟨x, y, hxy, hr, hs⟩
      have hx : x = [] := (List.append_eq_nil.mp hxy.symm).1
      have hy : y = [] := (List.append_eq_nil.mp hxy.symm).2
      subst hx; subst hy; exact ⟨hr, hs⟩
  | alt r s ihr ihs => simp [nullable, ihr, ihs, matches_alt_iff]
  | star r _ => simp [nullable, Matches.starNil]

theorem deriv_iff (r : RegExp) (c : Nat) (x : JSString) :
    Matches (r.deriv c) x ↔ Matches r (c :: x) := by
  induction r generalizing x with
  | never => simp [deriv, not_matches_never]
  | empty => simp [deriv, not_matches_never, matches_empty_iff]
  | unit cls =>
    by_cases hc : cls c = true
    · simp only [deriv, hc, ite_true, matches_empty_iff, matches_unit_iff]
      constructor
      · intro hx; exact ⟨c, by rw [hx], hc⟩
      · rintro ⟨a, ha, _⟩
        simp only [List.cons.injEq] at ha
        exact ha.2
    · simp only [deriv, hc, Bool.false_eq_true, ite_false, not_matches_never,
        matches_unit_iff, false_iff]
      rintro ⟨a, ha, hcls⟩
      simp only [List.cons.injEq] at ha
      rw [← ha.1] at hcls
      exact hc hcls
  | seq r s ihr ihs =>
    have split : Matches (seq r s) (c :: x) ↔
        (∃ u v, x = u ++ v ∧ Matches r (c :: u) ∧ Matches s v) ∨
        (Matches r [] ∧ Matches s (c :: x)) := by
      rw [matches_seq_iff]
      constructor
      · rintro ⟨u, v, huv, hr, hs⟩
        cases u with
        | nil => right; simp only [List.nil_append] at huv; rw [huv]; exact ⟨hr, hs⟩
        | cons a u =>
          simp only [List.cons_append, List.cons.injEq] at huv
          obtain ⟨rfl, rfl⟩ := huv
          exact Or.inl ⟨u, v, rfl, hr, hs⟩
      · rintro (⟨u, v, rfl, hr, hs⟩ | ⟨hr, hs⟩)
        · exact ⟨c :: u, v, rfl, hr, hs⟩
        · exact ⟨[], c :: x, rfl, hr, hs⟩
    rw [split]
    by_cases hn : r.nullable = true
    · simp only [deriv, hn, ite_true, matches_alt_iff, matches_seq_iff, ihr, ihs,
        ← nullable_iff, true_and]
    · simp only [deriv, hn, Bool.false_eq_true, ite_false, matches_seq_iff, ihr,
        ← nullable_iff, false_and, or_false]
  | alt r s ihr ihs => simp [deriv, matches_alt_iff, ihr, ihs]
  | star r ih =>
    simp only [deriv, matches_seq_iff, ih]
    constructor
    · rintro ⟨u, v, rfl, hr, hs⟩
      exact Matches.starCons r (c :: u) v hr hs
    · intro h
      exact matches_star_cons _ _ h r c x rfl rfl

/-- The matcher `test` returns true exactly on the strings of the language. -/
theorem test_iff (r : RegExp) (x : JSString) : r.test x = true ↔ Matches r x := by
  induction x generalizing r with
  | nil => simp [test, nullable_iff]
  | cons c cs ih => simp [test, ih, deriv_iff]

end RegExp

/-! ### Lists of elements -/

theorem getElem?_modifyAt {α : Type} (f : α → α) (i j : Nat) (l : List α) :
    (modifyAt f i l)[j]? = if j = i then l[j]?.map f else l[j]? := by
  induction l generalizing i j with
  | nil => simp [modifyAt]
  | cons a l ih =>
    cases i with
    | zero => cases j <;> simp [modifyAt]
    | succ n => cases j <;> simp [modifyAt, ih]

theorem map_modifyAt {α β : Type} (f : α → α) (proj : α → β) (i : Nat) (l : List α)
    (h : ∀ a, proj (f a) = proj a) : (modifyAt f i l).map proj = l.map proj := by
  induction l generalizing i with
  | nil => simp [modifyAt]
  | cons a l ih => cases i <;> simp [modifyAt, ih, h]

/-! ### Frame lemmas of the filter handlers -/

namespace FilamentsManager

theorem applyFilters_manager (w : World) : (applyFilters w).manager = w.manager := rfl

theorem updateResultsCount_buttons (p : Page) (count : Nat) :
    (updateResultsCount p count).buttons = p.buttons := by
  unfold updateResultsCount
  split
  · rfl
  · split <;> rfl

theorem applyFilters_buttons (w : World) :
    (applyFilters w).page.buttons = w.page.buttons := by
  simp [applyFilters, updateResultsCount_buttons]

/-- The loop of `applyFilters` ends with `visibleCount` raised by the number of
cards that pass `shouldShowCard`. -/
theorem applyFiltersLoop_count (m : FilamentsManager) (now : Nat) (cards : List Card)
    (i visibleCount : Nat) :
    (applyFiltersLoop m now cards i visibleCount).2.2 =
      visibleCount + (cards.filter m.shouldShowCard).length := by
  induction cards generalizing i visibleCount with
  | nil => simp [applyFiltersLoop]
  | cons card rest ih =>
    by_cases h : m.shouldShowCard card = true
    · simp [applyFiltersLoop, h, ih]; omega
    · simp [applyFiltersLoop, h, ih]

theorem handleCategoryFilter_manager (w : World) (i : Nat) (filterType : JSString) :
    (handleCategoryFilter w i filterType).manager =
      { w.manager with currentFilter := filterType } := rfl

theorem handlePropertyFilter_currentFilter (w : World) (i : Nat) (propertyType : JSString) :
    (handlePropertyFilter w i propertyType).manager.currentFilter = w.manager.currentFilter := by
  unfold handlePropertyFilter
  split <;> rfl

/-- No handler changes the `data-filter` attribute of a button. -/
theorem handleFilterClick_filters (w : World) (i : Nat) :
    (handleFilterClick w i).page.buttons.map (fun b => b.filter) =
      w.page.buttons.map (fun b => b.filter) := by
  have hmod : ∀ (l : List FilterButton) (v : Bool),
      (modifyAt (fun button => { button with active := v }) i l).map (fun b => b.filter) =
        l.map (fun b => b.filter) :=
    fun l v => map_modifyAt _ _ i l (fun _ => rfl)
  unfold handleFilterClick
  split
  · rfl
  · split
    · simp only [handleCategoryFilter, applyFilters_buttons, hmod, List.map_map]
      apply List.map_congr_left
      intro b _
      by_cases hb : b.filter.isSome = true <;> simp [hb]
    · split
      · unfold handlePropertyFilter
        split <;> simp only [applyFilters_buttons, hmod]
      · rfl

theorem clicks_filters (w : World) (targets : List Nat) :
    (targets.foldl handleFilterClick w).page.buttons.map (fun b => b.filter) =
      w.page.buttons.map (fun b => b.filter) := by
  induction targets generalizing w with
  | nil => rfl
  | cons i rest ih => simp [List.foldl, ih, handleFilterClick_filters]

end FilamentsManager

/-! ### Claims on the filter controller -/

/-- C2: the claim fails on this run. A PLA card is hidden by a click on `abs`
at 0 ms and admitted again by a click on `all` at 100 ms; `showCard` sets
`display` to `'block'` at once, but the 300 ms timer of the earlier `hideCard`
still fires and sets it to `'none'`. With every timer fired the card satisfies
the predicate of the final state, the label reads one filament, and the card
is not displayed. -/
theorem FilamentsManager.stale_hide_timer_hides_admitted_card :
    staleHideRun.timers = [] ∧
    staleHideRun.manager = FilamentsManager.constructor ∧
    staleHideRun.page.cards.map staleHideRun.manager.shouldShowCard = [true] ∧
    staleHideRun.page.cards.map FilamentsManager.displayed = [false] ∧
    staleHideRun.page.resultsCount = some (js "Showing 1 filament") := by
  decide

/-- C3, as stated, fails: with an empty selection and a property button that
carries `'active'`, two toggles of its property leave the selection empty
again but the button without the class it had before. The class can be there
from the markup, or from the handler itself: with two buttons of one
`data-property`, a click on each leaves the selection empty and the first
button active. -/
theorem FilamentsManager.toggle_twice_active_not_restored :
    presetActiveWorld.manager.currentProperties = [] ∧
    presetActiveWorld.page.buttons.map (fun b => b.active) = [true] ∧
    (handlePropertyFilter (handlePropertyFilter presetActiveWorld 0 (js "flexible"))
      0 (js "flexible")).manager.currentProperties = [] ∧
    (handlePropertyFilter (handlePropertyFilter presetActiveWorld 0 (js "flexible"))
      0 (js "flexible")).page.buttons.map (fun b => b.active) = [false] ∧
    sharedPropertyWorld.manager.currentProperties = [] ∧
    sharedPropertyWorld.page.buttons.map (fun b => b.active) = [true, false] ∧
    (handlePropertyFilter (handlePropertyFilter sharedPropertyWorld 0 (js "flexible"))
      0 (js "flexible")).manager.currentProperties = [] ∧
    (handlePropertyFilter (handlePropertyFilter sharedPropertyWorld 0 (js "flexible"))
      0 (js "flexible")).page.buttons.map (fun b => b.active) = [false, false] := by
  decide

theorem modifyAt_modifyAt {α : Type} (f g : α → α) (i : Nat) (l : List α) :
    modifyAt f i (modifyAt g i l) = modifyAt (fun a => f (g a)) i l := by
  induction l generalizing i with
  | nil => simp [modifyAt]
  | cons a l ih => cases i <;> simp [modifyAt, ih]

/-- C3, amended: two toggles of `p` in a row on the button at position `i`
leave `currentProperties` with the same members as before, every other button
as it was, and the toggled button with `'active'` present exactly when `p` was
selected before the toggles; so the buttons are back to what they were exactly
when the class of the toggled button mirrored the selection before. -/
theorem FilamentsManager.toggle_twice (w : World) (i : Nat) (p : JSString) :
    (∀ q, q ∈ (handlePropertyFilter (handlePropertyFilter w i p) i p).manager.currentProperties ↔
      q ∈ w.manager.currentProperties) ∧
    (handlePropertyFilter (handlePropertyFilter w i p) i p).page.buttons =
      modifyAt (fun button => { button with active := w.manager.currentProperties.contains p })
        i w.page.buttons ∧
    (∀ button, w.page.buttons[i]? = some button →
      ((handlePropertyFilter (handlePropertyFilter w i p) i p).page.buttons = w.page.buttons ↔
        button.active = w.manager.currentProperties.contains p)) := by
  have key : (handlePropertyFilter (handlePropertyFilter w i p) i p).page.buttons =
      modifyAt (fun button => { button with active := w.manager.currentProperties.contains p })
        i w.page.buttons := by
    by_cases h : p ∈ w.manager.currentProperties
    · simp [handlePropertyFilter, h, applyFilters_buttons, applyFilters_manager,
        modifyAt_modifyAt]
    · simp [handlePropertyFilter, h, applyFilters_buttons, applyFilters_manager,
        modifyAt_modifyAt]
  refine ⟨?_, key, ?_⟩
  · intro q
    by_cases h : p ∈ w.manager.currentProperties
    · simp [handlePropertyFilter, h, applyFilters_manager]
      by_cases hq : q = p
      · simp [hq, h]
      · simp [hq]
    · simp [handlePropertyFilter, h, applyFilters_manager]
      intro hq hqp
      exact h (hqp ▸ hq)
  · intro button hb
    rw [key]
    constructor
    · intro heq
      have hi := congrArg (fun l => l[i]?) heq
      simp only [getElem?_modifyAt, hb, Option.map_some', ite_true, Option.some.injEq] at hi
      have hact := congrArg FilterButton.active hi
      exact hact.symm
    · intro hact
      apply List.ext_getElem?
      intro j
      rw [getElem?_modifyAt]
      by_cases hj : j = i
      · subst hj
        cases button
        simp only [hb, Option.map_some', ite_true]
        simp only at hact
        rw [hact]
      · simp [hj]

/-- One click keeps the selection free of duplicates. -/
theorem FilamentsManager.handleFilterClick_nodup (w : World) (i : Nat)
    (h : w.manager.currentProperties.Nodup) :
    (handleFilterClick w i).manager.currentProperties.Nodup := by
  unfold handleFilterClick
  split
  · exact h
  · split
    · exact h
    · split
      · rename_i button _ _ _
        unfold handlePropertyFilter
        by_cases hp : button.property.getD [] ∈ w.manager.currentProperties
        · have hc : w.manager.currentProperties.contains (button.property.getD []) = true := by
            simpa using hp
          simp only [hc, ite_true, applyFilters_manager]
          exact h.filter _
        · have hc : w.manager.currentProperties.contains (button.property.getD []) = false := by
            simpa using hp
          simp only [hc, Bool.false_eq_true, ite_false, applyFilters_manager]
          exact List.Nodup.append h (List.nodup_singleton _) (by simpa using hp)
      · exact h

/-- After one click the category is the one before or the clicked button's. -/
theorem FilamentsManager.handleFilterClick_currentFilter (w : World) (i : Nat) :
    (handleFilterClick w i).manager.currentFilter = w.manager.currentFilter ∨
    ∃ b ∈ w.page.buttons, b.filter = some (handleFilterClick w i).manager.currentFilter := by
  unfold handleFilterClick
  split
  · exact Or.inl rfl
  · rename_i button hb
    split
    · rename_i ht
      refine Or.inr ⟨button, List.getElem?_mem hb, ?_⟩
      rw [handleCategoryFilter_manager]
      cases hf : button.filter with
      | none => simp [hf, truthy] at ht
      | some f => rfl
    · split
      · exact Or.inl (handlePropertyFilter_currentFilter _ _ _)
      · exact Or.inl rfl

/-- C4: from the constructor state, after any sequence of `handleFilterClick`
calls `currentProperties` has no duplicate entry, and `currentFilter` is one
category value: `'all'` or the `data-filter` of a button of the page. -/
theorem FilamentsManager.selection_invariant (p : Page) (targets : List Nat) :
    (targets.foldl handleFilterClick (start p)).manager.currentProperties.Nodup ∧
    ((targets.foldl handleFilterClick (start p)).manager.currentFilter = js "all" ∨
      ∃ b ∈ p.buttons,
        b.filter = some (targets.foldl handleFilterClick (start p)).manager.currentFilter) := by
  have inv : ∀ (ts : List Nat) (w : World),
      w.page.buttons.map (fun b => b.filter) = p.buttons.map (fun b => b.filter) →
      w.manager.currentProperties.Nodup →
      (w.manager.currentFilter = js "all" ∨ ∃ b ∈ p.buttons, b.filter = some w.manager.currentFilter) →
      (ts.foldl handleFilterClick w).manager.currentProperties.Nodup ∧
      ((ts.foldl handleFilterClick w).manager.currentFilter = js "all" ∨
        ∃ b ∈ p.buttons, b.filter = some (ts.foldl handleFilterClick w).manager.currentFilter) := by
    intro ts
    induction ts with
    | nil => intro w _ hn hc; exact ⟨hn, hc⟩
    | cons i rest ih =>
      intro w hb hn hc
      apply ih
      · rw [handleFilterClick_filters, hb]
      · exact handleFilterClick_nodup w i hn
      · rcases handleFilterClick_currentFilter w i with h | ⟨b, hbm, hbf⟩
        · rw [h]; exact hc
        · right
          have hmem : b.filter ∈ w.page.buttons.map (fun b => b.filter) :=
            List.mem_map_of_mem _ hbm
          rw [hb] at hmem
          obtain ⟨b', hb'm, hb'f⟩ := List.mem_map.mp hmem
          exact ⟨b', hb'm, hb'f.trans hbf⟩
  exact inv targets (start p) rfl List.nodup_nil (Or.inl rfl)

/-- C5: a click on a category button (one whose `data-filter` is
`filterType`) sets `currentFilter` to `filterType`, keeps `currentProperties`,
and leaves the clicked button as the only button with a `data-filter`
attribute that carries `'active'`; and after any earlier clicks the category
is that of the last category click. -/
theorem FilamentsManager.handleCategoryFilter_effect (w : World) (i : Nat)
    (button : FilterButton) (filterType : JSString)
    (hb : w.page.buttons[i]? = some button) (hf : button.filter = some filterType) :
    (handleCategoryFilter w i filterType).manager.currentFilter = filterType ∧
    (handleCategoryFilter w i filterType).manager.currentProperties =
      w.manager.currentProperties ∧
    (∀ j b, (handleCategoryFilter w i filterType).page.buttons[j]? = some b →
      b.filter.isSome = true → (b.active = true ↔ j = i)) ∧
    (∀ earlier : List Nat, truthy button.filter = true →
      (handleFilterClick (earlier.foldl handleFilterClick w) i).manager.currentFilter =
        filterType) := by
  refine ⟨rfl, rfl, ?_, ?_⟩
  · intro j b hj hsome
    simp only [handleCategoryFilter, applyFilters_buttons, getElem?_modifyAt,
      List.getElem?_map] at hj
    by_cases hji : j = i
    · subst hji
      simp only [ite_true, hb, Option.map_some', Option.some.injEq] at hj
      simp [← hj]
    · simp only [hji, ite_false] at hj
      cases hw : w.page.buttons[j]? with
      | none => simp [hw] at hj
      | some b0 =>
        simp only [hw, Option.map_some', Option.some.injEq] at hj
        by_cases hb0 : b0.filter.isSome = true
        · simp only [hb0, ite_true] at hj
          simp [← hj, hji]
        · simp only [hb0] at hj
          rw [← hj] at hsome
          exact absurd hsome hb0
  · intro earlier ht
    have hattr := congrArg (fun l => l[i]?) (clicks_filters w earlier)
    simp only [List.getElem?_map, hb, Option.map_some'] at hattr
    cases hw : (earlier.foldl handleFilterClick w).page.buttons[i]? with
    | none => simp [hw] at hattr
    | some b1 =>
      rw [hw] at hattr
      simp only [Option.map_some', Option.some.injEq] at hattr
      rw [hf] at ht
      simp [handleFilterClick, hw, hattr, ht, handleCategoryFilter_manager, hf]

/-- C5 witness: a click on the `pla` button of the sample page. -/
theorem FilamentsManager.handleCategoryFilter_effect_witness :
    (handleCategoryFilter (start samplePage) 0 (js "pla")).manager.currentFilter = js "pla" ∧
    (handleCategoryFilter (start samplePage) 0 (js "pla")).manager.currentProperties =
      (start samplePage).manager.currentProperties ∧
    (∀ j b, (handleCategoryFilter (start samplePage) 0 (js "pla")).page.buttons[j]? = some b →
      b.filter.isSome = true → (b.active = true ↔ j = 0)) ∧
    (∀ earlier : List Nat,
      truthy (FilterButton.mk (some (js "pla")) none false).filter = true →
      (handleFilterClick (earlier.foldl handleFilterClick (start samplePage)) 0).manager.currentFilter =
        js "pla") :=
  FilamentsManager.handleCategoryFilter_effect (start samplePage) 0
    { filter := some (js "pla"), property := none } (js "pla") rfl rfl

/-- C6: when `applyFilters` completes (the label exists, or the grid it is
inserted before does), the label reads `Showing 1 filament` for one passing
card and `Showing N filaments` for any other number `N` of passing cards,
zero included, `N` being the number of cards for which `shouldShowCard` holds. -/
theorem FilamentsManager.applyFilters_resultsCount (w : World)
    (h : w.page.resultsCount.isSome = true ∨ w.page.hasGrid = true) :
    (applyFilters w).page.resultsCount =
      some (if (w.page.cards.filter w.manager.shouldShowCard).length = 1
        then js "Showing 1 filament"
        else js "Showing " ++
          numberToString (w.page.cards.filter w.manager.shouldShowCard).length ++
          js " filaments") := by
  have htext : ∀ n : Nat, resultsText n =
      if n = 1 then js "Showing 1 filament"
      else js "Showing " ++ numberToString n ++ js " filaments" := by
    intro n
    by_cases hn : n = 1
    · subst hn; decide
    · have hs : js " filament" ++ js "s" = js " filaments" := by decide
      simp only [resultsText, hn, ne_eq, not_false_eq_true, ite_true, ite_false,
        List.append_assoc, hs]
  have hcount := applyFiltersLoop_count w.manager w.now w.page.cards 0 0
  simp only [Nat.zero_add] at hcount
  unfold applyFilters updateResultsCount
  simp only [hcount, htext]
  cases hr : w.page.resultsCount with
  | some t => rfl
  | none =>
    have hg : w.page.hasGrid = true := by
      rcases h with h | h
      · simp [hr] at h
      · exact h
    simp [hg]

/-- C6 witness: the sample page under the constructor state shows both cards;
with no card the label reads zero filaments. -/
theorem FilamentsManager.applyFilters_resultsCount_witness :
    (applyFilters (start samplePage)).page.resultsCount = some (js "Showing 2 filaments") ∧
    (applyFilters (start { samplePage with cards := [] })).page.resultsCount =
      some (js "Showing 0 filaments") :=
  ⟨(FilamentsManager.applyFilters_resultsCount (start samplePage) (Or.inr rfl)).trans
      (by decide),
   (FilamentsManager.applyFilters_resultsCount (start { samplePage with cards := [] })
      (Or.inr rfl)).trans (by decide)⟩

/-! ### Claims on the contact form of the printer-parts page -/

theorem isValidEmail_nil : isValidEmail [] = false := by decide

/-- The three cases of the name rule. -/
theorem name_rule_cases (v : JSString) :
    trim v = [] ∨ (trim v ≠ [] ∧ (trim v).length < 2 ∧ ¬ 2 ≤ (trim v).length) ∨
      (trim v ≠ [] ∧ ¬ (trim v).length < 2 ∧ 2 ≤ (trim v).length) := by
  by_cases h : trim v = []
  · exact Or.inl h
  · by_cases h2 : (trim v).length < 2
    · exact Or.inr (Or.inl ⟨h, h2, by omega⟩)
    · exact Or.inr (Or.inr ⟨h, h2, by omega⟩)

/-- The three cases of the email rule. -/
theorem email_rule_cases (v : JSString) :
    trim v = [] ∨ (trim v ≠ [] ∧ isValidEmail (trim v) = false) ∨
      (trim v ≠ [] ∧ isValidEmail (trim v) = true) := by
  by_cases h : trim v = []
  · exact Or.inl h
  · cases h2 : isValidEmail (trim v)
    · exact Or.inr (Or.inl ⟨h, rfl⟩)
    · exact Or.inr (Or.inr ⟨h, rfl⟩)

/-- The three cases of the message rule. -/
theorem message_rule_cases (v : JSString) :
    trim v = [] ∨ (trim v ≠ [] ∧ (trim v).length < 10 ∧ ¬ 10 ≤ (trim v).length) ∨
      (trim v ≠ [] ∧ ¬ (trim v).length < 10 ∧ 10 ≤ (trim v).length) := by
  by_cases h : trim v = []
  · exact Or.inl h
  · by_cases h2 : (trim v).length < 10
    · exact Or.inr (Or.inl ⟨h, h2, by omega⟩)
    · exact Or.inr (Or.inr ⟨h, h2, by omega⟩)

/-- The value `validateForm` returns. -/
theorem validateForm_isValid (form : ContactForm) :
    (validateForm form).2 = true ↔
      2 ≤ (trim form.name.value).length ∧ isValidEmail (trim form.email.value) = true ∧
        10 ≤ (trim form.message.value).length := by
  have hnil : isValidEmail [] = false := by decide
  unfold validateForm
  simp only [List.isEmpty_iff]
  split_ifs <;> simp_all

/-- What `validateForm` leaves in the group of the name control of a form
without earlier errors. An empty name keeps `Name is required` when no later
control fails, or when the focus never reaches the name control. -/
theorem validateForm_name_after_clear (form : ContactForm) :
    (validateForm (clearAllErrors form)).1.name =
      if trim form.name.value = [] then
        if (isValidEmail (trim form.email.value) = true ∧ 10 ≤ (trim form.message.value).length) ∨
            (form.blurClearsFocus = true ∧
              ((form.focused = some FieldName.email ∧ trim form.email.value ≠ [] ∧
                  isValidEmail (trim form.email.value) = false) ∨
               (form.focused = some FieldName.message ∧ trim form.message.value ≠ [] ∧
                  (trim form.message.value).length < 10))) then
          { value := form.name.value, error := true, messages := [js "Name is required"] }
        else { value := form.name.value, error := false, messages := [] }
      else if (trim form.name.value).length < 2 then
        { value := form.name.value, error := true
          messages := [js "Name must be at least 2 characters"] }
      else { value := form.name.value, error := false, messages := [] } := by
  have hnil : isValidEmail [] = false := isValidEmail_nil
  rcases form with ⟨⟨nv, ne, nm⟩, ⟨ev, ee, em⟩, ⟨mv, me, mm⟩, f0, P⟩
  unfold validateForm
  simp only [clearAllErrors, List.isEmpty_iff]
  rcases name_rule_cases nv with h1 | ⟨h1, h2, h2'⟩ | ⟨h1, h2, h2'⟩ <;>
  rcases email_rule_cases ev with h3 | ⟨h3, h4⟩ | ⟨h3, h4⟩ <;>
  rcases message_rule_cases mv with h5 | ⟨h5, h6, h6'⟩ | ⟨h5, h6, h6'⟩ <;>
  cases P <;> rcases f0 with _ | (_ | _ | _) <;>
  simp [*, showFieldError, focus, validateField, focusInBlur, clearFieldError,
    ContactForm.group, ContactForm.setGroup]

/-- What `validateForm` leaves in the group of the email control of a form
without earlier errors. -/
theorem validateForm_email_after_clear (form : ContactForm) :
    (validateForm (clearAllErrors form)).1.email =
      if trim form.email.value = [] then
        if 10 ≤ (trim form.message.value).length ∨
            (form.blurClearsFocus = true ∧
              ((trim form.name.value ≠ [] ∧ (trim form.name.value).length < 2) ∨
               (form.focused = some FieldName.message ∧ trim form.message.value ≠ [] ∧
                  (trim form.message.value).length < 10))) then
          { value := form.email.value, error := true, messages := [js "Email is required"] }
        else { value := form.email.value, error := false, messages := [] }
      else if isValidEmail (trim form.email.value) = false then
        { value := form.email.value, error := true
          messages := [js "Please enter a valid email address"] }
      else { value := form.email.value, error := false, messages := [] } := by
  have hnil : isValidEmail [] = false := isValidEmail_nil
  rcases form with ⟨⟨nv, ne, nm⟩, ⟨ev, ee, em⟩, ⟨mv, me, mm⟩, f0, P⟩
  unfold validateForm
  simp only [clearAllErrors, List.isEmpty_iff]
  rcases name_rule_cases nv with h1 | ⟨h1, h2, h2'⟩ | ⟨h1, h2, h2'⟩ <;>
  rcases email_rule_cases ev with h3 | ⟨h3, h4⟩ | ⟨h3, h4⟩ <;>
  rcases message_rule_cases mv with h5 | ⟨h5, h6, h6'⟩ | ⟨h5, h6, h6'⟩ <;>
  cases P <;> rcases f0 with _ | (_ | _ | _) <;>
  simp [*, showFieldError, focus, validateField, focusInBlur, clearFieldError,
    ContactForm.group, ContactForm.setGroup]

set_option maxHeartbeats 1600000 in
/-- What `validateForm` leaves in the group of the message control, the last
one it focuses: on every form on which the message control has not the focus,
or has no earlier error. -/
theorem validateForm_message (form : ContactForm)
    (hfocus : form.focused = some FieldName.message →
      form.message.error = false ∧ form.message.messages = []) :
    (validateForm form).1.message =
      if trim form.message.value = [] then
        { form.message with
          error := true, messages := form.message.messages.drop 1 ++ [js "Message is required"] }
      else if (trim form.message.value).length < 10 then
        { form.message with
          error := true
          messages := form.message.messages.drop 1 ++
            [js "Message must be at least 10 characters"] }
      else form.message := by
  have hnil : isValidEmail [] = false := isValidEmail_nil
  rcases form with ⟨⟨nv, ne, nm⟩, ⟨ev, ee, em⟩, ⟨mv, me, mm⟩, f0, P⟩
  unfold validateForm
  simp only [List.isEmpty_iff]
  rcases name_rule_cases nv with h1 | ⟨h1, h2, h2'⟩ | ⟨h1, h2, h2'⟩ <;>
  rcases email_rule_cases ev with h3 | ⟨h3, h4⟩ | ⟨h3, h4⟩ <;>
  rcases message_rule_cases mv with h5 | ⟨h5, h6, h6'⟩ | ⟨h5, h6, h6'⟩ <;>
  cases P <;> rcases f0 with _ | (_ | _ | _) <;>
  simp [*, showFieldError, focus, validateField, focusInBlur, clearFieldError,
    ContactForm.group, ContactForm.setGroup] at hfocus ⊢ <;>
  simp [hfocus]

/-- A form that passes is left as it was. -/
theorem validateForm_of_valid (form : ContactForm) (h : (validateForm form).2 = true) :
    (validateForm form).1 = form := by
  have hnil : isValidEmail [] = false := by decide
  unfold validateForm at h ⊢
  simp only [List.isEmpty_iff] at h ⊢
  split_ifs at h ⊢
  simp_all

/-- C7: the claim fails on this run. With the name `Al` and an empty email
and message, `validateForm` shows `Email is required` and focuses the email
control; `message.focus()` then fires `blur` on it, and its listener
`validateField` removes the message of the empty control. `validateForm`
returns false with no message and no error class on the email group, whatever
the document does to the focus during `blur`. -/
theorem validateForm_email_required_removed :
    (validateForm (formWith (js "Al") (js "") (js ""))).2 = false ∧
    (validateForm (formWith (js "Al") (js "") (js ""))).1.email =
      { value := js "", error := false, messages := [] } ∧
    (validateForm (formWith (js "Al") (js "") (js ""))).1.message =
      { value := js "", error := true, messages := [js "Message is required"] } ∧
    (validateForm { formWith (js "Al") (js "") (js "") with blurClearsFocus := true }).1.email =
      { value := js "", error := false, messages := [] } := by
  decide

/-- C8: the claim fails on this run. With an empty name, an empty email and
the message `x`, `validateForm` shows `Name is required` and focuses the name
control; `email.focus()` then fires `blur` on it, and its listener
`validateField` removes the message of the empty control. `validateForm`
returns false with the message of the message control only, whatever the
document does to the focus during `blur`. -/
theorem validateForm_name_required_removed :
    (validateForm (formWith (js "") (js "") (js "x"))).2 = false ∧
    (validateForm (formWith (js "") (js "") (js "x"))).1.name =
      { value := js "", error := false, messages := [] } ∧
    (validateForm (formWith (js "") (js "") (js "x"))).1.email =
      { value := js "", error := false, messages := [] } ∧
    (validateForm (formWith (js "") (js "") (js "x"))).1.message =
      { value := js "x", error := true
        messages := [js "Message must be at least 10 characters"] } ∧
    (validateForm { formWith (js "") (js "") (js "x") with blurClearsFocus := true }).1.name =
      { value := js "", error := false, messages := [] } := by
  decide

/-- C9: with `t` the trimmed message value, `validateForm` shows `Message is
required` on the message group when `t` is empty, `Message must be at least 10
characters` when `t` has between 1 and 9 code units, and leaves the group as
it was when `t` has 10 or more. This holds on every form on which the message
control has not the focus or carries no earlier error, as on every form
`handleFormSubmission` passes: a focused message control is blurred by the
`focus()` of an earlier failing control, and `validateField` then removes an
earlier message. -/
theorem validateForm_message_rule :
    (∀ form : ContactForm,
      (form.focused = some FieldName.message →
        form.message.error = false ∧ form.message.messages = []) →
      trim form.message.value = [] →
      (validateForm form).1.message =
        { form.message with
          error := true
          messages := form.message.messages.drop 1 ++ [js "Message is required"] }) ∧
    (∀ form : ContactForm,
      (form.focused = some FieldName.message →
        form.message.error = false ∧ form.message.messages = []) →
      1 ≤ (trim form.message.value).length → (trim form.message.value).length ≤ 9 →
      (validateForm form).1.message =
        { form.message with
          error := true
          messages := form.message.messages.drop 1 ++
            [js "Message must be at least 10 characters"] }) ∧
    (∀ form : ContactForm,
      (form.focused = some FieldName.message →
        form.message.error = false ∧ form.message.messages = []) →
      10 ≤ (trim form.message.value).length →
      (validateForm form).1.message = form.message) ∧
    (∀ form : ContactForm,
      (validateForm (clearAllErrors form)).1.message.messages =
        (if trim form.message.value = [] then [js "Message is required"]
         else if (trim form.message.value).length < 10 then
           [js "Message must be at least 10 characters"]
         else [])) ∧
    (∀ name email : JSString,
      (validateForm (formWith name email (js "  too short  "))).1.message =
        { value := js "  too short  ", error := true
          messages := [js "Message must be at least 10 characters"] }) ∧
    (∀ name email : JSString,
      (validateForm (formWith name email (js "ten chars!"))).1.message =
        { value := js "ten chars!" }) := by
  have hfree : ∀ name email message : JSString,
      (formWith name email message).focused = some FieldName.message →
        (formWith name email message).message.error = false ∧
          (formWith name email message).message.messages = [] :=
    fun _ _ _ _ => ⟨rfl, rfl⟩
  refine ⟨?_, ?_, ?_, ?_, ?_, ?_⟩
  · intro form hf h
    rw [validateForm_message form hf, if_pos h]
  · intro form hf h1 h9
    have hne : trim form.message.value ≠ [] := by
      intro h0; rw [h0] at h1; simp at h1
    rw [validateForm_message form hf, if_neg hne, if_pos (by omega)]
  · intro form hf h
    have hne : trim form.message.value ≠ [] := by
      intro h0; rw [h0] at h; simp at h
    rw [validateForm_message form hf, if_neg hne, if_neg (by omega)]
  · intro form
    rw [validateForm_message (clearAllErrors form) (fun _ => ⟨rfl, rfl⟩)]
    simp only [clearAllErrors]
    split_ifs <;> simp
  · intro name email
    have h1 : trim (js "  too short  ") ≠ [] := by decide
    have h2 : (trim (js "  too short  ")).length < 10 := by decide
    rw [validateForm_message _ (hfree _ _ _)]
    simp only [formWith]
    rw [if_neg h1, if_pos h2]
    rfl
  · intro name email
    have h1 : trim (js "ten chars!") ≠ [] := by decide
    have h2 : ¬ (trim (js "ten chars!")).length < 10 := by decide
    rw [validateForm_message _ (hfree _ _ _)]
    simp only [formWith]
    rw [if_neg h1, if_neg h2]

/-- C10: the claim fails on this run. With three empty values every rule
fails and `validateForm` returns false, but each `focus()` of a later control
fires `blur` on the control focused before, whose listener `validateField`
removes the `is required` message of the empty control: of the three failing
controls only the last keeps its message, whatever the document does to the
focus during `blur`. -/
theorem validateForm_keeps_last_required_only :
    validateForm (clearAllErrors (formWith (js "") (js "") (js ""))) =
      ({ name := { value := js "", error := false, messages := [] }
         email := { value := js "", error := false, messages := [] }
         message := { value := js "", error := true, messages := [js "Message is required"] }
         focused := some FieldName.message }, false) ∧
    validateForm (clearAllErrors { formWith (js "") (js "") (js "") with blurClearsFocus := true }) =
      ({ name := { value := js "", error := false, messages := [] }
         email := { value := js "", error := false, messages := [] }
         message := { value := js "", error := true, messages := [js "Message is required"] }
         focused := some FieldName.message
         blurClearsFocus := true }, false) := by
  decide

/-! ### Timers: enough fuel gives the result -/

namespace Timeline

theorem weight_append {α : Type} (rank : α → Nat) (l₁ l₂ : List (Pending α)) :
    weight rank (l₁ ++ l₂) = weight rank l₁ + weight rank l₂ := by
  simp [weight]

theorem weight_wait {α : Type} (rank : α → Nat) (k : Nat) (l : List (Pending α)) :
    weight rank (l.map (wait k)) = weight rank l := by
  simp [weight, wait, Function.comp_def]

theorem weight_pickNext {α : Type} (rank : α → Nat) (l : List (Pending α))
    (task : Pending α) (rest : List (Pending α)) (h : pickNext l = some (task, rest)) :
    weight rank l = rank task.action + weight rank rest := by
  induction l generalizing task rest with
  | nil => simp [pickNext] at h
  | cons t ts ih =>
    unfold pickNext at h
    cases hp : pickNext ts with
    | none =>
      rw [hp] at h
      simp only [Option.some.injEq, Prod.mk.injEq] at h
      obtain ⟨rfl, rfl⟩ := h
      cases ts with
      | nil => simp [weight]
      | cons a l =>
        simp only [pickNext] at hp
        split at hp
        · simp at hp
        · split at hp <;> simp at hp
    | some r =>
      obtain ⟨u, rest'⟩ := r
      rw [hp] at h
      simp only at h
      have hu := ih u rest' hp
      split at h
      · simp only [Option.some.injEq, Prod.mk.injEq] at h
        obtain ⟨rfl, rfl⟩ := h
        simp [weight]
      · simp only [Option.some.injEq, Prod.mk.injEq] at h
        obtain ⟨rfl, rfl⟩ := h
        simp only [weight, List.map_cons, List.sum_cons] at hu ⊢
        omega

/-- When every callback has a rank above the ranks of the timers it sets, any
fuel from the weight of the pending timers on gives the same result: no
callback that is due is left unfired for want of fuel. -/
theorem elapse_fuel {σ α : Type} (fire : σ → α → σ × List (Nat × α)) (rank : α → Nat)
    (hrank : ∀ s a, weight rank (schedule (fire s a).2) < rank a) :
    ∀ (n fuel₁ fuel₂ d : Nat) (w : Timeline σ α),
      weight rank w.pending ≤ n → n ≤ fuel₁ → n ≤ fuel₂ →
      elapse fire fuel₁ d w = elapse fire fuel₂ d w := by
  intro n
  induction n with
  | zero =>
    intro fuel₁ fuel₂ d w hw _ _
    have hnil : pickNext w.pending = none := by
      cases hp : pickNext w.pending with
      | none => rfl
      | some r =>
        have := weight_pickNext rank w.pending r.1 r.2 hp
        have := hrank w.state r.1.action
        omega
    cases fuel₁ <;> cases fuel₂ <;> simp [elapse, hnil]
  | succ n ih =>
    intro fuel₁ fuel₂ d w hw h₁ h₂
    obtain ⟨f₁, rfl⟩ : ∃ f, fuel₁ = f + 1 := ⟨fuel₁ - 1, by omega⟩
    obtain ⟨f₂, rfl⟩ : ∃ f, fuel₂ = f + 1 := ⟨fuel₂ - 1, by omega⟩
    unfold elapse
    cases hp : pickNext w.pending with
    | none => rfl
    | some r =>
      obtain ⟨task, rest⟩ := r
      simp only
      split
      · apply ih
        · have h1 := weight_pickNext rank w.pending task rest hp
          have h2 := hrank w.state task.action
          simp only [weight_append, weight_wait]
          omega
        · omega
        · omega
      · rfl

end Timeline

/-! ### Claims on blur validation and submission -/

theorem ContactPage.contact_rank_adequate (s : ContactPage) (a : ContactAction) :
    Timeline.weight ContactPage.rank (Timeline.schedule (ContactPage.fire s a).2) <
      ContactPage.rank a := by
  cases a <;> simp [ContactPage.fire, ContactPage.rank, Timeline.weight, Timeline.schedule,
    showSuccessMessage, resetContactSection]

/-- On this page any fuel from the weight of the pending timers on gives what
`advance` gives. -/
theorem ContactPage.contact_advance_fuel (w : Timeline ContactPage ContactAction) (d fuel : Nat)
    (h : Timeline.weight ContactPage.rank w.pending ≤ fuel) :
    Timeline.elapse ContactPage.fire fuel d w = ContactPage.advance w d :=
  Timeline.elapse_fuel ContactPage.fire ContactPage.rank ContactPage.contact_rank_adequate _ fuel _ d w
    (Nat.le_refl _) h (Nat.le_refl _)

/-- C11, as stated, fails: on a blur with an empty name `validateField` shows
no message, while `validateForm` shows `Name is required` for the same value. -/
theorem validateField_empty_shows_no_required_message :
    (validateField (formWith (js "") (js "a@b.co") (js "ten chars!")) FieldName.name).name.messages
      = [] ∧
    (validateForm (formWith (js "") (js "a@b.co") (js "ten chars!"))).1.name.messages
      = [js "Name is required"] := by
  decide

/-- What the blur listener leaves in the group of its control, on a form
without earlier errors. -/
theorem validateField_after_clear (form : ContactForm) :
    (validateField (clearAllErrors form) FieldName.name).name =
      (if trim form.name.value ≠ [] ∧ (trim form.name.value).length < 2 then
        { value := form.name.value, error := true
          messages := [js "Name must be at least 2 characters"] }
       else { value := form.name.value, error := false, messages := [] }) ∧
    (validateField (clearAllErrors form) FieldName.email).email =
      (if trim form.email.value ≠ [] ∧ isValidEmail (trim form.email.value) = false then
        { value := form.email.value, error := true
          messages := [js "Please enter a valid email address"] }
       else { value := form.email.value, error := false, messages := [] }) ∧
    (validateField (clearAllErrors form) FieldName.message).message =
      (if trim form.message.value ≠ [] ∧ (trim form.message.value).length < 10 then
        { value := form.message.value, error := true
          messages := [js "Message must be at least 10 characters"] }
       else { value := form.message.value, error := false, messages := [] }) := by
  refine ⟨?_, ?_, ?_⟩
  · rcases name_rule_cases form.name.value with h1 | ⟨h1, h2, _⟩ | ⟨h1, h2, _⟩ <;>
    simp [validateField, clearFieldError, showFieldError, focusInBlur, ContactForm.group,
      ContactForm.setGroup, clearAllErrors, *]
  · rcases email_rule_cases form.email.value with h1 | ⟨h1, h2⟩ | ⟨h1, h2⟩ <;>
    simp [validateField, clearFieldError, showFieldError, focusInBlur, ContactForm.group,
      ContactForm.setGroup, clearAllErrors, *]
  · rcases message_rule_cases form.message.value with h1 | ⟨h1, h2, _⟩ | ⟨h1, h2, _⟩ <;>
    simp [validateField, clearFieldError, showFieldError, focusInBlur, ContactForm.group,
      ContactForm.setGroup, clearAllErrors, *]

/-- C11, amended: on a form without earlier errors, for a control whose
trimmed value is not empty, a blur leaves in its group exactly what a submit
leaves there (the same message and class, or none). For a control whose
trimmed value is empty the blur shows no message and no error class, while
the submit leaves the `is required` message and the class on it when every
control after it passes. -/
theorem validateField_agrees_on_nonempty (form : ContactForm) (field : FieldName) :
    (trim (form.group field).value ≠ [] →
      (validateField (clearAllErrors form) field).group field =
        (validateForm (clearAllErrors form)).1.group field) ∧
    (trim (form.group field).value = [] →
      (validateField (clearAllErrors form) field).group field =
        { value := (form.group field).value, error := false, messages := [] } ∧
      ((match field with
          | FieldName.name =>
            RegExp.Matches emailRegex (trim form.email.value) ∧
              10 ≤ (trim form.message.value).length
          | FieldName.email => 10 ≤ (trim form.message.value).length
          | FieldName.message => True) →
        (validateForm (clearAllErrors form)).1.group field =
          { value := (form.group field).value, error := true
            messages := [match field with
              | FieldName.name => js "Name is required"
              | FieldName.email => js "Email is required"
              | FieldName.message => js "Message is required"] })) := by
  have hmatch : ∀ s : JSString, RegExp.Matches emailRegex s ↔ isValidEmail s = true :=
    fun s => (RegExp.test_iff emailRegex s).symm
  have hblur := validateField_after_clear form
  cases field
  · simp only [ContactForm.group]
    rw [hblur.1, validateForm_name_after_clear]
    constructor
    · intro h
      rw [if_neg h]
      by_cases h2 : (trim form.name.value).length < 2
      · rw [if_pos ⟨h, h2⟩, if_pos h2]
      · rw [if_neg (fun hc => h2 hc.2), if_neg h2]
    · intro h
      refine ⟨by rw [if_neg (fun hc => hc.1 h)], ?_⟩
      intro hlater
      rw [if_pos h, if_pos (Or.inl ⟨(hmatch _).mp hlater.1, hlater.2⟩)]
  · simp only [ContactForm.group]
    rw [hblur.2.1, validateForm_email_after_clear]
    constructor
    · intro h
      rw [if_neg h]
      by_cases h2 : isValidEmail (trim form.email.value) = false
      · rw [if_pos ⟨h, h2⟩, if_pos h2]
      · rw [if_neg (fun hc => h2 hc.2), if_neg h2]
    · intro h
      refine ⟨by rw [if_neg (fun hc => hc.1 h)], ?_⟩
      intro hlater
      rw [if_pos h, if_pos (Or.inl hlater)]
  · simp only [ContactForm.group]
    rw [hblur.2.2, validateForm_message (clearAllErrors form) (fun _ => ⟨rfl, rfl⟩)]
    simp only [clearAllErrors]
    constructor
    · intro h
      rw [if_neg h]
      by_cases h2 : (trim form.message.value).length < 10
      · rw [if_pos ⟨h, h2⟩, if_pos h2]
        rfl
      · rw [if_neg (fun hc => h2 hc.2), if_neg h2]
    · intro h
      refine ⟨by rw [if_neg (fun hc => hc.1 h)], ?_⟩
      intro _
      rw [if_pos h]
      rfl

/-- The rules on the three values: what `validateForm` returns. -/
theorem validateForm_clearAllErrors_isValid (form : ContactForm) :
    (validateForm (clearAllErrors form)).2 = true ↔
      2 ≤ (trim form.name.value).length ∧
      RegExp.Matches emailRegex (trim form.email.value) ∧
      10 ≤ (trim form.message.value).length := by
  rw [validateForm_isValid, ← RegExp.test_iff]
  rfl

/-- The messages `validateForm` leaves on a form cleared by `clearAllErrors`,
and the values, which it does not change. -/
theorem validateForm_messages_after_clear (form : ContactForm) :
    (validateForm (clearAllErrors form)).1.name.messages =
      (if trim form.name.value = [] then
         if (isValidEmail (trim form.email.value) = true ∧
               10 ≤ (trim form.message.value).length) ∨
             (form.blurClearsFocus = true ∧
               ((form.focused = some FieldName.email ∧ trim form.email.value ≠ [] ∧
                   isValidEmail (trim form.email.value) = false) ∨
                (form.focused = some FieldName.message ∧ trim form.message.value ≠ [] ∧
                   (trim form.message.value).length < 10))) then
           [js "Name is required"]
         else []
       else if (trim form.name.value).length < 2 then
         [js "Name must be at least 2 characters"]
       else []) ∧
    (validateForm (clearAllErrors form)).1.email.messages =
      (if trim form.email.value = [] then
         if 10 ≤ (trim form.message.value).length ∨
             (form.blurClearsFocus = true ∧
               ((trim form.name.value ≠ [] ∧ (trim form.name.value).length < 2) ∨
                (form.focused = some FieldName.message ∧ trim form.message.value ≠ [] ∧
                   (trim form.message.value).length < 10))) then
           [js "Email is required"]
         else []
       else if isValidEmail (trim form.email.value) = false then
         [js "Please enter a valid email address"]
       else []) ∧
    (validateForm (clearAllErrors form)).1.message.messages =
      (if trim form.message.value = [] then [js "Message is required"]
       else if (trim form.message.value).length < 10 then
         [js "Message must be at least 10 characters"]
       else []) ∧
    (validateForm (clearAllErrors form)).1.name.value = form.name.value ∧
    (validateForm (clearAllErrors form)).1.email.value = form.email.value ∧
    (validateForm (clearAllErrors form)).1.message.value = form.message.value := by
  refine ⟨?_, ?_, ?_, ?_, ?_, ?_⟩
  · rw [validateForm_name_after_clear]
    split_ifs <;> rfl
  · rw [validateForm_email_after_clear]
    split_ifs <;> rfl
  · rw [validateForm_message (clearAllErrors form) (fun _ => ⟨rfl, rfl⟩)]
    simp only [clearAllErrors]
    split_ifs <;> simp
  · rw [validateForm_name_after_clear]
    split_ifs <;> rfl
  · rw [validateForm_email_after_clear]
    split_ifs <;> rfl
  · rw [validateForm_message (clearAllErrors form) (fun _ => ⟨rfl, rfl⟩)]
    simp only [clearAllErrors]
    split_ifs <;> rfl

/-- C12: on a form with a failing rule `handleFormSubmission` calls
`preventDefault`, leaves the form as `validateForm` leaves it after
`clearAllErrors` and returns. Earlier messages are gone; each group shows
either nothing or the one message of its control's current value, and never a
message on a passing control; the message of the last failing control is
shown. The values, the submit button, the pending timers, the inline styles
and the number of `fetch` calls are as before. -/
theorem handleFormSubmission_invalid (w : Timeline ContactPage ContactAction)
    (h : ¬ (2 ≤ (trim w.state.form.name.value).length ∧
      RegExp.Matches emailRegex (trim w.state.form.email.value) ∧
      10 ≤ (trim w.state.form.message.value).length)) :
    (handleFormSubmission w).state.defaultPrevented = true ∧
    (handleFormSubmission w).state.form = (validateForm (clearAllErrors w.state.form)).1 ∧
    ((handleFormSubmission w).state.form.name.messages = [] ∨
      (handleFormSubmission w).state.form.name.messages =
        (if trim w.state.form.name.value = [] then [js "Name is required"]
         else [js "Name must be at least 2 characters"]) ∧
      ¬ 2 ≤ (trim w.state.form.name.value).length) ∧
    ((handleFormSubmission w).state.form.email.messages = [] ∨
      (handleFormSubmission w).state.form.email.messages =
        (if trim w.state.form.email.value = [] then [js "Email is required"]
         else [js "Please enter a valid email address"]) ∧
      ¬ RegExp.Matches emailRegex (trim w.state.form.email.value)) ∧
    (handleFormSubmission w).state.form.message.messages =
      (if trim w.state.form.message.value = [] then [js "Message is required"]
       else if (trim w.state.form.message.value).length < 10 then
         [js "Message must be at least 10 characters"]
       else []) ∧
    ((handleFormSubmission w).state.form.name.messages ≠ [] ∨
      (handleFormSubmission w).state.form.email.messages ≠ [] ∨
      (handleFormSubmission w).state.form.message.messages ≠ []) ∧
    (handleFormSubmission w).state.form.name.value = w.state.form.name.value ∧
    (handleFormSubmission w).state.form.email.value = w.state.form.email.value ∧
    (handleFormSubmission w).state.form.message.value = w.state.form.message.value ∧
    (handleFormSubmission w).state.submitBtn = w.state.submitBtn ∧
    (handleFormSubmission w).pending = w.pending ∧
    (handleFormSubmission w).state.formStyle = w.state.formStyle ∧
    (handleFormSubmission w).state.successStyle = w.state.successStyle ∧
    (handleFormSubmission w).state.fetchCalls = w.state.fetchCalls := by
  have hmatch : ∀ s : JSString, RegExp.Matches emailRegex s ↔ isValidEmail s = true :=
    fun s => (RegExp.test_iff emailRegex s).symm
  have hv : (validateForm (clearAllErrors w.state.form)).2 = false := by
    cases hb : (validateForm (clearAllErrors w.state.form)).2 with
    | false => rfl
    | true => exact absurd ((validateForm_clearAllErrors_isValid _).mp hb) h
  have hw : handleFormSubmission w =
      { w with state := { w.state with
          defaultPrevented := true
          form := (validateForm (clearAllErrors w.state.form)).1 } } := by
    simp [handleFormSubmission, hv]
  obtain ⟨hname, hemail, hmessage, hv1, hv2, hv3⟩ :=
    validateForm_messages_after_clear w.state.form
  rw [hw]
  refine ⟨rfl, rfl, ?_, ?_, hmessage, ?_, hv1, hv2, hv3, rfl, rfl, rfl, rfl, rfl⟩
  · show (validateForm (clearAllErrors w.state.form)).1.name.messages = [] ∨ _
    rw [hname]
    split_ifs with h1 h2 h3
    · exact Or.inr ⟨rfl, by rw [h1]; simp⟩
    · exact Or.inl rfl
    · exact Or.inr ⟨rfl, by omega⟩
    · exact Or.inl rfl
  · show (validateForm (clearAllErrors w.state.form)).1.email.messages = [] ∨ _
    rw [hemail, hmatch]
    split_ifs with h1 h2 h3
    · exact Or.inr ⟨rfl, by rw [h1, isValidEmail_nil]; simp⟩
    · exact Or.inl rfl
    · exact Or.inr ⟨rfl, by rw [h3]; simp⟩
    · exact Or.inl rfl
  · show (validateForm (clearAllErrors w.state.form)).1.name.messages ≠ [] ∨
      (validateForm (clearAllErrors w.state.form)).1.email.messages ≠ [] ∨
      (validateForm (clearAllErrors w.state.form)).1.message.messages ≠ []
    rw [hname, hemail, hmessage]
    have h' : ¬ (2 ≤ (trim w.state.form.name.value).length ∧
        isValidEmail (trim w.state.form.email.value) = true ∧
        10 ≤ (trim w.state.form.message.value).length) := by
      rw [← hmatch]; exact h
    rcases name_rule_cases w.state.form.name.value with h1 | ⟨h1, h2, h2'⟩ | ⟨h1, h2, h2'⟩ <;>
    rcases email_rule_cases w.state.form.email.value with h3 | ⟨h3, h4⟩ | ⟨h3, h4⟩ <;>
    rcases message_rule_cases w.state.form.message.value with
      h5 | ⟨h5, h6, h6'⟩ | ⟨h5, h6, h6'⟩ <;>
    simp [*] at h' ⊢

/-- C12 witness: three empty values, with a stale message on the name. -/
theorem handleFormSubmission_invalid_witness :
    (handleFormSubmission (contactPageWith staleErrorForm)).state.form.name.messages = [] ∧
    (handleFormSubmission (contactPageWith staleErrorForm)).state.form.message.messages =
      [js "Message is required"] ∧
    (handleFormSubmission (contactPageWith staleErrorForm)).state.submitBtn =
      (contactPageWith staleErrorForm).state.submitBtn ∧
    (handleFormSubmission (contactPageWith staleErrorForm)).pending = [] ∧
    (handleFormSubmission (contactPageWith staleErrorForm)).state.fetchCalls = 0 :=
  have h := handleFormSubmission_invalid (contactPageWith staleErrorForm) (by
    intro hr
    exact absurd hr.1 (by decide))
  ⟨by decide, h.2.2.2.2.1, h.2.2.2.2.2.2.2.2.2.1, h.2.2.2.2.2.2.2.2.2.2.1,
    h.2.2.2.2.2.2.2.2.2.2.2.2.2⟩

/-- C13, as stated, fails: on a valid form the success state is first shown
at 1500 ms (not yet at 1499 ms), and at that same moment the button is already
back to `Send Message`, enabled and not loading, and the values are reset: the
reset does not wait for a further delay. -/
theorem handleFormSubmission_resets_with_success :
    (ContactPage.advance (handleFormSubmission (contactPageWith validForm)) 1499).state.successStyle.display
      = js "" ∧
    (ContactPage.advance (handleFormSubmission (contactPageWith validForm)) 1499).state.submitBtn.text
      = some (js "Sending...") ∧
    (ContactPage.advance (handleFormSubmission (contactPageWith validForm)) 1500).state.successStyle.display
      = js "flex" ∧
    (ContactPage.advance (handleFormSubmission (contactPageWith validForm)) 1500).state.submitBtn
      = (contactPageWith validForm).state.submitBtn ∧
    (ContactPage.advance (handleFormSubmission (contactPageWith validForm)) 1500).state.form
      = formWith (js "") (js "") (js "") := by
  decide

/-- C13, amended: on a form that passes the three rules, with no timer
pending, `handleFormSubmission` disables the button, marks it loading and
sets its text to `Sending...`; it stays so until 1500 ms have passed. The
callback at 1500 ms at once resets the loading state (`Send Message`, enabled,
not loading), resets the form (default values, no message) and shows the
success state (form hidden, success message displayed); the button stays
idle from then on, and 5400 ms later (6900 ms after the submission) the
success message is hidden and the form displayed again. -/
theorem handleFormSubmission_valid (p : ContactPage)
    (h : 2 ≤ (trim p.form.name.value).length ∧
      RegExp.Matches emailRegex (trim p.form.email.value) ∧
      10 ≤ (trim p.form.message.value).length) :
    (handleFormSubmission { state := p, pending := [] }).state.submitBtn =
      { disabled := true, loading := true
        icon := p.submitBtn.icon.map (fun _ => js "fas fa-spinner fa-spin")
        text := p.submitBtn.text.map (fun _ => js "Sending...") } ∧
    (∀ d, d < 1500 →
      (ContactPage.advance (handleFormSubmission { state := p, pending := [] }) d).state =
        (handleFormSubmission { state := p, pending := [] }).state) ∧
    (∀ d, 1500 ≤ d →
      (ContactPage.advance (handleFormSubmission { state := p, pending := [] }) d).state.submitBtn =
        { disabled := false, loading := false
          icon := p.submitBtn.icon.map (fun _ => js "fas fa-paper-plane")
          text := p.submitBtn.text.map (fun _ => js "Send Message") } ∧
      (ContactPage.advance (handleFormSubmission { state := p, pending := [] }) d).state.form =
        { name := { value := p.defaults.name }
          email := { value := p.defaults.email }
          message := { value := p.defaults.message }
          focused := p.form.focused
          blurClearsFocus := p.form.blurClearsFocus }) ∧
    (∀ d, 1500 ≤ d → d < 6900 →
      (ContactPage.advance (handleFormSubmission { state := p, pending := [] }) d).state.successStyle.display =
        js "flex" ∧
      (ContactPage.advance (handleFormSubmission { state := p, pending := [] }) d).state.formStyle.display =
        js "none") ∧
    (∀ d, 6900 ≤ d →
      (ContactPage.advance (handleFormSubmission { state := p, pending := [] }) d).state.successStyle.display =
        js "none" ∧
      (ContactPage.advance (handleFormSubmission { state := p, pending := [] }) d).state.formStyle.display =
        js "flex") := by
  have hv : (validateForm (clearAllErrors p.form)).2 = true :=
    (validateForm_clearAllErrors_isValid p.form).mpr h
  have hform : (validateForm (clearAllErrors p.form)).1 = clearAllErrors p.form :=
    validateForm_of_valid _ hv
  have hw : handleFormSubmission { state := p, pending := [] } =
      { state := { p with
          defaultPrevented := true
          form := clearAllErrors p.form
          submitBtn := showLoadingState p.submitBtn }
        pending := [{ remaining := 1500, action := ContactAction.submitted }] } := by
    simp [handleFormSubmission, hv, hform, Timeline.schedule]
  rw [hw]
  refine ⟨rfl, ?_, ?_, ?_, ?_⟩
  · intro d hd
    have hd' : ¬ 1500 ≤ d := by omega
    simp [ContactPage.advance, Timeline.weight, ContactPage.rank, Timeline.elapse,
      Timeline.pickNext, hd']
  · intro d hd
    constructor
    · simp [ContactPage.advance, Timeline.weight, ContactPage.rank, Timeline.elapse,
        Timeline.pickNext, Timeline.schedule, Timeline.wait, ContactPage.fire,
        showSuccessMessage, resetContactSection, hd]
      split_ifs <;> simp [hideLoadingState, showLoadingState, Function.comp_def]
    · simp [ContactPage.advance, Timeline.weight, ContactPage.rank, Timeline.elapse,
        Timeline.pickNext, Timeline.schedule, Timeline.wait, ContactPage.fire,
        showSuccessMessage, resetContactSection, hd]
      split_ifs <;> simp [resetForm, clearAllErrors]
  · intro d hd hd2
    constructor
    · simp [ContactPage.advance, Timeline.weight, ContactPage.rank, Timeline.elapse,
        Timeline.pickNext, Timeline.schedule, Timeline.wait, ContactPage.fire,
        showSuccessMessage, resetContactSection, hd]
      split_ifs <;> first | rfl | omega
    · simp [ContactPage.advance, Timeline.weight, ContactPage.rank, Timeline.elapse,
        Timeline.pickNext, Timeline.schedule, Timeline.wait, ContactPage.fire,
        showSuccessMessage, resetContactSection, hd]
      split_ifs <;> first | rfl | omega
  · intro d hd
    have h1 : 1500 ≤ d := by omega
    have h2 : 100 ≤ d - 1500 := by omega
    have h3 : 4900 ≤ d - 1500 - 100 := by omega
    have h4 : 400 ≤ d - 1500 - 100 - 4900 := by omega
    constructor
    · simp [ContactPage.advance, Timeline.weight, ContactPage.rank, Timeline.elapse,
        Timeline.pickNext, Timeline.schedule, Timeline.wait, ContactPage.fire,
        showSuccessMessage, resetContactSection, h1, h2, h3, h4]
      split_ifs <;> rfl
    · simp [ContactPage.advance, Timeline.weight, ContactPage.rank, Timeline.elapse,
        Timeline.pickNext, Timeline.schedule, Timeline.wait, ContactPage.fire,
        showSuccessMessage, resetContactSection, h1, h2, h3, h4]
      split_ifs <;> rfl

/-- C13 witness: the form `Al`, `a@b.co`, `ten chars!` on the page at rest. -/
theorem handleFormSubmission_valid_witness :
    (handleFormSubmission (contactPageWith validForm)).state.submitBtn =
      { disabled := true, loading := true
        icon := some (js "fas fa-spinner fa-spin"), text := some (js "Sending...") } ∧
    (ContactPage.advance (handleFormSubmission (contactPageWith validForm)) 7000).state.submitBtn =
      (contactPageWith validForm).state.submitBtn :=
  have h := handleFormSubmission_valid (contactPageWith validForm).state
    ⟨by decide, (RegExp.test_iff _ _).mp (by decide), by decide⟩
  ⟨h.1, (h.2.2.1 7000 (by decide)).1⟩

/-! ### Claims on the contact form of the 3d-printing page -/

theorem PrintingForm.printing_rank_adequate (s : PrintingForm) (a : PrintingAction) :
    Timeline.weight PrintingForm.rank (Timeline.schedule (PrintingForm.fire s a).2) <
      PrintingForm.rank a := by
  cases a <;> simp [PrintingForm.fire, PrintingForm.rank, Timeline.weight, Timeline.schedule]

/-- On this page any fuel from the weight of the pending timers on gives what
`advance` gives. -/
theorem PrintingForm.printing_advance_fuel (w : Timeline PrintingForm PrintingAction) (d fuel : Nat)
    (h : Timeline.weight PrintingForm.rank w.pending ≤ fuel) :
    Timeline.elapse PrintingForm.fire fuel d w = PrintingForm.advance w d :=
  Timeline.elapse_fuel PrintingForm.fire PrintingForm.rank PrintingForm.printing_rank_adequate _ fuel _ d w
    (Nat.le_refl _) h (Nat.le_refl _)

/-- C14: a submission from the idle state (button enabled, no inline
background, no timer pending) disables the button and shows `Sending...`
until 1500 ms have passed, then shows `Message Sent!` on the still disabled
button for a further 2000 ms, and from 3500 ms on the form is reset and the
button's content, `disabled` flag and background are what they were before
the submission. -/
theorem PrintingForm.submit_cycle (p : PrintingForm)
    (hidle : p.disabled = false ∧ p.background = js "") :
    (∀ d, d < 1500 →
      (advance (submit { state := p, pending := [] }) d).state =
        { p with
          defaultPrevented := true
          innerHTML := js "<i class=\"fas fa-spinner fa-spin\"></i> Sending..."
          disabled := true }) ∧
    (∀ d, 1500 ≤ d → d < 3500 →
      (advance (submit { state := p, pending := [] }) d).state =
        { p with
          defaultPrevented := true
          innerHTML := js "<i class=\"fas fa-check\"></i> Message Sent!"
          disabled := true
          background := js "linear-gradient(135deg, #10B981, #059669)" }) ∧
    (∀ d, 3500 ≤ d →
      (advance (submit { state := p, pending := [] }) d).state.innerHTML = p.innerHTML ∧
      (advance (submit { state := p, pending := [] }) d).state.disabled = p.disabled ∧
      (advance (submit { state := p, pending := [] }) d).state.background = p.background ∧
      (advance (submit { state := p, pending := [] }) d).state.fields = reset p.fields) := by
  obtain ⟨hdis, hbg⟩ := hidle
  refine ⟨?_, ?_, ?_⟩
  · intro d hd
    have hd' : ¬ 1500 ≤ d := by omega
    simp [advance, submit, Timeline.weight, rank, Timeline.elapse, Timeline.pickNext,
      Timeline.schedule, hd']
  · intro d hd hd2
    have hd' : ¬ 2000 ≤ d - 1500 := by omega
    simp [advance, submit, Timeline.weight, rank, Timeline.elapse, Timeline.pickNext,
      Timeline.schedule, Timeline.wait, fire, hd, hd']
  · intro d hd
    have h1 : 1500 ≤ d := by omega
    have h2 : 2000 ≤ d - 1500 := by omega
    simp [advance, submit, Timeline.weight, rank, Timeline.elapse, Timeline.pickNext,
      Timeline.schedule, Timeline.wait, fire, h1, h2, hdis, hbg]

/-- C14 witness: the idle form with two controls filled in. -/
theorem PrintingForm.submit_cycle_witness :
    (advance (submit { state := printingFormIdle, pending := [] }) 3500).state.innerHTML =
      printingFormIdle.innerHTML ∧
    (advance (submit { state := printingFormIdle, pending := [] }) 3500).state.disabled =
      printingFormIdle.disabled ∧
    (advance (submit { state := printingFormIdle, pending := [] }) 3500).state.background =
      printingFormIdle.background ∧
    (advance (submit { state := printingFormIdle, pending := [] }) 3500).state.fields =
      [(js "", js ""), (js "", js "")] :=
  (PrintingForm.submit_cycle printingFormIdle ⟨rfl, rfl⟩).2.2 3500 (by decide)

/-! ### Claims on the theme -/

namespace ThemeManager

theorem synced_setTheme (m : ThemeManager) (theme : JSString) : Synced (setTheme m theme) :=
  ⟨rfl, rfl⟩

theorem synced_run (document : ThemeDocument) (calls : List ThemeCall) :
    Synced (run document calls) := by
  induction calls using List.reverseRecOn with
  | nil => exact synced_setTheme _ _
  | append_singleton calls c _ =>
    simp only [run, List.foldl_append, List.foldl_cons, List.foldl_nil]
    cases c
    · exact synced_setTheme _ _
    · exact synced_setTheme _ _

end ThemeManager

theorem ThemeManager.toggles_succ (document : ThemeDocument) (n : Nat) :
    toggles document (n + 1) = toggleTheme (toggles document n) := by
  simp [toggles, run, List.replicate_succ', List.foldl_append, call]

theorem ThemeManager.toggleTheme_dark_or_light (m : ThemeManager) :
    (toggleTheme m).currentTheme = js "dark" ∨ (toggleTheme m).currentTheme = js "light" := by
  by_cases h : m.currentTheme = js "dark"
  · right; simp [toggleTheme, setTheme, h]
  · left; simp [toggleTheme, setTheme, h]

/-- C15: in every state a constructed manager can be in whose theme is
`'dark'` or `'light'`, two calls of `toggleTheme` leave `currentTheme`, the
`data-theme` attribute of `body` and the stored value as they were, and one
call changes `currentTheme`. -/
theorem ThemeManager.toggleTheme_involution (document : ThemeDocument) (calls : List ThemeCall)
    (h : (run document calls).currentTheme = js "dark" ∨
      (run document calls).currentTheme = js "light") :
    (toggleTheme (toggleTheme (run document calls))).currentTheme =
      (run document calls).currentTheme ∧
    (toggleTheme (toggleTheme (run document calls))).document.dataTheme =
      (run document calls).document.dataTheme ∧
    (toggleTheme (toggleTheme (run document calls))).document.storedTheme =
      (run document calls).document.storedTheme ∧
    (toggleTheme (run document calls)).currentTheme ≠ (run document calls).currentTheme := by
  obtain ⟨hstored, hattr⟩ := synced_run document calls
  have hne : js "light" ≠ js "dark" := by decide
  rcases h with h | h
  · rw [hstored, hattr]
    simp [toggleTheme, setTheme, hne, h]
  · rw [hstored, hattr]
    simp [toggleTheme, setTheme, hne, hne.symm, h]

/-- C15 witness: a manager constructed on an empty storage and toggled once. -/
theorem ThemeManager.toggleTheme_involution_witness :
    (toggleTheme (toggleTheme (run {} [ThemeCall.toggleTheme]))).currentTheme =
      (run {} [ThemeCall.toggleTheme]).currentTheme ∧
    (toggleTheme (toggleTheme (run {} [ThemeCall.toggleTheme]))).document.dataTheme =
      (run {} [ThemeCall.toggleTheme]).document.dataTheme ∧
    (toggleTheme (toggleTheme (run {} [ThemeCall.toggleTheme]))).document.storedTheme =
      (run {} [ThemeCall.toggleTheme]).document.storedTheme ∧
    (toggleTheme (run {} [ThemeCall.toggleTheme])).currentTheme ≠
      (run {} [ThemeCall.toggleTheme]).currentTheme :=
  ThemeManager.toggleTheme_involution {} [ThemeCall.toggleTheme] (Or.inr (by decide))

/-- C16: after construction and after every later call of `setTheme` or
`toggleTheme`, the value stored under `'theme'` is `currentTheme`. -/
theorem ThemeManager.stored_theme_is_current (document : ThemeDocument)
    (calls : List ThemeCall) :
    (run document calls).document.storedTheme = some (run document calls).currentTheme :=
  (synced_run document calls).1

/-- C17, as stated, fails: with `'blue'` stored at startup the constructed
manager has `currentTheme` and the stored value `'blue'`, neither `'dark'` nor
`'light'`. -/
theorem ThemeManager.stored_blue_is_kept :
    (toggles blueStoredDocument 0).currentTheme = js "blue" ∧
    (toggles blueStoredDocument 0).document.storedTheme = some (js "blue") ∧
    js "blue" ≠ js "dark" ∧ js "blue" ≠ js "light" := by
  decide

/-- C17, amended: when the value found under `'theme'` at startup is absent,
empty, `'dark'` or `'light'`, or when the toggle has been used at least once,
`currentTheme` is `'dark'` or `'light'` and the stored value equals it; an
absent or empty value yields `'dark'` at construction. Any other value found
at startup is, until the first toggle, both `currentTheme` and the stored
value. -/
theorem ThemeManager.theme_dark_or_light (document : ThemeDocument) (n : Nat)
    (h : document.storedTheme = none ∨ document.storedTheme = some (js "") ∨
      document.storedTheme = some (js "dark") ∨ document.storedTheme = some (js "light") ∨
      0 < n) :
    ((toggles document n).currentTheme = js "dark" ∨
      (toggles document n).currentTheme = js "light") ∧
    (toggles document n).document.storedTheme = some (toggles document n).currentTheme ∧
    (document.storedTheme = none ∨ document.storedTheme = some (js "") →
      (toggles document 0).currentTheme = js "dark") ∧
    (∀ found : JSString, document.storedTheme = some found → found ≠ js "" →
      (toggles document 0).currentTheme = found ∧
      (toggles document 0).document.storedTheme = some found) := by
  refine ⟨?_, (synced_run document _).1, ?_, ?_⟩
  · cases n with
    | succ k => rw [toggles_succ]; exact toggleTheme_dark_or_light _
    | zero =>
      rcases h with h | h | h | h | h
      · left; simp [toggles, run, constructor, setTheme, h]
      · left
        have hempty : js "" = [] := by decide
        simp [toggles, run, constructor, setTheme, h, hempty]
      · left
        have hd : js "dark" = [100, 97, 114, 107] := by decide
        simp [toggles, run, constructor, setTheme, h, hd]
      · right
        have hl : js "light" = [108, 105, 103, 104, 116] := by decide
        simp [toggles, run, constructor, setTheme, h, hl]
      · omega
  · intro h0
    rcases h0 with h0 | h0
    · simp [toggles, run, constructor, setTheme, h0]
    · have hempty : js "" = [] := by decide
      simp [toggles, run, constructor, setTheme, h0, hempty]
  · intro found hfound hne
    have hempty : js "" = [] := by decide
    rw [hempty] at hne
    cases found with
    | nil => exact absurd rfl hne
    | cons c cs => simp [toggles, run, constructor, setTheme, hfound]

/-- C17 witness: `'light'` stored at startup and three clicks on the toggle. -/
theorem ThemeManager.theme_dark_or_light_witness :
    ((toggles { storedTheme := some (js "light") } 3).currentTheme = js "dark" ∨
      (toggles { storedTheme := some (js "light") } 3).currentTheme = js "light") ∧
    (toggles { storedTheme := some (js "light") } 3).document.storedTheme =
      some (toggles { storedTheme := some (js "light") } 3).currentTheme ∧
    (toggles { storedTheme := some (js "light") } 0).currentTheme = js "light" ∧
    (toggles { storedTheme := some (js "light") } 0).document.storedTheme = some (js "light") :=
  have h := ThemeManager.theme_dark_or_light { storedTheme := some (js "light") } 3
    (Or.inr (Or.inr (Or.inr (Or.inl rfl))))
  ⟨h.1, h.2.1, h.2.2.2 (js "light") rfl (by decide)⟩

/-! ### Claims on the modals -/

theorem ModalDocument.modal_rank_adequate (s : ModalDocument) (a : ModalAction) :
    Timeline.weight ModalDocument.rank (Timeline.schedule (ModalDocument.fire s a).2) <
      ModalDocument.rank a := by
  cases a
  · simp [ModalDocument.fire, ModalDocument.rank, Timeline.weight, Timeline.schedule]
  · simp only [ModalDocument.fire]
    split <;> simp [ModalDocument.rank, Timeline.weight, Timeline.schedule]

/-- On this page any fuel from the weight of the pending timers on gives what
`advance` gives. -/
theorem ModalDocument.modal_advance_fuel (w : Timeline ModalDocument ModalAction) (d fuel : Nat)
    (h : Timeline.weight ModalDocument.rank w.pending ≤ fuel) :
    Timeline.elapse ModalDocument.fire fuel d w = ModalDocument.advance w d :=
  Timeline.elapse_fuel ModalDocument.fire ModalDocument.rank ModalDocument.modal_rank_adequate _ fuel _ d w
    (Nat.le_refl _) h (Nat.le_refl _)

/-- C18: the claim fails for two of the three dismissals. After `showModal`, a
click on the close button (or on the backdrop) and the 300 ms removal timer,
the modal is detached but its `escapeHandler` is still among the `keydown`
listeners of `document`; only the Escape key path, which calls
`removeEventListener`, leaves the listeners as they were. -/
theorem ModalDocument.escapeHandler_left_registered :
    modalFreePage.state.keydown = [KeyListener.other 0] ∧
    (shownAndDismissed Dismissal.closeButton).state.children = [0, 1] ∧
    (shownAndDismissed Dismissal.closeButton).pending = [] ∧
    (shownAndDismissed Dismissal.closeButton).state.keydown =
      [KeyListener.other 0, KeyListener.escapeHandler 7] ∧
    (shownAndDismissed Dismissal.backdrop).state.keydown =
      [KeyListener.other 0, KeyListener.escapeHandler 7] ∧
    (shownAndDismissed Dismissal.escapeKey).state.keydown = [KeyListener.other 0] := by
  decide

theorem erase_append_self_of_not_mem (l : List Nat) (m : Nat) (h : m ∉ l) :
    (l.erase m ++ [m]).erase m = l := by
  rw [List.erase_of_not_mem h, List.erase_append_right _ h]
  simp

/-- C19: for a modal that is not yet in the document, shown on a page with no
timer pending and closed `d` ms later: `closeModal` at once sets opacity `0`
and visibility `hidden` and the modal is still a child of `body` until 300 ms
have passed; from 300 ms on the modal is no child of `body`, `overflow` is
`''` and the children of `body` are those before `showModal`, so that
`overflow` too is as before when it was `''`. -/
theorem ModalDocument.closeModal_restores (p : ModalDocument) (modal d : Nat)
    (hfresh : modal ∉ p.children) :
    (closeModal (advance (showModal { state := p, pending := [] } modal) d) modal).state.styles modal =
      { opacity := js "0", visibility := js "hidden" } ∧
    (∀ e, e < 300 →
      modal ∈ (advance (closeModal (advance (showModal { state := p, pending := [] } modal) d)
        modal) e).state.children) ∧
    (∀ e, 300 ≤ e →
      modal ∉ (advance (closeModal (advance (showModal { state := p, pending := [] } modal) d)
        modal) e).state.children ∧
      (advance (closeModal (advance (showModal { state := p, pending := [] } modal) d)
        modal) e).state.overflow = js "" ∧
      (advance (closeModal (advance (showModal { state := p, pending := [] } modal) d)
        modal) e).state.children = p.children ∧
      (p.overflow = js "" →
        (advance (closeModal (advance (showModal { state := p, pending := [] } modal) d)
          modal) e).state.overflow = p.overflow)) := by
  have herase := erase_append_self_of_not_mem p.children modal hfresh
  have hmem : modal ∈ p.children.erase modal ++ [modal] := by simp
  by_cases hd : 10 ≤ d
  · have hshown : advance (showModal { state := p, pending := [] } modal) d =
        { state := ({ p with
              children := p.children.erase modal ++ [modal]
              overflow := js "hidden"
              keydown := p.keydown ++ [KeyListener.escapeHandler modal] } : ModalDocument).setStyle
            modal { opacity := js "1", visibility := js "visible" }
          pending := [] } := by
      simp [advance, showModal, Timeline.weight, rank, Timeline.elapse, Timeline.pickNext,
        Timeline.schedule, fire, hd]
    rw [hshown]
    refine ⟨by simp [closeModal, setStyle], ?_, ?_⟩
    · intro e he
      have he' : ¬ 300 ≤ e := by omega
      simp [advance, closeModal, Timeline.weight, rank, Timeline.elapse, Timeline.pickNext,
        Timeline.schedule, setStyle, he']
    · intro e he
      simp [advance, closeModal, Timeline.weight, rank, Timeline.elapse, Timeline.pickNext,
        Timeline.schedule, fire, setStyle, he, herase, hfresh]
      intro h0
      exact h0.symm
  · have hshown : advance (showModal { state := p, pending := [] } modal) d =
        { state := { p with
              children := p.children.erase modal ++ [modal]
              overflow := js "hidden"
              keydown := p.keydown ++ [KeyListener.escapeHandler modal] }
          pending := [{ remaining := 10 - d, action := ModalAction.reveal modal }] } := by
      simp [advance, showModal, Timeline.weight, rank, Timeline.elapse, Timeline.pickNext,
        Timeline.schedule, Timeline.wait, hd]
    rw [hshown]
    have h10 : 10 - d ≤ 300 := by omega
    refine ⟨by simp [closeModal, setStyle], ?_, ?_⟩
    · intro e he
      have he' : ¬ 300 - (10 - d) ≤ e - (10 - d) := by omega
      simp [advance, closeModal, Timeline.weight, rank, Timeline.elapse, Timeline.pickNext,
        Timeline.schedule, Timeline.wait, fire, setStyle, h10]
      split_ifs <;> first | omega | simp [setStyle]
    · intro e he
      have he1 : 10 - d ≤ e := by omega
      have he2 : 300 - (10 - d) ≤ e - (10 - d) := by omega
      simp [advance, closeModal, Timeline.weight, rank, Timeline.elapse, Timeline.pickNext,
        Timeline.schedule, Timeline.wait, fire, setStyle, h10, he1, he2, herase, hfresh]
      intro h0
      exact h0.symm

/-- C19 witness: the modal `7` on a page with two other children, closed
50 ms after it was shown. -/
theorem ModalDocument.closeModal_restores_witness :
    (advance (closeModal (advance (showModal modalFreePage 7) 50) 7) 300).state.children =
      modalFreePage.state.children ∧
    (advance (closeModal (advance (showModal modalFreePage 7) 50) 7) 300).state.overflow =
      modalFreePage.state.overflow :=
  have h := (ModalDocument.closeModal_restores modalFreePage.state 7 50 (by decide)).2.2
    300 (by decide)
  ⟨h.2.2.1, h.2.2.2 (by decide)⟩

/-! ### Claims on the search -/

/-- `includes` is the substring relation. -/
theorem includes_iff_infix (s term : JSString) : includes s term = true ↔ term <:+: s := by
  induction s with
  | nil => simp [includes, List.isEmpty_iff]
  | cons c cs ih =>
    simp only [includes, Bool.or_eq_true, List.isPrefixOf_iff_prefix, ih, List.infix_cons_iff]

/-- C20: when every card has a title and a description element, `handleSearch`
with `term` the trimmed lower-cased query sets a card to opacity `1` exactly
when `term` is empty or occurs in the card's lower-cased title, lower-cased
description or its lower-cased feature tags joined by single spaces; every
other card gets opacity `0.3` and keeps its `display`. -/
theorem FilamentsManager.handleSearch_opacity (lower : JSString → JSString) (p : Page)
    (query : JSString)
    (hcards : ∀ card ∈ p.cards, card.title.isSome = true ∧ card.description.isSome = true) :
    List.Forall₂
      (fun card result =>
        (result.opacity = js "1" ↔
          (trim (lower query) = [] ∨
            trim (lower query) <:+: lower (card.title.getD []) ∨
            trim (lower query) <:+: lower (card.description.getD []) ∨
            trim (lower query) <:+: join (js " ") (card.featureTags.map lower))) ∧
        (¬ (trim (lower query) = [] ∨
            trim (lower query) <:+: lower (card.title.getD []) ∨
            trim (lower query) <:+: lower (card.description.getD []) ∨
            trim (lower query) <:+: join (js " ") (card.featureTags.map lower)) →
          result.opacity = js "0.3" ∧ result.display = card.display))
      p.cards (handleSearch lower p query).cards := by
  have hne : js "0.3" ≠ js "1" := by decide
  have hempty : js "" = [] := by decide
  simp only [handleSearch]
  generalize trim (lower query) = term
  generalize p.cards = cards at hcards
  induction cards with
  | nil => exact List.Forall₂.nil
  | cons card rest ih =>
    have hc := hcards card (List.mem_cons_self _ _)
    have hrest : ∀ c ∈ rest, c.title.isSome = true ∧ c.description.isSome = true :=
      fun c hmem => hcards c (List.mem_cons_of_mem _ hmem)
    obtain ⟨titleText, ht⟩ := Option.isSome_iff_exists.mp hc.1
    obtain ⟨descriptionText, hdesc⟩ := Option.isSome_iff_exists.mp hc.2
    simp only [handleSearchLoop, ht, hdesc]
    refine List.Forall₂.cons ?_ (ih hrest)
    have hcond : searchMatches lower term card titleText descriptionText = true ↔
        (term = [] ∨ term <:+: lower titleText ∨ term <:+: lower descriptionText ∨
          term <:+: join (js " ") (card.featureTags.map lower)) := by
      simp only [searchMatches, Bool.or_eq_true, includes_iff_infix, beq_iff_eq, hempty]
      tauto
    simp only [ht, hdesc, Option.getD_some]
    by_cases hm : searchMatches lower term card titleText descriptionText = true
    · rw [if_pos hm]
      exact ⟨⟨fun _ => hcond.mp hm, fun _ => rfl⟩, fun hno => absurd (hcond.mp hm) hno⟩
    · rw [if_neg hm]
      refine ⟨⟨fun h1 => absurd h1 hne, fun hyes => absurd (hcond.mpr hyes) hm⟩, fun _ => ⟨rfl, rfl⟩⟩

/-- C20 witness: the query `  Low WARP ` on a page of two cards, with ASCII
lower-casing: the first card has the tag, the second is dimmed and keeps its
`display`. -/
theorem FilamentsManager.handleSearch_opacity_witness :
    (handleSearch asciiLower searchPage (js "  Low WARP ")).cards.map
        (fun card => (card.opacity, card.display)) =
      [(js "1", js "block"), (js "0.3", js "none")] ∧
    List.Forall₂
      (fun card result =>
        (result.opacity = js "1" ↔
          (trim (asciiLower (js "  Low WARP ")) = [] ∨
            trim (asciiLower (js "  Low WARP ")) <:+: asciiLower (card.title.getD []) ∨
            trim (asciiLower (js "  Low WARP ")) <:+: asciiLower (card.description.getD []) ∨
            trim (asciiLower (js "  Low WARP ")) <:+:
              join (js " ") (card.featureTags.map asciiLower))) ∧
        (¬ (trim (asciiLower (js "  Low WARP ")) = [] ∨
            trim (asciiLower (js "  Low WARP ")) <:+: asciiLower (card.title.getD []) ∨
            trim (asciiLower (js "  Low WARP ")) <:+: asciiLower (card.description.getD []) ∨
            trim (asciiLower (js "  Low WARP ")) <:+:
              join (js " ") (card.featureTags.map asciiLower)) →
          result.opacity = js "0.3" ∧ result.display = card.display))
      searchPage.cards (handleSearch asciiLower searchPage (js "  Low WARP ")).cards :=
  ⟨by decide,
   FilamentsManager.handleSearch_opacity asciiLower searchPage (js "  Low WARP ") (by decide)⟩

/-! ### Claims on the navigation -/

theorem getElem?_mapOthers {α : Type} (f : α → α) (i j : Nat) (l : List α) :
    (mapOthers f i l)[j]? = if j = i then l[j]? else l[j]?.map f := by
  induction l generalizing i j with
  | nil => simp [mapOthers]
  | cons a l ih =>
    cases i with
    | zero => cases j <;> simp [mapOthers]
    | succ n => cases j <;> simp [mapOthers, ih]

theorem mem_modifyAt {α : Type} (f : α → α) (i : Nat) (l : List α) (x : α)
    (h : x ∈ modifyAt f i l) : x ∈ l ∨ ∃ a ∈ l, x = f a := by
  induction l generalizing i with
  | nil => simp [modifyAt] at h
  | cons a l ih =>
    cases i with
    | zero =>
      simp only [modifyAt, List.mem_cons] at h
      rcases h with h | h
      · exact Or.inr ⟨a, List.mem_cons_self _ _, h⟩
      · exact Or.inl (List.mem_cons_of_mem _ h)
    | succ n =>
      simp only [modifyAt, List.mem_cons] at h
      rcases h with h | h
      · exact Or.inl (h ▸ List.mem_cons_self _ _)
      · rcases ih n h with h' | ⟨b, hb, hx⟩
        · exact Or.inl (List.mem_cons_of_mem _ h')
        · exact Or.inr ⟨b, List.mem_cons_of_mem _ hb, hx⟩

theorem mem_mapOthers {α : Type} (f : α → α) (i : Nat) (l : List α) (x : α)
    (h : x ∈ mapOthers f i l) : x ∈ l ∨ ∃ a ∈ l, x = f a := by
  induction l generalizing i with
  | nil => simp [mapOthers] at h
  | cons a l ih =>
    cases i with
    | zero =>
      simp only [mapOthers, List.mem_cons, List.mem_map] at h
      rcases h with h | ⟨b, hb, hx⟩
      · exact Or.inl (h ▸ List.mem_cons_self _ _)
      · exact Or.inr ⟨b, List.mem_cons_of_mem _ hb, hx.symm⟩
    | succ n =>
      simp only [mapOthers, List.mem_cons] at h
      rcases h with h | h
      · exact Or.inr ⟨a, List.mem_cons_self _ _, h⟩
      · rcases ih n h with h' | ⟨b, hb, hx⟩
        · exact Or.inl (List.mem_cons_of_mem _ h')
        · exact Or.inr ⟨b, List.mem_cons_of_mem _ hb, hx⟩

/-- After `f` has cleared a flag on all elements but one, at most one element
has the flag. -/
theorem filter_mapOthers_length {α : Type} (f : α → α) (flag : α → Bool)
    (hf : ∀ a, flag (f a) = false) (i : Nat) (l : List α) :
    ((mapOthers f i l).filter flag).length ≤ 1 := by
  induction l generalizing i with
  | nil => simp [mapOthers]
  | cons a l ih =>
    cases i with
    | zero =>
      have hnone : (l.map f).filter flag = [] := by
        simp [List.filter_eq_nil_iff, hf]
      simp only [mapOthers, List.filter_cons, hnone]
      split <;> simp
    | succ n =>
      simp only [mapOthers, List.filter_cons, hf, Bool.false_eq_true, ite_false]
      exact ih n

/-- Clearing a flag on one element does not raise the number of elements
that have it. -/
theorem filter_modifyAt_length {α : Type} (f : α → α) (flag : α → Bool)
    (hf : ∀ a, flag (f a) = false) (i : Nat) (l : List α) :
    ((modifyAt f i l).filter flag).length ≤ (l.filter flag).length := by
  induction l generalizing i with
  | nil => simp [modifyAt]
  | cons a l ih =>
    cases i with
    | zero =>
      simp only [modifyAt, List.filter_cons, hf, Bool.false_eq_true, ite_false]
      split <;> simp
    | succ n =>
      simp only [modifyAt, List.filter_cons]
      split
      · simp only [List.length_cons]
        exact Nat.succ_le_succ (ih n)
      · exact ih n

theorem filter_map_cleared_length {α : Type} (f : α → α) (flag : α → Bool)
    (hf : ∀ a, flag (f a) = false) (l : List α) :
    ((l.map f).filter flag).length = 0 := by
  simp [List.filter_eq_nil_iff, hf]

/-- An invariant kept by every listener is kept by every sequence of events. -/
theorem NavState.run_induction (P : NavState → Prop)
    (hnav : ∀ s w b, P s → P (MobileMenu.navLinkClick s w b))
    (htoggle : ∀ s w i, P s → P (MobileMenu.dropdownToggleClick s w i))
    (htrigger : ∀ s w i, P s → P (DropdownManager.triggerClick s w i))
    (hmenu : ∀ s, P s → P (DropdownManager.menuToggleClick (MobileMenu.toggleMenu s)))
    (hdocument : ∀ s b, P s → P (MobileMenu.documentClick s b))
    (hresize : ∀ s w, P s → P (DropdownManager.resize (MobileMenu.resize s w) w))
    (s : NavState) (events : List NavEvent) (h : P s) : P (run s events) := by
  induction events generalizing s with
  | nil => exact h
  | cons e rest ih =>
    apply ih
    cases e with
    | resize w => exact hresize s w h
    | click w target =>
      simp only [handle, click]
      apply hdocument
      have h1 : P (if target.navLink = true then
          MobileMenu.navLinkClick s w target.dropdownToggleClass else s) := by
        split
        · exact hnav s w _ h
        · exact h
      generalize (if target.navLink = true then
          MobileMenu.navLinkClick s w target.dropdownToggleClass else s) = s1 at h1 ⊢
      have h2 : P (match target.toggleOf with
          | some i => MobileMenu.dropdownToggleClick s1 w i
          | none => s1) := by
        split
        · exact htoggle s1 w _ h1
        · exact h1
      generalize (match target.toggleOf with
          | some i => MobileMenu.dropdownToggleClick s1 w i
          | none => s1) = s2 at h2 ⊢
      have h3 : P (match target.triggerOf with
          | some i => DropdownManager.triggerClick s2 w i
          | none => s2) := by
        split
        · exact htrigger s2 w _ h2
        · exact h2
      generalize (match target.triggerOf with
          | some i => DropdownManager.triggerClick s2 w i
          | none => s2) = s3 at h3 ⊢
      split
      · exact hmenu s3 h3
      · exact h3

theorem MobileMenu.closeMenu_lists (s : NavState) :
    (closeMenu s).dropdowns = s.dropdowns ∧
    (closeMenu s).dropdownParents = s.dropdownParents := by
  unfold closeMenu
  split <;> exact ⟨rfl, rfl⟩

theorem MobileMenu.toggleMenu_lists (s : NavState) :
    (toggleMenu s).dropdowns = s.dropdowns ∧
    (toggleMenu s).dropdownParents = s.dropdownParents := by
  unfold toggleMenu
  split <;> exact ⟨rfl, rfl⟩

/-- Every listener keeps: at most one dropdown active, at most one parent
open. -/
theorem NavState.handle_exclusive (s : NavState) (events : List NavEvent)
    (h : MobileMenu.activeCount s ≤ 1 ∧ DropdownManager.openCount s ≤ 1) :
    MobileMenu.activeCount (run s events) ≤ 1 ∧
      DropdownManager.openCount (run s events) ≤ 1 := by
  have hclosed : ∀ l : List DropdownParent,
      ((l.map DropdownManager.closeParent).filter (fun parent => parent.isOpen)).length = 0 :=
    fun l => filter_map_cleared_length _ _ (fun _ => rfl) l
  have hinactive : ∀ l : List MenuDropdown,
      ((l.map (fun dropdown => { dropdown with active := false })).filter
        (fun dropdown => dropdown.active)).length = 0 :=
    fun l => filter_map_cleared_length _ _ (fun _ => rfl) l
  refine NavState.run_induction
    (fun s => MobileMenu.activeCount s ≤ 1 ∧ DropdownManager.openCount s ≤ 1)
    ?_ ?_ ?_ ?_ ?_ ?_ s events h
  · intro s w b hs
    unfold MobileMenu.navLinkClick
    split
    · simpa [MobileMenu.activeCount, DropdownManager.openCount,
        (MobileMenu.closeMenu_lists s).1, (MobileMenu.closeMenu_lists s).2] using hs
    · exact hs
  · intro s w i hs
    unfold MobileMenu.dropdownToggleClick
    split
    · exact hs
    · split
      · exact ⟨filter_mapOthers_length _ _ (fun _ => rfl) _ _, hs.2⟩
      · exact hs
  · intro s w i hs
    unfold DropdownManager.triggerClick
    split
    · exact hs
    · rename_i parent _
      split
      · cases hopen : parent.isOpen with
        | false =>
          simp only [Bool.not_false, ite_true]
          exact ⟨hs.1, filter_mapOthers_length _ _ (fun _ => rfl) _ _⟩
        | true =>
          simp only [Bool.not_true, Bool.false_eq_true, ite_false]
          exact ⟨hs.1, Nat.le_trans (filter_modifyAt_length _ _ (fun _ => rfl) _ _) hs.2⟩
      · exact hs
  · intro s hs
    have ht := MobileMenu.toggleMenu_lists s
    have hs' : MobileMenu.activeCount (MobileMenu.toggleMenu s) ≤ 1 ∧
        DropdownManager.openCount (MobileMenu.toggleMenu s) ≤ 1 := by
      simpa [MobileMenu.activeCount, DropdownManager.openCount, ht.1, ht.2] using hs
    generalize MobileMenu.toggleMenu s = t at hs'
    unfold DropdownManager.menuToggleClick
    split
    · exact hs'
    · split
      · exact hs'
      · split
        · refine ⟨hs'.1, ?_⟩
          simp only [DropdownManager.openCount, DropdownManager.closeAll, hclosed]
          exact Nat.zero_le _
        · exact hs'
  · intro s b hs
    unfold MobileMenu.documentClick
    split
    · refine ⟨?_, ?_⟩
      · simp only [MobileMenu.activeCount, MobileMenu.closeAllDropdowns, hinactive]
        exact Nat.zero_le _
      · simpa [DropdownManager.openCount, MobileMenu.closeAllDropdowns,
          (MobileMenu.closeMenu_lists s).2] using hs.2
    · exact hs
  · intro s w hs
    have hm : MobileMenu.activeCount (MobileMenu.resize s w) ≤ 1 ∧
        DropdownManager.openCount (MobileMenu.resize s w) ≤ 1 := by
      unfold MobileMenu.resize
      split
      · refine ⟨?_, ?_⟩
        · simp only [MobileMenu.activeCount, MobileMenu.closeAllDropdowns, hinactive]
          exact Nat.zero_le _
        · simpa [DropdownManager.openCount, MobileMenu.closeAllDropdowns,
            (MobileMenu.closeMenu_lists s).2] using hs.2
      · exact hs
    generalize MobileMenu.resize s w = t at hm
    unfold DropdownManager.resize
    split
    · refine ⟨hm.1, ?_⟩
      simp only [DropdownManager.openCount, DropdownManager.closeAll, hclosed]
      exact Nat.zero_le _
    · exact hm

/-- C21: starting with no dropdown active and no parent open, after any
sequence of clicks and resizes (the trigger clicks at widths up to 768 among
them) at most one `.dropdown` carries `'active'` and at most one
`.has-dropdown` carries `'open'`; a toggle click at a width up to 768 leaves
every other dropdown inactive, and a trigger click that opens a parent leaves
every other parent closed. -/
theorem NavState.dropdowns_exclusive (s : NavState) (events : List NavEvent)
    (hactive : ∀ d ∈ s.dropdowns, d.active = false)
    (hopen : ∀ p ∈ s.dropdownParents, p.isOpen = false) :
    MobileMenu.activeCount (run s events) ≤ 1 ∧
    DropdownManager.openCount (run s events) ≤ 1 ∧
    (∀ (t : NavState) (w i j : Nat) (clicked d : MenuDropdown), w ≤ 768 →
      t.dropdowns[i]? = some clicked → clicked.hasToggle = true → j ≠ i →
      (MobileMenu.dropdownToggleClick t w i).dropdowns[j]? = some d → d.active = false) ∧
    (∀ (t : NavState) (w i j : Nat) (clicked p : DropdownParent), w ≤ 768 →
      t.dropdownParents[i]? = some clicked → clicked.hasTrigger = true →
      clicked.isOpen = false → j ≠ i →
      (DropdownManager.triggerClick t w i).dropdownParents[j]? = some p → p.isOpen = false) := by
  have h0 : MobileMenu.activeCount s ≤ 1 ∧ DropdownManager.openCount s ≤ 1 := by
    have ha : s.dropdowns.filter (fun dropdown => dropdown.active) = [] := by
      simpa [List.filter_eq_nil_iff] using hactive
    have ho : s.dropdownParents.filter (fun parent => parent.isOpen) = [] := by
      simpa [List.filter_eq_nil_iff] using hopen
    simp [MobileMenu.activeCount, DropdownManager.openCount, ha, ho]
  have hinv := NavState.handle_exclusive s events h0
  refine ⟨hinv.1, hinv.2, ?_, ?_⟩
  · intro t w i j clicked d hw hi htoggle hji hj
    simp only [MobileMenu.dropdownToggleClick, hi, htoggle, hw, decide_True, Bool.and_self,
      ite_true, getElem?_mapOthers, hji, ite_false, getElem?_modifyAt] at hj
    cases hd : t.dropdowns[j]? with
    | none => simp [hd] at hj
    | some d0 =>
      simp only [hd, Option.map_some', Option.some.injEq] at hj
      rw [← hj]
  · intro t w i j clicked p hw hi htrigger hclosed hji hj
    simp only [DropdownManager.triggerClick, hi, htrigger, hw, decide_True, Bool.and_self,
      ite_true, hclosed, Bool.not_false, getElem?_mapOthers, hji, ite_false,
      getElem?_modifyAt] at hj
    cases hp : t.dropdownParents[j]? with
    | none => simp [hp] at hj
    | some p0 =>
      simp only [hp, Option.map_some', Option.some.injEq] at hj
      rw [← hj]
      rfl

/-- C21 witness: on the sample navigation the dropdowns 0 and 2 are clicked
in turn at width 500. -/
theorem NavState.dropdowns_exclusive_witness :
    MobileMenu.activeCount
      (run sampleNav [NavEvent.click 500 (dropdownLink 0), NavEvent.click 500 (dropdownLink 2)]) ≤ 1 ∧
    DropdownManager.openCount
      (run sampleNav [NavEvent.click 500 (dropdownLink 0), NavEvent.click 500 (dropdownLink 2)]) ≤ 1 ∧
    (run sampleNav [NavEvent.click 500 (dropdownLink 0),
      NavEvent.click 500 (dropdownLink 2)]).dropdowns.map (fun d => d.active) =
        [false, false, true] :=
  have h := NavState.dropdowns_exclusive sampleNav
    [NavEvent.click 500 (dropdownLink 0), NavEvent.click 500 (dropdownLink 2)]
    (by decide) (by decide)
  ⟨h.1, h.2.1, by decide⟩

theorem MobileMenu.dropdownToggleClick_menu (s : NavState) (w i : Nat) :
    (dropdownToggleClick s w i).navMenu = s.navMenu ∧
    (dropdownToggleClick s w i).mobileToggle = s.mobileToggle := by
  unfold dropdownToggleClick
  split
  · exact ⟨rfl, rfl⟩
  · split <;> exact ⟨rfl, rfl⟩

theorem DropdownManager.triggerClick_menu (s : NavState) (w i : Nat) :
    (triggerClick s w i).navMenu = s.navMenu ∧
    (triggerClick s w i).mobileToggle = s.mobileToggle := by
  unfold triggerClick
  split
  · exact ⟨rfl, rfl⟩
  · split
    · dsimp only
      split <;> exact ⟨rfl, rfl⟩
    · exact ⟨rfl, rfl⟩

/-- C22, as stated, fails: a nav link with the class `dropdown-toggle` that
lies outside `.navbar` is clicked at width 500 with the menu open; the nav-link
listener leaves the menu alone, but the click listener of `document` closes
it. -/
theorem MobileMenu.outside_link_closes_menu :
    sampleNav.navMenu = some true ∧
    sampleNav.mobileToggle = some true ∧
    (NavState.click sampleNav 500
      { navLink := true, dropdownToggleClass := true, inNavbar := false }).navMenu = some false ∧
    (NavState.click sampleNav 500
      { navLink := true, dropdownToggleClass := true, inNavbar := false }).mobileToggle =
        some false := by
  decide

/-- C22, amended: on a page where menu and toggle button exist, a click at
width `w` on a nav link that is not inside the toggle button removes
`'active'` from both when the link has not the class `dropdown-toggle`, or
`w > 768`, or the link lies outside `.navbar`; it leaves both as they were
when the link is a dropdown toggle inside `.navbar` and `w <= 768`. A resize
to a width above 768 leaves menu and toggle button without `'active'`, every
dropdown inactive and every parent closed; a resize to a width up to 768
changes nothing. -/
theorem MobileMenu.auto_close (s : NavState) (w : Nat) (target : ClickTarget)
    (menu toggle : Bool)
    (hmenu : s.navMenu = some menu) (htoggle : s.mobileToggle = some toggle)
    (hlink : target.navLink = true) (hnotToggle : target.inMobileToggle = false) :
    (¬ (target.dropdownToggleClass = true ∧ w ≤ 768) ∨ target.inNavbar = false →
      (NavState.click s w target).navMenu = some false ∧
      (NavState.click s w target).mobileToggle = some false) ∧
    ((target.dropdownToggleClass = true ∧ w ≤ 768) ∧ target.inNavbar = true →
      (NavState.click s w target).navMenu = s.navMenu ∧
      (NavState.click s w target).mobileToggle = s.mobileToggle) ∧
    (w > 768 →
      (NavState.handle s (NavEvent.resize w)).navMenu = some false ∧
      (NavState.handle s (NavEvent.resize w)).mobileToggle = some false ∧
      (∀ d ∈ (NavState.handle s (NavEvent.resize w)).dropdowns, d.active = false) ∧
      (∀ p ∈ (NavState.handle s (NavEvent.resize w)).dropdownParents, p.isOpen = false)) ∧
    (w ≤ 768 → NavState.handle s (NavEvent.resize w) = s) := by
  -- the listeners of the link, before the one of `document`
  have hlisteners : ∃ s1 : NavState,
      NavState.click s w target = documentClick s1 target.inNavbar ∧
      s1.navMenu = (navLinkClick s w target.dropdownToggleClass).navMenu ∧
      s1.mobileToggle = (navLinkClick s w target.dropdownToggleClass).mobileToggle := by
    simp only [NavState.click, hlink, hnotToggle, ite_true, Bool.false_eq_true, ite_false]
    generalize navLinkClick s w target.dropdownToggleClass = s0
    cases target.toggleOf with
    | none =>
      cases target.triggerOf with
      | none => exact ⟨s0, rfl, rfl, rfl⟩
      | some k =>
        exact ⟨_, rfl, (DropdownManager.triggerClick_menu s0 w k).1,
          (DropdownManager.triggerClick_menu s0 w k).2⟩
    | some i =>
      cases target.triggerOf with
      | none =>
        exact ⟨_, rfl, (dropdownToggleClick_menu s0 w i).1, (dropdownToggleClick_menu s0 w i).2⟩
      | some k =>
        exact ⟨_, rfl,
          (DropdownManager.triggerClick_menu _ w k).1.trans (dropdownToggleClick_menu s0 w i).1,
          (DropdownManager.triggerClick_menu _ w k).2.trans (dropdownToggleClick_menu s0 w i).2⟩
  obtain ⟨s1, hclick, hm1, ht1⟩ := hlisteners
  have hexists : ∃ m1 t1 : Bool, s1.navMenu = some m1 ∧ s1.mobileToggle = some t1 := by
    rw [hm1, ht1]
    unfold navLinkClick
    split_ifs
    · exact ⟨false, false, by simp [closeMenu, hmenu, htoggle], by simp [closeMenu, hmenu, htoggle]⟩
    · exact ⟨menu, toggle, hmenu, htoggle⟩
  obtain ⟨m1, t1, hm1', ht1'⟩ := hexists
  refine ⟨?_, ?_, ?_, ?_⟩
  · intro hcond
    rw [hclick]
    by_cases hin : target.inNavbar = true
    · have hnot : ¬ (target.dropdownToggleClass = true ∧ w ≤ 768) := by
        rcases hcond with hc | hc
        · exact hc
        · rw [hin] at hc; exact absurd hc (by decide)
      have hc : (!target.dropdownToggleClass || decide (w > 768)) = true := by
        cases hd : target.dropdownToggleClass with
        | false => rfl
        | true =>
          have : w > 768 := by
            by_contra hgt
            exact hnot ⟨hd, by omega⟩
          simp [this]
      simp only [documentClick, hin, Bool.not_true, Bool.false_eq_true, ite_false]
      rw [hm1, ht1]
      simp [navLinkClick, hc, closeMenu, hmenu, htoggle]
    · have hout : target.inNavbar = false := by
        cases hb : target.inNavbar with
        | false => rfl
        | true => exact absurd hb hin
      simp [documentClick, hout, closeAllDropdowns, closeMenu, hm1', ht1']
  · intro hcond
    rw [hclick]
    have hc : (!target.dropdownToggleClass || decide (w > 768)) = false := by
      have : ¬ w > 768 := by omega
      simp [hcond.1.1, this]
    simp only [documentClick, hcond.2, Bool.not_true, Bool.false_eq_true, ite_false]
    rw [hm1, ht1]
    simp [navLinkClick, hc]
  · intro hw
    have hw' : ¬ w ≤ 768 := by omega
    simp [NavState.handle, resize, DropdownManager.resize, hw, hw', closeMenu, hmenu, htoggle,
      closeAllDropdowns, DropdownManager.closeAll, DropdownManager.closeParent]
  · intro hw
    have hw' : ¬ w > 768 := by omega
    simp [NavState.handle, resize, DropdownManager.resize, hw, hw']

/-- C22 witness: on the sample navigation with the menu open, at width 500,
a click on a plain nav link closes the menu, and a click on a dropdown toggle
inside the navbar leaves it open. -/
theorem MobileMenu.auto_close_witness :
    ((NavState.click sampleNav 500 { navLink := true }).navMenu = some false ∧
      (NavState.click sampleNav 500 { navLink := true }).mobileToggle = some false) ∧
    ((NavState.click sampleNav 500 (dropdownLink 1)).navMenu = some true ∧
      (NavState.click sampleNav 500 (dropdownLink 1)).mobileToggle = some true) :=
  ⟨(MobileMenu.auto_close sampleNav 500 { navLink := true } true true rfl rfl rfl rfl).1
      (Or.inl (by decide)),
    (MobileMenu.auto_close sampleNav 500 (dropdownLink 1) true true rfl rfl rfl rfl).2.1
      ⟨⟨rfl, by decide⟩, rfl⟩⟩

/-- C30: starting with every parent closed and `aria-expanded` `'false'` on
every trigger, after any sequence of clicks (trigger clicks, menu-toggle
clicks and others) and resizes, the trigger of each parent has `aria-expanded`
`'true'` exactly when the parent carries `'open'`. -/
theorem DropdownManager.aria_in_step (s : NavState) (events : List NavEvent)
    (h0 : ∀ p ∈ s.dropdownParents,
      p.isOpen = false ∧ (p.hasTrigger = true → p.ariaExpanded = some (js "false"))) :
    ∀ p ∈ (NavState.run s events).dropdownParents, p.hasTrigger = true →
      (p.ariaExpanded = some (js "true") ↔ p.isOpen = true) := by
  have hne : js "false" ≠ js "true" := by decide
  have hinv : ∀ p ∈ (NavState.run s events).dropdownParents, p.hasTrigger = true →
      p.ariaExpanded = some (boolToString p.isOpen) := by
    have hclose : ∀ a : DropdownParent, (closeParent a).hasTrigger = true →
        (closeParent a).ariaExpanded = some (boolToString (closeParent a).isOpen) := by
      intro a ha
      simp only [closeParent] at ha
      simp [closeParent, boolToString, ha]
    have hall : ∀ t : NavState,
        (∀ p ∈ t.dropdownParents, p.hasTrigger = true →
          p.ariaExpanded = some (boolToString p.isOpen)) →
        ∀ p ∈ (closeAll t).dropdownParents, p.hasTrigger = true →
          p.ariaExpanded = some (boolToString p.isOpen) := by
      intro t _ p hp
      simp only [closeAll, List.mem_map] at hp
      obtain ⟨a, _, rfl⟩ := hp
      exact hclose a
    refine NavState.run_induction
      (fun t => ∀ p ∈ t.dropdownParents, p.hasTrigger = true →
        p.ariaExpanded = some (boolToString p.isOpen)) ?_ ?_ ?_ ?_ ?_ ?_ s events ?_
    · intro t w b ht
      unfold MobileMenu.navLinkClick
      split
      · rw [(MobileMenu.closeMenu_lists t).2]; exact ht
      · exact ht
    · intro t w i ht
      unfold MobileMenu.dropdownToggleClick
      split
      · exact ht
      · split <;> exact ht
    · intro t w i ht
      unfold triggerClick
      split
      · exact ht
      · rename_i parent _
        split
        · have htoggled : ∀ p ∈ modifyAt (fun p => { p with
              isOpen := !parent.isOpen, ariaExpanded := some (boolToString (!parent.isOpen)) })
              i t.dropdownParents, p.hasTrigger = true →
              p.ariaExpanded = some (boolToString p.isOpen) := by
            intro p hp
            rcases mem_modifyAt _ _ _ _ hp with h | ⟨a, _, rfl⟩
            · exact ht p h
            · intro _; rfl
          dsimp only
          split
          · intro p hp
            rcases mem_mapOthers _ _ _ _ hp with h | ⟨a, _, rfl⟩
            · exact htoggled p h
            · exact hclose a
          · exact htoggled
        · exact ht
    · intro t ht
      have ht' : ∀ p ∈ (MobileMenu.toggleMenu t).dropdownParents, p.hasTrigger = true →
          p.ariaExpanded = some (boolToString p.isOpen) := by
        rw [(MobileMenu.toggleMenu_lists t).2]; exact ht
      generalize MobileMenu.toggleMenu t = u at ht'
      unfold menuToggleClick
      split
      · exact ht'
      · split
        · exact ht'
        · split
          · exact hall u ht'
          · exact ht'
    · intro t b ht
      unfold MobileMenu.documentClick
      split
      · simp only [MobileMenu.closeAllDropdowns]
        rw [(MobileMenu.closeMenu_lists t).2]; exact ht
      · exact ht
    · intro t w ht
      have ht' : ∀ p ∈ (MobileMenu.resize t w).dropdownParents, p.hasTrigger = true →
          p.ariaExpanded = some (boolToString p.isOpen) := by
        unfold MobileMenu.resize
        split
        · simp only [MobileMenu.closeAllDropdowns]
          rw [(MobileMenu.closeMenu_lists t).2]; exact ht
        · exact ht
      generalize MobileMenu.resize t w = u at ht'
      unfold resize
      split
      · exact hall u ht'
      · exact ht'
    · intro p hp htrig
      rw [(h0 p hp).2 htrig, (h0 p hp).1]
      rfl
  intro p hp htrig
  rw [hinv p hp htrig]
  cases p.isOpen with
  | false => simp [boolToString, hne]
  | true => simp [boolToString]

/-- C30 witness: on the sample navigation a trigger is opened, the menu is
toggled shut, and another trigger is opened. -/
theorem DropdownManager.aria_in_step_witness :
    (NavState.run sampleNav [NavEvent.click 500 (dropdownLink 0),
        NavEvent.click 500 { inMobileToggle := true },
        NavEvent.click 500 (dropdownLink 2)]).dropdownParents.map
      (fun p => (p.isOpen, p.ariaExpanded)) =
        [(false, some (js "false")), (false, some (js "false")), (true, some (js "true"))] ∧
    ∀ p ∈ (NavState.run sampleNav [NavEvent.click 500 (dropdownLink 0),
        NavEvent.click 500 { inMobileToggle := true },
        NavEvent.click 500 (dropdownLink 2)]).dropdownParents,
      p.hasTrigger = true → (p.ariaExpanded = some (js "true") ↔ p.isOpen = true) :=
  ⟨by decide, DropdownManager.aria_in_step sampleNav _ (by decide)⟩

/-! ### Claims on search over filter and on repeated dismissal -/

/-- C23, as stated, fails: the `abs` filter has hidden the PLA card (`display`
is `'none'` and `shouldShowCard` is false), and `handleSearch` with an empty
query sets its `display` to `'block'`. -/
theorem FilamentsManager.handleSearch_shows_filtered_card :
    filteredWorld.page.cards.map (fun card => card.display) = [js "none"] ∧
    filteredWorld.page.cards.map filteredWorld.manager.shouldShowCard = [false] ∧
    (handleSearch asciiLower filteredWorld.page (js "")).cards.map (fun card => card.display) =
      [js "block"] ∧
    (handleSearch asciiLower filteredWorld.page (js "pla")).cards.map (fun card => card.display) =
      [js "block"] := by
  decide

/-- C23, amended: when every card has a title and a description element,
`handleSearch` keeps the `display` of every card that does not match a
non-empty term, and sets `display` to `'block'` on every card that matches
(on every card when the term is empty), whatever the filter had set. -/
theorem FilamentsManager.handleSearch_display (lower : JSString → JSString) (p : Page)
    (query : JSString)
    (hcards : ∀ card ∈ p.cards, card.title.isSome = true ∧ card.description.isSome = true) :
    List.Forall₂
      (fun card result =>
        ((trim (lower query) = [] ∨
            trim (lower query) <:+: lower (card.title.getD []) ∨
            trim (lower query) <:+: lower (card.description.getD []) ∨
            trim (lower query) <:+: join (js " ") (card.featureTags.map lower)) →
          result.display = js "block") ∧
        (¬ (trim (lower query) = [] ∨
            trim (lower query) <:+: lower (card.title.getD []) ∨
            trim (lower query) <:+: lower (card.description.getD []) ∨
            trim (lower query) <:+: join (js " ") (card.featureTags.map lower)) →
          result.display = card.display))
      p.cards (handleSearch lower p query).cards := by
  have hempty : js "" = [] := by decide
  simp only [handleSearch]
  generalize trim (lower query) = term
  generalize p.cards = cards at hcards
  induction cards with
  | nil => exact List.Forall₂.nil
  | cons card rest ih =>
    have hc := hcards card (List.mem_cons_self _ _)
    have hrest : ∀ c ∈ rest, c.title.isSome = true ∧ c.description.isSome = true :=
      fun c hmem => hcards c (List.mem_cons_of_mem _ hmem)
    obtain ⟨titleText, ht⟩ := Option.isSome_iff_exists.mp hc.1
    obtain ⟨descriptionText, hdesc⟩ := Option.isSome_iff_exists.mp hc.2
    simp only [handleSearchLoop, ht, hdesc]
    refine List.Forall₂.cons ?_ (ih hrest)
    have hcond : searchMatches lower term card titleText descriptionText = true ↔
        (term = [] ∨ term <:+: lower titleText ∨ term <:+: lower descriptionText ∨
          term <:+: join (js " ") (card.featureTags.map lower)) := by
      simp only [searchMatches, Bool.or_eq_true, includes_iff_infix, beq_iff_eq, hempty]
      tauto
    simp only [ht, hdesc, Option.getD_some]
    by_cases hm : searchMatches lower term card titleText descriptionText = true
    · rw [if_pos hm]
      exact ⟨fun _ => rfl, fun hno => absurd (hcond.mp hm) hno⟩
    · rw [if_neg hm]
      exact ⟨fun hyes => absurd (hcond.mpr hyes) hm, fun _ => rfl⟩

/-- C23 witness: the query `pla` on the page whose PLA card the filter has
hidden. -/
theorem FilamentsManager.handleSearch_display_witness :
    List.Forall₂
      (fun card result =>
        ((trim (asciiLower (js "pla")) = [] ∨
            trim (asciiLower (js "pla")) <:+: asciiLower (card.title.getD []) ∨
            trim (asciiLower (js "pla")) <:+: asciiLower (card.description.getD []) ∨
            trim (asciiLower (js "pla")) <:+: join (js " ") (card.featureTags.map asciiLower)) →
          result.display = js "block") ∧
        (¬ (trim (asciiLower (js "pla")) = [] ∨
            trim (asciiLower (js "pla")) <:+: asciiLower (card.title.getD []) ∨
            trim (asciiLower (js "pla")) <:+: asciiLower (card.description.getD []) ∨
            trim (asciiLower (js "pla")) <:+: join (js " ") (card.featureTags.map asciiLower)) →
          result.display = card.display))
      filteredWorld.page.cards (handleSearch asciiLower filteredWorld.page (js "pla")).cards :=
  FilamentsManager.handleSearch_display asciiLower filteredWorld.page (js "pla") (by decide)

/-- C24: the claim fails. A click on the close button followed by the Escape
key (whose listener is still registered) schedules two removals; the second
`removeChild` runs when the modal is no longer a child of `body` and throws.
The same happens when Escape is pressed after the modal has been removed. -/
theorem ModalDocument.second_removal_throws :
    modalFreePage.state.uncaught = 0 ∧
    closedTwice.pending = [] ∧
    closedTwice.state.children = [0, 1] ∧
    closedTwice.state.uncaught = 1 ∧
    escapeAfterRemoval.pending = [] ∧
    escapeAfterRemoval.state.uncaught = 1 := by
  decide

/-! ### Claims on the carousel -/

theorem Carousel.go_range (n : Nat) (hn : 1 ≤ n) (i : Int) (hlow : -1 ≤ i) :
    0 ≤ go n i ∧ go n i < n := by
  unfold go
  have hnonneg : 0 ≤ i + (n : Int) := by omega
  have hpos : (0 : Int) < n := by omega
  rw [Int.tmod_eq_emod hnonneg (by omega)]
  exact ⟨Int.emod_nonneg _ (by omega), Int.emod_lt_of_pos _ hpos⟩

theorem Carousel.handle_range (n : Nat) (hn : 1 ≤ n) (index : Int) (e : CarouselEvent)
    (h : 0 ≤ index ∧ index < n) : 0 ≤ handle n index e ∧ handle n index e < n := by
  cases e with
  | prev => exact go_range n hn _ (by omega)
  | next => exact go_range n hn _ (by omega)
  | dot i =>
    simp only [handle]
    split
    · exact go_range n hn _ (by omega)
    · exact h
  | autoplay => exact go_range n hn _ (by omega)
  | swipeLeft => exact go_range n hn _ (by omega)
  | swipeRight => exact go_range n hn _ (by omega)

theorem Carousel.go_of_range (n : Nat) (i : Int) (h0 : 0 ≤ i) (h1 : i < n) :
    go n i = i := by
  unfold go
  rw [Int.tmod_eq_emod (by omega) (by omega)]
  have : (i + (n : Int)) % n = i % n := by simp
  rw [this]
  exact Int.emod_eq_of_lt h0 h1

theorem Carousel.go_length (n : Nat) : go n n = 0 := by
  unfold go
  have h := Int.tmod_eq_emod (show (0 : Int) ≤ (n : Int) + n by omega)
    (show (0 : Int) ≤ (n : Int) by omega)
  rw [h]
  simp

theorem Carousel.go_minus_one (n : Nat) (hn : 1 ≤ n) : go n (-1) = n - 1 := by
  unfold go
  have e : (-1 + (n : Int)) = n - 1 := by omega
  rw [e, Int.tmod_eq_emod (by omega) (by omega)]
  exact Int.emod_eq_of_lt (by omega) (by omega)

theorem Carousel.prev_after_next (n : Nat) (hn : 1 ≤ n) (index : Int)
    (h0 : 0 ≤ index) (h1 : index < n) :
    handle n (handle n index CarouselEvent.next) CarouselEvent.prev = index := by
  simp only [handle]
  by_cases hlast : index = n - 1
  · have e1 : index + 1 = (n : Int) := by omega
    rw [e1, go_length]
    have e2 : (0 : Int) - 1 = -1 := by omega
    rw [e2, go_minus_one n hn]
    omega
  · rw [go_of_range n (index + 1) (by omega) (by omega)]
    have e2 : index + 1 - 1 = index := by omega
    rw [e2]
    exact go_of_range n index h0 h1

/-- C26: with `n >= 1` slides, after any sequence of `go` calls issued by the
buttons, the dots, the autoplay and swipes, `0 <= index < n`; next from
`n - 1` gives 0, prev from 0 gives `n - 1`, and prev right after next gives
back the index from which next was called. -/
theorem Carousel.index_in_range (n : Nat) (hn : 1 ≤ n) (events : List CarouselEvent) :
    (0 ≤ run n events ∧ run n events < n) ∧
    handle n (n - 1) CarouselEvent.next = 0 ∧
    handle n 0 CarouselEvent.prev = n - 1 ∧
    handle n (handle n (run n events) CarouselEvent.next) CarouselEvent.prev = run n events := by
  have hrange : ∀ (evs : List CarouselEvent) (index : Int), 0 ≤ index ∧ index < n →
      0 ≤ evs.foldl (handle n) index ∧ evs.foldl (handle n) index < n := by
    intro evs
    induction evs with
    | nil => intro index h; exact h
    | cons e rest ih => intro index h; exact ih _ (handle_range n hn index e h)
  have hrun : 0 ≤ run n events ∧ run n events < n :=
    hrange events 0 ⟨Int.le_refl 0, by omega⟩
  refine ⟨hrun, ?_, ?_, prev_after_next n hn _ hrun.1 hrun.2⟩
  · simp only [handle]
    have e : ((n : Int) - 1 + 1) = n := by omega
    rw [e, go_length]
  · simp only [handle]
    have e : ((0 : Int) - 1) = -1 := by omega
    rw [e, go_minus_one n hn]

/-- C26 witness: three slides; next, next, next, prev. -/
theorem Carousel.index_in_range_witness :
    (0 ≤ run 3 [CarouselEvent.next, CarouselEvent.next, CarouselEvent.next, CarouselEvent.prev] ∧
      run 3 [CarouselEvent.next, CarouselEvent.next, CarouselEvent.next, CarouselEvent.prev] <
        (3 : Nat)) ∧
    run 3 [CarouselEvent.next, CarouselEvent.next, CarouselEvent.next, CarouselEvent.prev] = 2 :=
  ⟨(Carousel.index_in_range 3 (by decide)
      [CarouselEvent.next, CarouselEvent.next, CarouselEvent.next, CarouselEvent.prev]).1,
    by decide⟩

/-! ### Claims on the blog page and on FormHandler -/

/-- C28: after `applyFilters`, with `cat` the `data-filter` of the active
category button (`'all'` when none is active) and `q` the trimmed lower-cased
search value, a blog card has `display` `''` when `cat` is `'all'` or equals
its `data-category`, and `q` is empty or occurs in its lower-cased
`data-title` or in its lower-cased text; every other card has `display`
`'none'`. -/
theorem BlogPage.applyFilters_display (lower : JSString → JSString) (p : BlogPage) :
    List.Forall₂
      (fun card result =>
        (result.display ≠ js "none" ↔
          ((p.cat = some (js "all") ∨ card.category = p.cat) ∧
            (p.query lower = [] ∨ p.query lower <:+: lower (orEmpty card.title) ∨
              p.query lower <:+: lower card.innerText))) ∧
        (result.display = js "" ∨ result.display = js "none"))
      p.cards (applyFilters lower p).cards ∧
    (applyFilters asciiLower sampleBlog).cards.map (fun card => card.display) =
      [js "", js "none", js "none"] := by
  have hne : js "" ≠ js "none" := by decide
  refine ⟨?_, by decide⟩
  simp only [applyFilters]
  generalize p.cat = cat
  generalize p.query lower = q
  generalize p.cards = cards
  induction cards with
  | nil => exact List.Forall₂.nil
  | cons card rest ih =>
    simp only [List.map_cons]
    refine List.Forall₂.cons ?_ ih
    have hcond : ((cat == some (js "all") || card.category == cat) &&
          (q.isEmpty || includes (lower (orEmpty card.title)) q ||
            includes (lower card.innerText) q)) = true ↔
        ((cat = some (js "all") ∨ card.category = cat) ∧
          (q = [] ∨ q <:+: lower (orEmpty card.title) ∨ q <:+: lower card.innerText)) := by
      simp only [Bool.and_eq_true, Bool.or_eq_true, beq_iff_eq, List.isEmpty_iff,
        includes_iff_infix, or_assoc]
    by_cases hc : ((cat == some (js "all") || card.category == cat) &&
          (q.isEmpty || includes (lower (orEmpty card.title)) q ||
            includes (lower card.innerText) q)) = true
    · dsimp only
      rw [if_pos hc]
      exact ⟨⟨fun _ => hcond.mp hc, fun _ => hne⟩, Or.inl rfl⟩
    · dsimp only
      rw [if_neg hc]
      exact ⟨⟨fun h => absurd rfl h, fun hyes => absurd (hcond.mpr hyes) hc⟩, Or.inr rfl⟩

/-- C29: `handleSubmit` shows the success notification `Message sent
successfully!` and resets the three controls when all three raw values are
non-empty (white space counts), and otherwise shows the error notification
`Please fill in all fields` and leaves the values as they are. -/
theorem FormHandler.handleSubmit_outcome (w : Timeline HomeForm NotificationAction) :
    (w.state.name ≠ [] ∧ w.state.email ≠ [] ∧ w.state.message ≠ [] →
      (handleSubmit w).state.notifications = w.state.notifications ++
        [{ message := js "Message sent successfully!", className := js "notification success"
           background := js "#4CAF50", animation := js "slideIn 0.3s ease" }] ∧
      (handleSubmit w).state.name = w.state.defaults.name ∧
      (handleSubmit w).state.email = w.state.defaults.email ∧
      (handleSubmit w).state.message = w.state.defaults.message) ∧
    (¬ (w.state.name ≠ [] ∧ w.state.email ≠ [] ∧ w.state.message ≠ []) →
      (handleSubmit w).state.notifications = w.state.notifications ++
        [{ message := js "Please fill in all fields", className := js "notification error"
           background := js "#f44336", animation := js "slideIn 0.3s ease" }] ∧
      (handleSubmit w).state.name = w.state.name ∧
      (handleSubmit w).state.email = w.state.email ∧
      (handleSubmit w).state.message = w.state.message) ∧
    (handleSubmit { state := { name := js " ", email := js " ", message := js " " } }).state.notifications
      = [{ message := js "Message sent successfully!", className := js "notification success"
           background := js "#4CAF50", animation := js "slideIn 0.3s ease" }] := by
  have he : js "error" ≠ js "success" := by decide
  have hcs : js "notification " ++ js "success" = js "notification success" := by decide
  have hce : js "notification " ++ js "error" = js "notification error" := by decide
  refine ⟨?_, ?_, by decide⟩
  · rintro ⟨hn, hem, hm⟩
    have hc : (w.state.name.isEmpty || w.state.email.isEmpty || w.state.message.isEmpty) = false := by
      simp [List.isEmpty_iff, hn, hem, hm]
    simp [handleSubmit, hc, showNotification, hcs]
  · intro hno
    have hc : (w.state.name.isEmpty || w.state.email.isEmpty || w.state.message.isEmpty) = true := by
      simp only [Bool.or_eq_true, List.isEmpty_iff]
      by_contra hcon
      exact hno ⟨fun h => hcon (Or.inl (Or.inl h)), fun h => hcon (Or.inl (Or.inr h)),
        fun h => hcon (Or.inr h)⟩
    simp [handleSubmit, hc, showNotification, hce, he]

/-! ### Claims on the email pattern -/

namespace RegExp

theorem matches_star_unit_forall (e : RegExp) (x : JSString) (h : Matches e x) :
    ∀ cls : Nat → Bool, e = star (unit cls) → ∀ c ∈ x, cls c = true := by
  induction h with
  | empty => intro cls he; cases he
  | unit cls c hc => intro cls he; cases he
  | seq r s x y _ _ _ _ => intro cls he; cases he
  | altLeft r s x _ _ => intro cls he; cases he
  | altRight r s x _ _ => intro cls he; cases he
  | starNil r => intro cls _ c hc; cases hc
  | starCons r x y hx _ _ ihy =>
    intro cls he c hc
    cases he
    rcases List.mem_append.mp hc with hcx | hcy
    · obtain ⟨a, rfl, ha⟩ := (matches_unit_iff cls x).mp hx
      simp only [List.mem_singleton] at hcx
      rw [hcx]; exact ha
    · exact ihy cls rfl c hcy

theorem matches_star_unit_iff (cls : Nat → Bool) (x : JSString) :
    Matches (star (unit cls)) x ↔ ∀ c ∈ x, cls c = true := by
  constructor
  · intro h
    exact matches_star_unit_forall _ _ h cls rfl
  · intro h
    induction x with
    | nil => exact Matches.starNil _
    | cons c cs ih =>
      exact Matches.starCons (unit cls) [c] cs
        (Matches.unit cls c (h c (List.mem_cons_self _ _)))
        (ih (fun a ha => h a (List.mem_cons_of_mem _ ha)))

theorem matches_plus_unit_iff (cls : Nat → Bool) (x : JSString) :
    Matches (plus (unit cls)) x ↔ x ≠ [] ∧ ∀ c ∈ x, cls c = true := by
  simp only [plus, matches_seq_iff, matches_unit_iff, matches_star_unit_iff]
  constructor
  · rintro ⟨u, v, rfl, ⟨c, rfl, hc⟩, hv⟩
    refine ⟨by simp, ?_⟩
    intro a ha
    simp only [List.singleton_append, List.mem_cons] at ha
    rcases ha with rfl | ha
    · exact hc
    · exact hv a ha
  · rintro ⟨hne, hall⟩
    cases x with
    | nil => exact absurd rfl hne
    | cons c cs =>
      exact ⟨[c], cs, rfl, ⟨c, rfl, hall c (List.mem_cons_self _ _)⟩,
        fun a ha => hall a (List.mem_cons_of_mem _ ha)⟩

theorem matches_char_iff (ch : Char) (x : JSString) :
    Matches (char ch) x ↔ x = [ch.toNat] := by
  simp only [char, matches_unit_iff, beq_iff_eq]
  constructor
  · rintro ⟨c, rfl, rfl⟩; rfl
  · intro h; exact ⟨ch.toNat, h, rfl⟩

end RegExp

/-- The strings of the email pattern: three non-empty runs of code units that
are neither white space nor `@`, separated by `@` and `.`. -/
theorem matches_emailRegex_iff (s : JSString) :
    RegExp.Matches emailRegex s ↔
      ∃ u v w : JSString, s = u ++ '@'.toNat :: (v ++ '.'.toNat :: w) ∧
        (u ≠ [] ∧ ∀ c ∈ u, notSpaceOrAt c = true) ∧
        (v ≠ [] ∧ ∀ c ∈ v, notSpaceOrAt c = true) ∧
        (w ≠ [] ∧ ∀ c ∈ w, notSpaceOrAt c = true) := by
  simp only [emailRegex, RegExp.matches_seq_iff, RegExp.matches_plus_unit_iff,
    RegExp.matches_char_iff]
  constructor
  · rintro ⟨u, r1, rfl, hu, a, r2, rfl, rfl, v, r3, rfl, hv, d, w, rfl, rfl, hw⟩
    exact ⟨u, v, w, by simp, hu, hv, hw⟩
  · rintro ⟨u, v, w, rfl, hu, hv, hw⟩
    exact ⟨u, _, rfl, hu, _, _, rfl, rfl, v, _, rfl, hv, _, w, rfl, rfl, hw⟩

theorem notSpaceOrAt_iff (c : Nat) :
    notSpaceOrAt c = true ↔ isWhiteSpace c = false ∧ c ≠ '@'.toNat := by
  simp [notSpaceOrAt]

/-- C25: `isValidEmail(s)` is true exactly when `s` contains no white-space
code unit, contains exactly one `@`, has at least one code unit before the
`@`, and the part after the `@` contains a `.` that is neither its first nor
its last code unit. -/
theorem isValidEmail_iff (s : JSString) :
    isValidEmail s = true ↔
      (∀ c ∈ s, isWhiteSpace c = false) ∧
      s.count '@'.toNat = 1 ∧
      ∃ u t : JSString, s = u ++ '@'.toNat :: t ∧ u ≠ [] ∧
        ∃ v w : JSString, t = v ++ '.'.toNat :: w ∧ v ≠ [] ∧ w ≠ [] := by
  have hat : isWhiteSpace '@'.toNat = false := by decide
  have hdot : isWhiteSpace '.'.toNat = false := by decide
  have hdotat : '.'.toNat ≠ '@'.toNat := by decide
  unfold isValidEmail
  rw [RegExp.test_iff, matches_emailRegex_iff]
  constructor
  · rintro ⟨u, v, w, rfl, ⟨hu, hua⟩, ⟨hv, hva⟩, ⟨hw, hwa⟩⟩
    have hnu : '@'.toNat ∉ u := fun h => ((notSpaceOrAt_iff _).mp (hua _ h)).2 rfl
    have hnv : '@'.toNat ∉ v := fun h => ((notSpaceOrAt_iff _).mp (hva _ h)).2 rfl
    have hnw : '@'.toNat ∉ w := fun h => ((notSpaceOrAt_iff _).mp (hwa _ h)).2 rfl
    refine ⟨?_, ?_, u, _, rfl, hu, v, w, rfl, hv, hw⟩
    · intro c hc
      simp only [List.mem_append, List.mem_cons] at hc
      rcases hc with hc | rfl | hc | rfl | hc
      · exact ((notSpaceOrAt_iff _).mp (hua _ hc)).1
      · exact hat
      · exact ((notSpaceOrAt_iff _).mp (hva _ hc)).1
      · exact hdot
      · exact ((notSpaceOrAt_iff _).mp (hwa _ hc)).1
    · rw [List.count_append, List.count_cons, List.count_append, List.count_cons,
        List.count_eq_zero_of_not_mem hnu, List.count_eq_zero_of_not_mem hnv,
        List.count_eq_zero_of_not_mem hnw]
      decide
  · rintro ⟨hws, hcount, u, t, rfl, hu, v, w, rfl, hv, hw⟩
    have hc0 : u.count '@'.toNat = 0 ∧ v.count '@'.toNat = 0 ∧ w.count '@'.toNat = 0 := by
      simp only [List.count_append, List.count_cons, beq_self_eq_true, ite_true] at hcount
      omega
    have hnu : '@'.toNat ∉ u := List.count_eq_zero.mp hc0.1
    have hnv : '@'.toNat ∉ v := List.count_eq_zero.mp hc0.2.1
    have hnw : '@'.toNat ∉ w := List.count_eq_zero.mp hc0.2.2
    refine ⟨u, v, w, rfl, ⟨hu, ?_⟩, ⟨hv, ?_⟩, ⟨hw, ?_⟩⟩
    · intro c hc
      exact (notSpaceOrAt_iff c).mpr ⟨hws c (by simp [hc]), fun h => hnu (h ▸ hc)⟩
    · intro c hc
      exact (notSpaceOrAt_iff c).mpr ⟨hws c (by simp [hc]), fun h => hnv (h ▸ hc)⟩
    · intro c hc
      exact (notSpaceOrAt_iff c).mpr ⟨hws c (by simp [hc]), fun h => hnw (h ▸ hc)⟩

/-! ### Claims on the stats counter -/

theorem digitChar_toNat (k : Nat) (hk : k < 10) : (Nat.digitChar k).toNat = 48 + k := by
  interval_cases k <;> rfl

theorem digitValue_append_singleton (digits : JSString) (d : Nat) :
    digitValue (digits ++ [d]) = 10 * digitValue digits + (d - 48) := by
  simp [digitValue, List.foldl_append]

/-- Printing the value of a digit string without leading zero gives the
digits back. -/
theorem toDigitsCore_digitValue (digits : JSString) :
    digits ≠ [] → (∀ c ∈ digits, isDigit c = true) → digits.head? ≠ some 48 →
    1 ≤ digitValue digits ∧
    ∀ (fuel : Nat) (acc : List Char), digitValue digits < fuel →
      (Nat.toDigitsCore 10 fuel (digitValue digits) acc).map Char.toNat =
        digits ++ acc.map Char.toNat := by
  induction digits using List.reverseRecOn with
  | nil => intro h; exact absurd rfl h
  | append_singleton ds d ih =>
    intro _ hdig hlead
    have hd : isDigit d = true := hdig d (by simp)
    simp only [isDigit, Bool.and_eq_true, decide_eq_true_eq] at hd
    rw [digitValue_append_singleton]
    cases ds with
    | nil =>
      have hne : d ≠ 48 := by
        intro h; apply hlead; simp [h]
      have hv : digitValue [] = 0 := rfl
      rw [hv]
      refine ⟨by omega, ?_⟩
      intro fuel acc hfuel
      obtain ⟨f, rfl⟩ : ∃ f, fuel = f + 1 := ⟨fuel - 1, by omega⟩
      have hdiv : (10 * 0 + (d - 48)) / 10 = 0 := by omega
      have hmod : (10 * 0 + (d - 48)) % 10 = d - 48 := by omega
      simp only [Nat.toDigitsCore, hdiv, hmod, ite_true, List.map_cons, List.nil_append,
        List.cons.injEq, and_true]
      rw [digitChar_toNat _ (by omega)]
      have hback : 48 + (d - 48) = d := by omega
      rw [hback]
      rfl
    | cons a rest =>
      have hds := ih (by simp) (fun c hc => hdig c (by
        simp only [List.cons_append, List.mem_cons, List.mem_append, List.mem_singleton] at hc ⊢
        rcases hc with h | h
        · exact Or.inl h
        · exact Or.inr (Or.inl h))) (by simpa using hlead)
      obtain ⟨hpos, hcore⟩ := hds
      refine ⟨by omega, ?_⟩
      intro fuel acc hfuel
      obtain ⟨f, rfl⟩ : ∃ f, fuel = f + 1 := ⟨fuel - 1, by omega⟩
      have hdiv : (10 * digitValue (a :: rest) + (d - 48)) / 10 = digitValue (a :: rest) := by
        omega
      have hmod : (10 * digitValue (a :: rest) + (d - 48)) % 10 = d - 48 := by omega
      have hnz : digitValue (a :: rest) ≠ 0 := by omega
      simp only [Nat.toDigitsCore, hdiv, hmod, hnz, ite_false]
      rw [hcore f _ (by omega)]
      rw [List.map_cons, digitChar_toNat _ (by omega)]
      have hback : 48 + (d - 48) = d := by omega
      rw [hback]
      simp

theorem flatMap_utf16Char (l : List Char) (h : ∀ c ∈ l, c.toNat < 0x10000) :
    l.flatMap utf16Char = l.map Char.toNat := by
  induction l with
  | nil => rfl
  | cons c cs ih =>
    have hc := h c (List.mem_cons_self _ _)
    simp only [List.flatMap_cons, List.map_cons, utf16Char, hc, ite_true, List.singleton_append]
    rw [ih (fun a ha => h a (List.mem_cons_of_mem _ ha))]

/-- `String(n)` of the value of a digit string without leading zero is the
digit string. -/
theorem numberToString_digitValue (digits : JSString) (hne : digits ≠ [])
    (hdig : ∀ c ∈ digits, isDigit c = true) (hlead : digits.head? ≠ some 48) :
    FilamentsManager.numberToString (digitValue digits) = digits := by
  have hcore := (toDigitsCore_digitValue digits hne hdig hlead).2
    (digitValue digits + 1) [] (Nat.lt_succ_self _)
  simp only [List.map_nil, List.append_nil] at hcore
  have hdata : (toString (digitValue digits)).data = Nat.toDigits 10 (digitValue digits) := rfl
  have hbmp : ∀ c ∈ Nat.toDigits 10 (digitValue digits), c.toNat < 0x10000 := by
    intro c hc
    have hmem : c.toNat ∈ (Nat.toDigits 10 (digitValue digits)).map Char.toNat :=
      List.mem_map_of_mem _ hc
    rw [Nat.toDigits, hcore] at hmem
    have := hdig _ hmem
    simp only [isDigit, Bool.and_eq_true, decide_eq_true_eq] at this
    omega
  unfold FilamentsManager.numberToString js
  rw [hdata, flatMap_utf16Char _ hbmp]
  exact hcore

theorem two_pow_53_lt (k : Nat) (hk : 53 < k) : (2 : Nat) ^ 53 < 2 ^ k :=
  Nat.pow_lt_pow_right Nat.one_lt_two hk

theorem toNumber_of_le (m : Nat) (h : m ≤ 2 ^ 53) : toNumber m = JSNumber.finite m := by
  have hlt : m < 2 ^ 1024 := Nat.lt_of_le_of_lt h (two_pow_53_lt 1024 (by decide))
  have hround : roundToDouble m = m := by
    unfold roundToDouble
    rw [if_pos h]
  rw [toNumber, hround, if_pos hlt]

theorem log2_first_inexact : Nat.log2 9007199254740993 = 53 := by
  rw [Nat.log2_eq_log_two]
  exact Nat.log_eq_of_pow_le_of_lt_pow (by norm_num) (by norm_num)

theorem roundToDouble_first_inexact : roundToDouble 9007199254740993 = 9007199254740992 := by
  simp [roundToDouble, log2_first_inexact]

theorem toNumber_first_inexact :
    toNumber 9007199254740993 = JSNumber.finite 9007199254740992 := by
  have h3 : (9007199254740992 : Nat) ≤ 2 ^ 53 := by decide
  have hlt : (9007199254740992 : Nat) < 2 ^ 1024 :=
    Nat.lt_of_le_of_lt h3 (two_pow_53_lt 1024 (by decide))
  rw [toNumber, roundToDouble_first_inexact, if_pos hlt]

theorem digitValue_first_inexact :
    digitValue (js "9007199254740993") = 9007199254740993 := by
  decide

theorem parseInt_first_inexact :
    parseInt (js "9007199254740993") = JSNumber.finite 9007199254740992 := by
  have htake : (js "9007199254740993").takeWhile isDigit = js "9007199254740993" := by decide
  have hcons : js "9007199254740993" = 57 :: js "007199254740993" := by decide
  unfold parseInt
  rw [htake, hcons]
  simp only
  rw [← hcons, digitValue_first_inexact, toNumber_first_inexact]

theorem numberToString_two_pow_53 :
    FilamentsManager.numberToString 9007199254740992 = js "9007199254740992" := by
  decide

theorem StatCounter.finalText_of (counter : StatCounter) (n : Nat) (suffix : JSString)
    (hn : counter.numericValue = JSNumber.finite n) (hs : counter.suffix = suffix)
    (hsmall : n < 10 ^ 21) :
    counter.finalText = some (FilamentsManager.numberToString n ++ suffix) := by
  unfold StatCounter.finalText mathRound
  rw [hn, hs]
  show Option.map (fun text => text ++ suffix)
    (if n < 10 ^ 21 then some (FilamentsManager.numberToString n) else none) = _
  rw [if_pos hsmall]
  rfl

/-- C27, as stated, fails: the label `9007199254740993+` is a run of digits
without leading zero and a suffix, but `parseInt` gives the double
`9007199254740992`, and the counter ends on `9007199254740992+`. -/
theorem StatCounter.long_label_is_rounded :
    (extract (js "9007199254740993+")).numericValue = JSNumber.finite 9007199254740992 ∧
    (extract (js "9007199254740993+")).suffix = js "+" ∧
    (extract (js "9007199254740993+")).finalText = some (js "9007199254740992+") ∧
    some (js "9007199254740992+") ≠ some (js "9007199254740993+") := by
  have hdigits : removeAll (fun c => !isDigit c) (js "9007199254740993+") =
      js "9007199254740993" := by decide
  have hsuffix : removeAll (fun c => isDigit c || isWhiteSpace c) (js "9007199254740993+") =
      js "+" := by decide
  have hcat : js "9007199254740992" ++ js "+" = js "9007199254740992+" := by decide
  have hsmall : (9007199254740992 : Nat) < 10 ^ 21 := by decide
  have hnum : (extract (js "9007199254740993+")).numericValue =
      JSNumber.finite 9007199254740992 := by
    simp only [extract, hdigits, parseInt_first_inexact]
  have hsuf : (extract (js "9007199254740993+")).suffix = js "+" := hsuffix
  have htext := StatCounter.finalText_of _ _ _ hnum hsuf hsmall
  rw [numberToString_two_pow_53, hcat] at htext
  exact ⟨hnum, hsuf, htext, by decide⟩

/-- C27, amended: for a label made of a non-empty run of decimal digits
without leading zero whose value is at most `2^53`, followed by a suffix
without digit and white space, the extracted value is that number, the
extracted suffix is the suffix, and the counter ends on the label. -/
theorem StatCounter.round_trip (digits suffix : JSString)
    (hne : digits ≠ []) (hdig : ∀ c ∈ digits, isDigit c = true)
    (hlead : digits.head? ≠ some 48)
    (hbound : digitValue digits ≤ 2 ^ 53)
    (hsuffix : ∀ c ∈ suffix, isDigit c = false ∧ isWhiteSpace c = false) :
    (extract (digits ++ suffix)).numericValue = JSNumber.finite (digitValue digits) ∧
    (extract (digits ++ suffix)).suffix = suffix ∧
    (extract (digits ++ suffix)).finalText = some (digits ++ suffix) := by
  have hkeep : removeAll (fun c => !isDigit c) (digits ++ suffix) = digits := by
    simp only [removeAll, Bool.not_not, List.filter_append]
    have h1 : digits.filter (fun c => isDigit c) = digits :=
      List.filter_eq_self.mpr (fun c hc => hdig c hc)
    have h2 : suffix.filter (fun c => isDigit c) = [] :=
      List.filter_eq_nil_iff.mpr (fun c hc => by simp [(hsuffix c hc).1])
    rw [h1, h2, List.append_nil]
  have hdrop : removeAll (fun c => isDigit c || isWhiteSpace c) (digits ++ suffix) = suffix := by
    simp only [removeAll, List.filter_append]
    have h1 : digits.filter (fun c => !(isDigit c || isWhiteSpace c)) = [] :=
      List.filter_eq_nil_iff.mpr (fun c hc => by simp [hdig c hc])
    have h2 : suffix.filter (fun c => !(isDigit c || isWhiteSpace c)) = suffix :=
      List.filter_eq_self.mpr (fun c hc => by simp [(hsuffix c hc).1, (hsuffix c hc).2])
    rw [h1, h2, List.nil_append]
  have htake : digits.takeWhile isDigit = digits :=
    List.takeWhile_eq_self_iff.mpr (fun c hc => hdig c hc)
  have hparse : parseInt digits = JSNumber.finite (digitValue digits) := by
    unfold parseInt
    rw [htake]
    cases hd : digits with
    | nil => exact absurd hd hne
    | cons a rest =>
      simp only
      rw [← hd, toNumber_of_le _ hbound]
  have hsmall : digitValue digits < 10 ^ 21 :=
    Nat.lt_of_le_of_lt hbound (by decide)
  refine ⟨?_, hdrop, ?_⟩
  · simp only [extract, hkeep, hparse]
  · simp only [finalText, extract, hkeep, hparse, hdrop, mathRound, JSNumber.toText, hsmall,
      ite_true, Option.map_some', numberToString_digitValue digits hne hdig hlead]

/-- C27 witness: the label `500+`. -/
theorem StatCounter.round_trip_witness :
    (extract (js "500+")).numericValue = JSNumber.finite 500 ∧
    (extract (js "500+")).suffix = js "+" ∧
    (extract (js "500+")).finalText = some (js "500+") :=
  StatCounter.round_trip (js "500") (js "+") (by decide) (by decide) (by decide) (by decide)
    (by decide)
